import Mathlib

/-!
# ThinkPad embedded-controller channel driver (`kmod/thinkpad_ec.c`)

A shallow embedding of the row protocol of the ThinkPad EC driver and of
its prefetch cache, and of the accelerometer sampler of
`kmod/hdaps/hdaps.c` that is built on it.

* The hardware is a deterministic transition system `Bus σ`: a byte read
  of a port returns a value and a new device state, a byte write returns
  a new device state.  Every theorem quantifies over the bus, so it holds
  for every behaviour of the device.
* The driver's globals (`prefetch_ticks`, `prefetch_arg0`,
  `prefetch_argF`) are fields of `ec_state`.  The kernel globals `hz` and
  `ticks` are parameters of the functions that read them.
* Two ghost fields, absent from the C code, make the behaviour
  observable: `log` is the chronological list of port accesses, `calls`
  is the chronological list of completed calls of the two protocol
  primitives together with their return values.
* `device_printf` and `DELAY` have no effect on the modelled state and
  are left out.
* Bytes are natural numbers; a port read yields a value below 256.  The C
  `int` arithmetic on `ticks` and `hz` is arithmetic on `Int` followed by
  the two's complement wrap-around `int32`, which is what the machine
  computes; theorems that need exact arithmetic assume that the sum in
  question does not overflow.
* The globals of `hdaps.c` are the fields of `sampler_state` and
  `hdaps_config` inside `hdaps_state`, next to the channel state, the
  mutex and two more ghost traces.  `ticks` is volatile: each read made by
  `__hdaps_update` has its own value in `update_env`.
* A sysctl handler sees its request as a `sysctl_req`; the results of
  `SYSCTL_OUT` and `SYSCTL_IN` are fields of the request.  A handler that
  divides by zero returns `none`.  The timer handler `hdaps_mousedev_poll`
  returns what it did to its timer.
-/

namespace ThinkpadEC

/-! ## Constants of `thinkpad_ec.c` -/

/-- Port of the H8S status register STR3 (`TPC_STR3_PORT`). -/
def TPC_STR3_PORT : Nat := 0x04
/-- Port of the first data register TWR0 (`TPC_TWR0_PORT`). -/
def TPC_TWR0_PORT : Nat := 0x10
/-- Port of the last data register TWR15 (`TPC_TWR15_PORT`). -/
def TPC_TWR15_PORT : Nat := 0x1f

/-- Input buffer full. -/
def H8S_STR3_IBF3B : Nat := 0x80
/-- Output buffer full. -/
def H8S_STR3_OBF3B : Nat := 0x40
/-- Master write mode flag. -/
def H8S_STR3_MWMF : Nat := 0x20
/-- Slave write mode flag. -/
def H8S_STR3_SWMF : Nat := 0x10
/-- All STR3 bits the driver looks at. -/
def H8S_STR3_MASK : Nat := 0xf0

/-- Bound of the two retry loops of `thinkpad_ec_read_row`. -/
def TPC_READ_RETRIES : Nat := 75
/-- Bound of the status poll that ends `thinkpad_ec_request_row`. -/
def TPC_REQUEST_RETRIES : Nat := 1000

/-- Modelled from the spec: the header `thinkpad_ec.h` is not part of the
sources at hand; a row has 16 byte slots (`TP_CONTROLLER_ROW_LEN`). -/
def TP_CONTROLLER_ROW_LEN : Nat := 16

/-- FreeBSD errno value of an input/output error. -/
def EIO : Int := 5
/-- FreeBSD errno value of a busy device. -/
def EBUSY : Int := 16
/-- FreeBSD errno value of an invalid argument. -/
def EINVAL : Int := 22
/-- FreeBSD errno value of a missing attribute. -/
def ENOATTR : Int := 87

/-- Value of a C `int` (32 bit, two's complement) after wrap-around. -/
def int32 (x : Int) : Int := (x + 2147483648) % 4294967296 - 2147483648

/-- The staleness window `TPC_PREFETCH_TIMEOUT`, that is `hz/10` in C's
truncating division. -/
def TPC_PREFETCH_TIMEOUT (hz : Int) : Int := Int.tdiv hz 10

/-- The sentinel `TPC_PREFETCH_NONE`, that is `-300*hz`. -/
def TPC_PREFETCH_NONE (hz : Int) : Int := int32 (-300 * hz)

/-- The sentinel `TPC_PREFETCH_JUNK`, that is `(-300*hz+1)`. -/
def TPC_PREFETCH_JUNK (hz : Int) : Int := int32 (int32 (-300 * hz) + 1)

/-! ## Data model -/

/-- Modelled from the spec: `struct thinkpad_ec_row` of the missing header
`thinkpad_ec.h`, a presence bitmask and 16 byte slots.  Only the slots
`val 0 .. val 15` are meaningful. -/
structure thinkpad_ec_row where
  mask : Nat
  val : Nat → Nat

/-- The assignment `row->val[i] = v`. -/
def set_val (row : thinkpad_ec_row) (i v : Nat) : thinkpad_ec_row :=
  { row with val := fun j => if j = i then v else row.val j }

/-- One access of a port: a read with the byte obtained, or a write with
the byte sent. -/
inductive Ev where
  | rd (port val : Nat)
  | wr (port val : Nat)
  deriving DecidableEq, Repr

/-- The two protocol primitives whose calls are recorded. -/
inductive Fn where
  | request_row
  | read_data
  deriving DecidableEq, Repr

/-- The device behind `bus_space_read_1` and `bus_space_write_1`. -/
structure Bus (σ : Type) where
  read_1 : σ → Nat → Nat × σ
  write_1 : σ → Nat → Nat → σ

/-- The state of the channel: the device, the prefetch globals of the
driver, and the two ghost traces. -/
structure ec_state (σ : Type) where
  hw : σ
  prefetch_ticks : Int
  prefetch_arg0 : Nat
  prefetch_argF : Nat
  log : List Ev
  calls : List (Fn × Int)

variable {σ : Type}

/-- The byte read `bus_space_read_1(sc->bst, sc->bsh, port)`. -/
def bus_space_read_1 (bus : Bus σ) (s : ec_state σ) (port : Nat) : Nat × ec_state σ :=
  let r := bus.read_1 s.hw port
  (r.1 % 256, { s with hw := r.2, log := s.log ++ [Ev.rd port (r.1 % 256)] })

/-- The byte write `bus_space_write_1(sc->bst, sc->bsh, port, v)`. -/
def bus_space_write_1 (bus : Bus σ) (s : ec_state σ) (port v : Nat) : ec_state σ :=
  { s with hw := bus.write_1 s.hw port v, log := s.log ++ [Ev.wr port v] }

/-- Ghost step: the call of `f` has returned `ret`. -/
def returned (f : Fn) (r : Int × ec_state σ) : Int × ec_state σ :=
  (r.1, { r.2 with calls := r.2.calls ++ [(f, r.1)] })

/-! ## `thinkpad_ec_request_row` -/

/-- The loop `for (i = ...; i < TP_CONTROLLER_ROW_LEN-1; i++)` that sends
TWR1 .. TWR14; `n` is the number of iterations left, `i` the index. -/
def send_args (bus : Bus σ) (args : thinkpad_ec_row) : Nat → Nat → ec_state σ → ec_state σ
  | 0, _, s => s
  | n + 1, i, s =>
    send_args bus args n (i + 1)
      (if (args.mask >>> i) &&& 1 ≠ 0 then
        bus_space_write_1 bus s (TPC_TWR0_PORT + i) (args.val i)
      else s)

/-- The loop `for (i = 0; i < TPC_REQUEST_RETRIES; i++)` that waits for the
EC to start its reply; `n` is the number of iterations left. -/
def wait_reply (bus : Bus σ) : Nat → ec_state σ → Int × ec_state σ
  | 0, s => (- EIO, s)
  | n + 1, s =>
    let r := bus_space_read_1 bus s TPC_STR3_PORT
    let str3 := r.1 &&& H8S_STR3_MASK
    if str3 &&& H8S_STR3_SWMF ≠ 0 then (0, r.2)
    else if str3 = (H8S_STR3_IBF3B ||| H8S_STR3_MWMF) ∨ str3 = 0x00 then
      wait_reply bus n r.2
    else (- EIO, r.2)

/-- The body of `thinkpad_ec_request_row`. -/
def request_row_body (bus : Bus σ) (args : thinkpad_ec_row) (s : ec_state σ) :
    Int × ec_state σ :=
  if args.mask &&& 0x0001 = 0 then (- EINVAL, s)
  else
    let r := bus_space_read_1 bus s TPC_STR3_PORT
    let str3 := r.1 &&& H8S_STR3_MASK
    if str3 &&& H8S_STR3_OBF3B ≠ 0 then
      (- EBUSY, (bus_space_read_1 bus r.2 TPC_TWR15_PORT).2)
    else if str3 = H8S_STR3_SWMF then (- EBUSY, r.2)
    else if str3 ≠ 0x00 then (- EIO, r.2)
    else
      let s1 := bus_space_write_1 bus r.2 TPC_TWR0_PORT (args.val 0)
      let r1 := bus_space_read_1 bus s1 TPC_STR3_PORT
      let str3 := r1.1 &&& H8S_STR3_MASK
      if str3 ≠ H8S_STR3_MWMF then (- EIO, r1.2)
      else
        let s2 := send_args bus args (TP_CONTROLLER_ROW_LEN - 1 - 1) 1 r1.2
        let s3 := bus_space_write_1 bus s2 TPC_TWR15_PORT
          (if args.mask &&& 0x8000 ≠ 0 then args.val 0xf else 0x01)
        wait_reply bus TPC_REQUEST_RETRIES s3

/-- Tell the embedded controller to prepare a row. -/
def thinkpad_ec_request_row (bus : Bus σ) (args : thinkpad_ec_row) (s : ec_state σ) :
    Int × ec_state σ :=
  returned Fn.request_row (request_row_body bus args s)

/-! ## `thinkpad_ec_read_data` -/

/-- The loop `for (i = ...; i < TP_CONTROLLER_ROW_LEN-1; i++)` that reads
TWR1 .. TWR14 where the data mask asks for them. -/
def read_args (bus : Bus σ) : Nat → Nat → thinkpad_ec_row → ec_state σ →
    thinkpad_ec_row × ec_state σ
  | 0, _, data, s => (data, s)
  | n + 1, i, data, s =>
    if (data.mask >>> i) &&& 1 ≠ 0 then
      let r := bus_space_read_1 bus s (TPC_TWR0_PORT + i)
      read_args bus n (i + 1) (set_val data i r.1) r.2
    else read_args bus n (i + 1) data s

/-- The body of `thinkpad_ec_read_data`; `args` is only used for the
messages of the C code. -/
def read_data_body (bus : Bus σ) (_args data : thinkpad_ec_row) (s : ec_state σ) :
    Int × thinkpad_ec_row × ec_state σ :=
  let r := bus_space_read_1 bus s TPC_STR3_PORT
  let str3 := r.1 &&& H8S_STR3_MASK
  if str3 = (H8S_STR3_IBF3B ||| H8S_STR3_MWMF) ∨ str3 = 0x00 ∨ str3 = H8S_STR3_SWMF then
    (- EBUSY, data, r.2)
  else if str3 ≠ (H8S_STR3_OBF3B ||| H8S_STR3_SWMF) then (- EIO, data, r.2)
  else
    let r0 := bus_space_read_1 bus r.2 TPC_TWR0_PORT
    let d0 := set_val data 0 r0.1
    let l := read_args bus (TP_CONTROLLER_ROW_LEN - 1 - 1) 1 d0 r0.2
    let rf := bus_space_read_1 bus l.2 TPC_TWR15_PORT
    let df := set_val l.1 0xf rf.1
    let r2 := bus_space_read_1 bus rf.2 TPC_STR3_PORT
    (0, df, r2.2)

/-- Read the current row data from the controller, assuming it was
requested. -/
def thinkpad_ec_read_data (bus : Bus σ) (args data : thinkpad_ec_row) (s : ec_state σ) :
    Int × thinkpad_ec_row × ec_state σ :=
  let r := read_data_body bus args data s
  (r.1, r.2.1, (returned Fn.read_data (r.1, r.2.2)).2)

/-! ## The prefetch cache -/

/-- Is the given row currently prefetched?  Only the first and the last
argument byte are compared. -/
def thinkpad_ec_is_row_fetched (hz ticks : Int) (args : thinkpad_ec_row)
    (s : ec_state σ) : Bool :=
  decide (s.prefetch_ticks ≠ TPC_PREFETCH_NONE hz) &&
  decide (s.prefetch_ticks ≠ TPC_PREFETCH_JUNK hz) &&
  decide (s.prefetch_arg0 = args.val 0) &&
  decide (s.prefetch_argF = args.val 0xF) &&
  decide (ticks < int32 (s.prefetch_ticks + TPC_PREFETCH_TIMEOUT hz))

/-- The request loop of `thinkpad_ec_read_row`; `n` is the number of
iterations left and `ret` the current value of the local `ret`.  The
Boolean tells whether the loop left through `goto read_row`. -/
def request_loop (bus : Bus σ) (args : thinkpad_ec_row) :
    Nat → Int → ec_state σ → Bool × Int × ec_state σ
  | 0, ret, s => (false, ret, s)
  | n + 1, _, s =>
    let r := thinkpad_ec_request_row bus args s
    if r.1 = 0 then (true, r.1, r.2)
    else if r.1 ≠ - EBUSY then (false, r.1, r.2)
    else request_loop bus args n r.1 r.2

/-- The read loop of `thinkpad_ec_read_row`, after the label `read_row`. -/
def read_loop (bus : Bus σ) (args : thinkpad_ec_row) :
    Nat → Int → thinkpad_ec_row → ec_state σ → Int × thinkpad_ec_row × ec_state σ
  | 0, ret, data, s => (ret, data, s)
  | n + 1, _, data, s =>
    let r := thinkpad_ec_read_data bus args data s
    if r.1 = 0 then r
    else if r.1 ≠ - EBUSY then r
    else read_loop bus args n r.1 r.2.1 r.2.2

/-- The label `out:` of `thinkpad_ec_read_row`, and `thinkpad_ec_invalidate`:
the cache is forced to the junk sentinel. -/
def thinkpad_ec_invalidate (hz : Int) (s : ec_state σ) : ec_state σ :=
  { s with prefetch_ticks := TPC_PREFETCH_JUNK hz }

/-- Request and read a row, with fetching and retrying.  The local `ret`
is not initialised in C; both loops run at least once, so the initial
value `0` used here is never returned. -/
def thinkpad_ec_read_row (bus : Bus σ) (hz ticks : Int) (args data : thinkpad_ec_row)
    (s : ec_state σ) : Int × thinkpad_ec_row × ec_state σ :=
  let r :=
    if thinkpad_ec_is_row_fetched hz ticks args s then
      read_loop bus args TPC_READ_RETRIES 0 data s
    else
      let q := request_loop bus args TPC_READ_RETRIES 0 s
      if q.1 then read_loop bus args TPC_READ_RETRIES q.2.1 data q.2.2
      else (q.2.1, data, q.2.2)
  (r.1, r.2.1, thinkpad_ec_invalidate hz r.2.2)

/-- Try reading a prefetched row; does not fetch, retry or block. -/
def thinkpad_ec_try_read_row (bus : Bus σ) (hz ticks : Int) (args data : thinkpad_ec_row)
    (s : ec_state σ) : Int × thinkpad_ec_row × ec_state σ :=
  if !thinkpad_ec_is_row_fetched hz ticks args s then (- ENOATTR, data, s)
  else
    let r := thinkpad_ec_read_data bus args data s
    if r.1 = 0 then (r.1, r.2.1, { r.2.2 with prefetch_ticks := TPC_PREFETCH_NONE hz })
    else r

/-- Prefetch a row: one request, and the cache records its outcome. -/
def thinkpad_ec_prefetch_row (bus : Bus σ) (hz ticks : Int) (args : thinkpad_ec_row)
    (s : ec_state σ) : Int × ec_state σ :=
  let r := thinkpad_ec_request_row bus args s
  if r.1 ≠ 0 then (r.1, { r.2 with prefetch_ticks := TPC_PREFETCH_JUNK hz })
  else
    (r.1, { r.2 with prefetch_ticks := ticks,
                     prefetch_arg0 := args.val 0x0,
                     prefetch_argF := args.val 0xF })

/-! ## Reference notions used to state the properties -/

/-- The masked status `STR3 & 0xf0` that the device shows in state `h`. -/
def status (bus : Bus σ) (h : σ) : Nat :=
  ((bus.read_1 h TPC_STR3_PORT).1 % 256) &&& H8S_STR3_MASK

/-- Specification of the optional argument writes: for the indices of
`idx`, in their order, slot `i` is written to port `TWR0+i` when bit `i` of
the mask is set, and nothing is written for a clear bit. -/
def spec_arg_writes (args : thinkpad_ec_row) (idx : List Nat) : List Ev :=
  (idx.filter (fun i => args.mask.testBit i)).map
    (fun i => Ev.wr (TPC_TWR0_PORT + i) (args.val i))

/-- An event is a write. -/
def Ev.isWrite : Ev → Bool
  | Ev.wr _ _ => true
  | Ev.rd _ _ => false

/-- The indices `i, i+1, ..., i+n-1` visited by a loop of `n` iterations
that starts at `i`. -/
def idx_from : Nat → Nat → List Nat
  | 0, _ => []
  | n + 1, i => i :: idx_from n (i + 1)

/-- The cache globals and the call trace of two states agree. -/
def same_cache (s t : ec_state σ) : Prop :=
  t.prefetch_ticks = s.prefetch_ticks ∧ t.prefetch_arg0 = s.prefetch_arg0 ∧
  t.prefetch_argF = s.prefetch_argF ∧ t.calls = s.calls

/-- The log of `t` extends the log of `s` by reads only. -/
def reads_only (s t : ec_state σ) : Prop :=
  ∃ evs : List Ev, (∀ e ∈ evs, e.isWrite = false) ∧ t.log = s.log ++ evs

/-- Specification of a bounded retry loop: `rs` lists the results of the
attempts made, in order; every attempt but the last returned Busy, the
number of attempts is at most `bound`, and the loop goes on after a Busy
result until the bound is used up; `last` is the result of the last
attempt. -/
def retry_results (bound : Nat) (rs : List Int) (last : Int) : Prop :=
  ∃ k : Nat, rs = List.replicate k (- EBUSY) ++ [last] ∧ k + 1 ≤ bound ∧
    (last = - EBUSY → k + 1 = bound)

/-- The ghost records of the attempts of primitive `f` with results `rs`. -/
def attempts (f : Fn) (rs : List Int) : List (Fn × Int) := rs.map (fun r => (f, r))

/-! ## A simulated channel -/

/-- Modelled from the spec: the deterministic in-memory fake of the
channel (design notes of the specification).  `script` lists the values
that the status port will show at the coming status reads (`0` once the
script is used up); `reply` is the content of the data ports TWR0 ..
TWR15.  Writes are accepted and leave the fake unchanged. -/
structure SimEC where
  script : List Nat
  reply : Nat → Nat

/-- Modelled from the spec: the bus of the simulated channel.  Each read of
the status port advances the script by one value. -/
def simBus : Bus SimEC where
  read_1 := fun d port =>
    if port = TPC_STR3_PORT then (d.script.headD 0, { d with script := d.script.tail })
    else (d.reply (port - TPC_TWR0_PORT), d)
  write_1 := fun d _ _ => d

/-- Modelled from the spec: the documented status sequence of one
transaction: idle, write accepted, reply started, output ready. -/
def documented_sequence : List Nat :=
  [0x00, H8S_STR3_MWMF, H8S_STR3_SWMF, H8S_STR3_OBF3B ||| H8S_STR3_SWMF]

/-- A channel state over the simulated device with empty ghost traces. -/
def sim_state (script : List Nat) (reply : Nat → Nat) (prefetch_ticks : Int) :
    ec_state SimEC :=
  { hw := { script := script, reply := reply }, prefetch_ticks := prefetch_ticks,
    prefetch_arg0 := 0, prefetch_argF := 0, log := [], calls := [] }

/-- A row given by its mask and the list of its first slots; the slots
that are not listed are zero, as in a C initialiser. -/
def mk_row (mask : Nat) (vals : List Nat) : thinkpad_ec_row :=
  { mask := mask, val := fun i => vals.getD i 0 }

/-! ## Accelerometer sampler (`kmod/hdaps/hdaps.c`) -/

/-- Offset of the number of readouts in the readout row. -/
def EC_ACCEL_IDX_READOUTS : Nat := 0x1
/-- Offset of the y-axis position word of the first readout. -/
def EC_ACCEL_IDX_YPOS1 : Nat := 0x2
/-- Offset of the x-axis position word of the first readout. -/
def EC_ACCEL_IDX_XPOS1 : Nat := 0x4
/-- Offset of the device temperature of the first readout. -/
def EC_ACCEL_IDX_TEMP1 : Nat := 0x6
/-- Offset of the keyboard and mouse activity byte. -/
def EC_ACCEL_IDX_KMACT : Nat := 0xd
/-- Offset of the command return value, good is `0x00`. -/
def EC_ACCEL_IDX_RETVAL : Nat := 0xf

/-- Activity bit of the keyboard. -/
def KEYBD_MASK : Nat := 0x20
/-- Activity bit of the mouse. -/
def MOUSE_MASK : Nat := 0x40

/-- Bound of the loop variable `total` of `hdaps_update`. -/
def READ_TIMEOUT_MSECS : Nat := 100
/-- Step of the loop variable `total` of `hdaps_update`. -/
def RETRY_MSECS : Nat := 3

/-- The accelerometer read command `ec_accel_args`. -/
def ec_accel_args : thinkpad_ec_row := mk_row 0x0001 [0x11]

/-- The data mask that `__hdaps_update` asks for. -/
def accel_data_mask : Nat :=
  (1 <<< EC_ACCEL_IDX_READOUTS) ||| (1 <<< EC_ACCEL_IDX_KMACT) |||
  (3 <<< EC_ACCEL_IDX_YPOS1) ||| (3 <<< EC_ACCEL_IDX_XPOS1) |||
  (1 <<< EC_ACCEL_IDX_TEMP1) ||| (1 <<< EC_ACCEL_IDX_RETVAL)

/-- The load of the `u_char` slot `data.val[i]`.  The element type of `val`
is declared in the missing header; the driver compares slots with `0x80`,
casts arguments to `u_char` and assembles words with `|` and `<<`, which
fixes it as an unsigned byte. -/
def byte (data : thinkpad_ec_row) (i : Nat) : Nat := data.val i % 256

/-- Value of a C `short` (16 bit, two's complement) with the given bits. -/
def int16 (x : Int) : Int := (x + 32768) % 65536 - 32768

/-- The load `*(short*)(data.val+i)` on the little-endian machines the
driver runs on: slot `i` is the low byte and slot `i+1` the high byte. -/
def load_short (data : thinkpad_ec_row) (i : Nat) : Int :=
  int16 ((byte data i : Int) + 256 * (byte data (i + 1) : Int))

/-- The conversion of an `int` to `u_long`, where `long_bits` is the width
of `long` on the machine (32 or 64). -/
def u_long (long_bits : Nat) (x : Int) : Nat := (x % (2 : Int) ^ long_bits).toNat

/-- The latest readout and the calibration state of `hdaps.c`. -/
structure sampler_state where
  pos_x : Int
  pos_y : Int
  temperature : Int
  stale_readout : Int
  rest_x : Int
  rest_y : Int
  last_keyboard_ticks : Nat
  last_mouse_ticks : Nat
  needs_calibration : Int
  deriving DecidableEq, Repr

/-- The configuration globals of `hdaps.c`. -/
structure hdaps_config where
  hdaps_invert : Nat
  sampling_rate : Int
  oversampling_ratio : Int
  running_avg_filter_order : Int
  fake_data_mode : Int
  deriving DecidableEq, Repr

/-- An operation on the mutex `thinkpad_ec_mtx`. -/
inductive LockEv where
  | lock
  | unlock
  deriving DecidableEq, Repr

/-- The state of the driver: the channel, the sampler and configuration
globals, the mutex, and two ghost traces: the operations on the mutex and
the completed calls of `__hdaps_update` with the argument `fast` and the
result. -/
structure hdaps_state (σ : Type) where
  ec : ec_state σ
  smp : sampler_state
  cfg : hdaps_config
  mtx_held : Bool
  lock_log : List LockEv
  updates : List (Bool × Int)

/-- What one call of `__hdaps_update` sees of its environment: the values
of the volatile kernel variable `ticks` at its four reads, and the content
of the uninitialised local `data.val`. -/
structure update_env where
  ticks_read : Int
  ticks_prefetch : Int
  ticks_keyboard : Int
  ticks_mouse : Int
  stack : Nat → Nat

/-- The blocking acquire `thinkpad_ec_lock`; it always returns 0. -/
def thinkpad_ec_lock (s : hdaps_state σ) : Int × hdaps_state σ :=
  (0, { s with mtx_held := true, lock_log := s.lock_log ++ [LockEv.lock] })

/-- The release `thinkpad_ec_unlock`. -/
def thinkpad_ec_unlock (s : hdaps_state σ) : hdaps_state σ :=
  { s with mtx_held := false, lock_log := s.lock_log ++ [LockEv.unlock] }

/-- Some models require an axis transformation. -/
def transform_axes (hdaps_invert : Nat) (x y : Int) : Int × Int :=
  if hdaps_invert ≠ 0 then (-x, -y) else (x, y)

/-- The read of the readout row that opens `__hdaps_update`. -/
def accel_read (bus : Bus σ) (hz : Int) (env : update_env) (fast : Bool)
    (ec : ec_state σ) : Int × thinkpad_ec_row × ec_state σ :=
  let data : thinkpad_ec_row := { mask := accel_data_mask, val := env.stack }
  if fast then thinkpad_ec_try_read_row bus hz env.ticks_read ec_accel_args data ec
  else thinkpad_ec_read_row bus hz env.ticks_read ec_accel_args data ec

/-- The body of `__hdaps_update`. -/
def hdaps_update_body (bus : Bus σ) (hz : Int) (long_bits : Nat) (env : update_env)
    (fast : Bool) (s : hdaps_state σ) : Int × hdaps_state σ :=
  let rd := accel_read bus hz env fast s.ec
  let data := rd.2.1
  let pf := thinkpad_ec_prefetch_row bus hz env.ticks_prefetch ec_accel_args rd.2.2
  let s1 : hdaps_state σ := { s with ec := pf.2 }
  if rd.1 ≠ 0 then (rd.1, s1)
  else if byte data EC_ACCEL_IDX_RETVAL ≠ 0x00 then (- EIO, s1)
  else if byte data EC_ACCEL_IDX_READOUTS < 1 then (- EBUSY, s1)
  else
    let p := transform_axes s.cfg.hdaps_invert
      (load_short data EC_ACCEL_IDX_XPOS1) (load_short data EC_ACCEL_IDX_YPOS1)
    let kb := if byte data EC_ACCEL_IDX_KMACT &&& KEYBD_MASK ≠ 0
      then u_long long_bits env.ticks_keyboard else s.smp.last_keyboard_ticks
    let ms := if byte data EC_ACCEL_IDX_KMACT &&& MOUSE_MASK ≠ 0
      then u_long long_bits env.ticks_mouse else s.smp.last_mouse_ticks
    let cal := s.smp.needs_calibration ≠ 0
    (0, { s1 with smp :=
      { pos_x := p.1, pos_y := p.2,
        temperature := (byte data EC_ACCEL_IDX_TEMP1 : Int),
        stale_readout := 0,
        rest_x := if cal then p.1 else s.smp.rest_x,
        rest_y := if cal then p.2 else s.smp.rest_y,
        last_keyboard_ticks := kb, last_mouse_ticks := ms,
        needs_calibration := if cal then 0 else s.smp.needs_calibration } })

/-- Query the accelerometer with the lock held; the ghost trace records the
completed call. -/
def __hdaps_update (bus : Bus σ) (hz : Int) (long_bits : Nat) (env : update_env)
    (fast : Bool) (s : hdaps_state σ) : Int × hdaps_state σ :=
  let r := hdaps_update_body bus hz long_bits env fast s
  (r.1, { r.2 with updates := r.2.updates ++ [(fast, r.1)] })

/-- The retry loop of `hdaps_update`: `n` is the number of iterations left,
`total` the loop variable, `ret` the local `ret`; `envs total` is what the
attempt made at that value of `total` sees. -/
def hdaps_update_loop (bus : Bus σ) (hz : Int) (long_bits : Nat) (envs : Nat → update_env) :
    Nat → Nat → Int → hdaps_state σ → Int × hdaps_state σ
  | 0, _, ret, s => (ret, s)
  | n + 1, total, ret, s =>
    if total < READ_TIMEOUT_MSECS then
      let l := thinkpad_ec_lock s
      if l.1 ≠ 0 then l
      else
        let u := __hdaps_update bus hz long_bits (envs total) false l.2
        let s2 := thinkpad_ec_unlock u.2
        if u.1 = 0 then (0, s2)
        else if u.1 ≠ - EBUSY then (u.1, s2)
        else hdaps_update_loop bus hz long_bits envs n (total + RETRY_MSECS) u.1 s2
    else (ret, s)

/-- Acquire the lock and query the current state, unless the last readout
is still valid.  The local `ret` is not initialised in C; the loop runs at
least once, so the initial value `0` used here is never returned.  The
loop variable grows by `RETRY_MSECS` in each iteration, so
`READ_TIMEOUT_MSECS` iterations are never used up. -/
def hdaps_update (bus : Bus σ) (hz : Int) (long_bits : Nat) (envs : Nat → update_env)
    (s : hdaps_state σ) : Int × hdaps_state σ :=
  if s.smp.stale_readout = 0 then (0, s)
  else hdaps_update_loop bus hz long_bits envs READ_TIMEOUT_MSECS 0 0 s

/-- Set the resting values: the result of `hdaps_update` is dropped. -/
def hdaps_calibrate (bus : Bus σ) (hz : Int) (long_bits : Nat) (envs : Nat → update_env)
    (s : hdaps_state σ) : hdaps_state σ :=
  (hdaps_update bus hz long_bits envs
    { s with smp := { s.smp with needs_calibration := 1 } }).2

/-- The initial values of the sampler globals. -/
def initial_sampler (long_bits : Nat) : sampler_state :=
  { pos_x := 0, pos_y := 0, temperature := 0, stale_readout := 1, rest_x := 0, rest_y := 0,
    last_keyboard_ticks := u_long long_bits (-300000),
    last_mouse_ticks := u_long long_bits (-300000), needs_calibration := 0 }

/-- The initial values of the configuration globals. -/
def initial_config : hdaps_config :=
  { hdaps_invert := 0, sampling_rate := 50, oversampling_ratio := 5,
    running_avg_filter_order := 2, fake_data_mode := 0 }

/-- A driver state over the simulated channel: the mutex is free and the
ghost traces are empty. -/
def sim_hdaps (script : List Nat) (reply : Nat → Nat) (prefetch_ticks : Int)
    (smp : sampler_state) (cfg : hdaps_config) : hdaps_state SimEC :=
  { ec := sim_state script reply prefetch_ticks, smp := smp, cfg := cfg,
    mtx_held := false, lock_log := [], updates := [] }

/-- An environment in which every read of `ticks` gives `t` and the local
`data.val` holds zeros. -/
def env_at (t : Int) : update_env :=
  { ticks_read := t, ticks_prefetch := t, ticks_keyboard := t, ticks_mouse := t,
    stack := fun _ => 0 }

/-! ## Reference notions and scenes for the sampler -/

/-- Specification of a little-endian signed 16-bit word with low byte `lo`
and high byte `hi`. -/
def spec_int16_le (lo hi : Nat) : Int :=
  if lo + 256 * hi < 32768 then ((lo + 256 * hi : Nat) : Int)
  else ((lo + 256 * hi : Nat) : Int) - 65536

/-- Specification of a signed 8-bit value with the bits of the byte `b`. -/
def spec_int8 (b : Nat) : Int := if b < 128 then (b : Int) else (b : Int) - 256

/-- What a successful update establishes, from the sampler state `a` before
to the sampler state `b` after: the readout is fresh, and a pending
calibration is completed with the position just stored, while without a
pending calibration the rest position is kept. -/
def success_post (a b : sampler_state) : Prop :=
  b.stale_readout = 0 ∧ b.needs_calibration = 0 ∧
  (a.needs_calibration ≠ 0 → b.rest_x = b.pos_x ∧ b.rest_y = b.pos_y) ∧
  (a.needs_calibration = 0 → b.rest_x = a.rest_x ∧ b.rest_y = a.rest_y)

/-- The content of the data ports given by the list of its first bytes. -/
def reply_of (bytes : List Nat) : Nat → Nat := fun i => bytes.getD i 0

/-- The status values of a full update on the simulated channel: the
documented sequence for the request and the read, the status shown after
the read, and the request of the prefetch. -/
def full_update_script : List Nat := documented_sequence ++ [0x00, 0x00, 0x20, 0x10]

/-- The status values of an update that finds its row prefetched: output
ready, the status shown after the read, and the request of the prefetch. -/
def prefetched_update_script : List Nat := [0x50, 0x00, 0x00, 0x20, 0x10]

/-- The state in which a calibration is pending, on the simulated channel
whose position words read (10, -5). -/
def calibration_scene : hdaps_state SimEC :=
  sim_hdaps full_update_script (reply_of [0, 1, 0xfb, 0xff, 0x0a, 0x00])
    (TPC_PREFETCH_JUNK 1000) { initial_sampler 64 with needs_calibration := 1 } initial_config

/-- The state after the calibrating update of `calibration_scene`, once the
device has moved: its position words read (13, -5) and the prefetched row
is ready. -/
def moved_scene : hdaps_state SimEC :=
  { (__hdaps_update simBus 1000 64 (env_at 5) false calibration_scene).2 with
    ec := { (__hdaps_update simBus 1000 64 (env_at 5) false calibration_scene).2.ec with
      hw := { script := prefetched_update_script,
              reply := reply_of [0, 1, 0xfb, 0xff, 0x0d, 0x00] } } }

/-- The number of iterations that the loop of `hdaps_update` makes at most
from the value `total` of its loop variable on. -/
def attempts_from (total : Nat) : Nat := (READ_TIMEOUT_MSECS - total + 2) / RETRY_MSECS

/-! ## Reference notions for the status poll -/

/-- The device state after `k` reads of the status port, starting from `h`. -/
def after_polls (bus : Bus σ) (h : σ) : Nat → σ
  | 0 => h
  | k + 1 => after_polls bus (bus.read_1 h TPC_STR3_PORT).2 k

/-- The masked status that poll number `k` (counted from 0) shows when the
polling starts in the device state `h`. -/
def poll_status (bus : Bus σ) (h : σ) (k : Nat) : Nat := status bus (after_polls bus h k)

/-- The intermediate statuses that the poll waits out: `IBF3B|MWMF` and
`0x00`. -/
def tolerated (st : Nat) : Prop := st = (H8S_STR3_IBF3B ||| H8S_STR3_MWMF) ∨ st = 0x00

/-- The channel state in which `thinkpad_ec_request_row` starts its status
poll, on the path where the channel was idle and the function code was
accepted: the terminal byte has just been written. -/
def after_terminal_write (bus : Bus σ) (args : thinkpad_ec_row) (s : ec_state σ) :
    ec_state σ :=
  bus_space_write_1 bus
    (send_args bus args 14 1
      (bus_space_read_1 bus
        (bus_space_write_1 bus (bus_space_read_1 bus s TPC_STR3_PORT).2 TPC_TWR0_PORT
          (args.val 0)) TPC_STR3_PORT).2)
    TPC_TWR15_PORT (if args.mask &&& 0x8000 ≠ 0 then args.val 0xf else 0x01)

/-! ## Configuration, poller and reporting (`kmod/hdaps/hdaps.c`) -/

/-- FreeBSD errno value of a device that is not configured. -/
def ENXIO : Int := 6

/-- The window `KMACT_REMEMBER_PERIOD`, that is `hz/10`. -/
def KMACT_REMEMBER_PERIOD (hz : Int) : Int := Int.tdiv hz 10

/-- The conversion of an `int` to a `u_char` slot of a row. -/
def u_char (x : Int) : Nat := (x % 256).toNat

/-- The request row of `hdaps_set_ec_config`: the function code `0x10`, the
low and the high byte of the EC rate, and the filter order. -/
def set_config_args (ec_rate order : Int) : thinkpad_ec_row :=
  mk_row 0x000F [0x10, u_char ec_rate, u_char (ec_rate >>> (8 : Nat)), u_char order]

/-- The rule `lo | ((int)hi << 8)` by which `hdaps_get_ec_config` reads the
EC rate from its reply. -/
def ec_rate_of (lo hi : Nat) : Int := ((lo ||| (hi <<< 8) : Nat) : Int)

/-- Set the accelerometer parameters; `ticks` is the value that the
transaction reads. -/
def hdaps_set_ec_config (bus : Bus σ) (hz ticks : Int) (ec_rate order : Int)
    (ec : ec_state σ) : Int × ec_state σ :=
  let r := thinkpad_ec_read_row bus hz ticks (set_config_args ec_rate order)
    (mk_row 0x8000 []) ec
  if r.1 ≠ 0 then (r.1, r.2.2)
  else if byte r.2.1 0xF = 0x03 then (- EINVAL, r.2.2)
  else if byte r.2.1 0xF = 0x06 then (- EBUSY, r.2.2)
  else if byte r.2.1 0xF ≠ 0x00 then (- EIO, r.2.2)
  else (0, r.2.2)

/-- Get the accelerometer parameters: the result, the EC rate, the filter
order and the channel state.  The two output parameters are not written on
failure; they are given as 0 here and no caller reads them then. -/
def hdaps_get_ec_config (bus : Bus σ) (hz ticks : Int) (ec : ec_state σ) :
    Int × Int × Int × ec_state σ :=
  let r := thinkpad_ec_read_row bus hz ticks (mk_row 0x0003 [0x17, 0x82])
    (mk_row 0x801F []) ec
  if r.1 ≠ 0 then (r.1, 0, 0, r.2.2)
  else if byte r.2.1 0xF ≠ 0x00 then (- EIO, 0, 0, r.2.2)
  else if byte r.2.1 0x1 &&& 0x01 = 0 then (- ENXIO, 0, 0, r.2.2)
  else if byte r.2.1 0x1 &&& 0x02 ≠ 0 then (- EBUSY, 0, 0, r.2.2)
  else (0, ec_rate_of (byte r.2.1 0x2) (byte r.2.1 0x3), (byte r.2.1 0x4 : Int), r.2.2)

/-- Enable or disable the EC test mode. -/
def hdaps_set_fake_data_mode (bus : Bus σ) (hz ticks : Int) (on_ : Int) (ec : ec_state σ) :
    Int × ec_state σ :=
  let r := thinkpad_ec_read_row bus hz ticks
    (mk_row 0x0007 [0x17, 0x83, if on_ ≠ 0 then 0x01 else 0x00]) (mk_row 0x8000 []) ec
  if r.1 ≠ 0 then (r.1, r.2.2)
  else if byte r.2.1 0xF ≠ 0x00 then (- EIO, r.2.2)
  else (0, r.2.2)

/-- What a sysctl handler sees of its request: whether the old value is
asked for, whether a new value is given, the results of `SYSCTL_OUT` and
`SYSCTL_IN`, and the value that `SYSCTL_IN` copies in. -/
structure sysctl_req where
  oldptr : Bool
  newptr : Bool
  out_error : Int
  in_error : Int
  new_value : Int

/-- The outcome of the first half of a sysctl handler: it has returned
`e`, or it goes on to the write half with the local `error` equal to `e`,
or it has divided by zero. -/
inductive Step (α : Type) where
  | ret (e : Int) (s : α)
  | go (e : Int) (s : α)
  | fault

/-- The second half of a handler runs when the first half went on without
an error and a new value is given. -/
def then_write {α : Type} (req : sysctl_req) (first : Step α)
    (write : α → Int × α) : Option (Int × α) :=
  match first with
  | Step.ret e s => some (e, s)
  | Step.fault => none
  | Step.go e s => if e = 0 ∧ req.newptr = true then some (write s) else some (e, s)

/-- The write half of `hdaps_sampling_rate_sysctlproc`. -/
def sampling_rate_write (bus : Bus σ) (hz ticks : Int) (req : sysctl_req)
    (s : hdaps_state σ) : Int × hdaps_state σ :=
  if req.in_error ≠ 0 then (req.in_error, s)
  else if req.new_value > hz ∨ req.new_value < 1 then (EINVAL, s)
  else if req.new_value ≠ s.cfg.sampling_rate then
    let c := hdaps_set_ec_config bus hz ticks
      (int32 (req.new_value * s.cfg.oversampling_ratio)) s.cfg.running_avg_filter_order s.ec
    if c.1 ≠ 0 then (c.1, { s with ec := c.2 })
    else (c.1, { s with ec := c.2, cfg := { s.cfg with sampling_rate := req.new_value } })
  else (req.in_error, s)

/-- The sysctl handler of the sampling rate. -/
def hdaps_sampling_rate_sysctlproc (bus : Bus σ) (hz ticks : Int) (req : sysctl_req)
    (s : hdaps_state σ) : Option (Int × hdaps_state σ) :=
  then_write req (Step.go req.out_error s) (sampling_rate_write bus hz ticks req)

/-- The read half of `hdaps_oversampling_ratio_sysctlproc`. -/
def oversampling_ratio_read (bus : Bus σ) (hz ticks : Int) (req : sysctl_req)
    (s : hdaps_state σ) : Step (hdaps_state σ) :=
  if req.oldptr then
    let g := hdaps_get_ec_config bus hz ticks s.ec
    let s1 : hdaps_state σ := { s with ec := g.2.2.2 }
    if g.1 ≠ 0 then Step.ret g.1 s1
    else if s.cfg.sampling_rate = 0 then Step.fault
    else if req.out_error ≠ 0 then Step.ret req.out_error s1
    else Step.go req.out_error
      { s1 with cfg := { s.cfg with
          oversampling_ratio := Int.tdiv g.2.1 s.cfg.sampling_rate,
          running_avg_filter_order := g.2.2.1 } }
  else Step.go req.out_error s

/-- The write half of `hdaps_oversampling_ratio_sysctlproc`. -/
def oversampling_ratio_write (bus : Bus σ) (hz ticks : Int) (req : sysctl_req)
    (s : hdaps_state σ) : Int × hdaps_state σ :=
  if req.in_error ≠ 0 then (req.in_error, s)
  else if req.new_value < 1 then (EINVAL, s)
  else if req.new_value ≠ s.cfg.oversampling_ratio then
    let c := hdaps_set_ec_config bus hz ticks
      (int32 (s.cfg.sampling_rate * req.new_value)) s.cfg.running_avg_filter_order s.ec
    if c.1 ≠ 0 then (c.1, { s with ec := c.2 })
    else (c.1, { s with ec := c.2, cfg := { s.cfg with oversampling_ratio := req.new_value } })
  else (req.in_error, s)

/-- The sysctl handler of the oversampling ratio; `ticks_get` and
`ticks_set` are the values of `ticks` that its two transactions read. -/
def hdaps_oversampling_ratio_sysctlproc (bus : Bus σ) (hz ticks_get ticks_set : Int)
    (req : sysctl_req) (s : hdaps_state σ) : Option (Int × hdaps_state σ) :=
  then_write req (oversampling_ratio_read bus hz ticks_get req s)
    (oversampling_ratio_write bus hz ticks_set req)

/-- The read half of `hdaps_running_avg_filter_order_sysctlproc`. -/
def running_avg_filter_order_read (bus : Bus σ) (hz ticks : Int) (req : sysctl_req)
    (s : hdaps_state σ) : Step (hdaps_state σ) :=
  if req.oldptr then
    let g := hdaps_get_ec_config bus hz ticks s.ec
    let s1 : hdaps_state σ := { s with ec := g.2.2.2 }
    if g.1 ≠ 0 then Step.ret g.1 s1
    else if req.out_error ≠ 0 then Step.ret req.out_error s1
    else if s.cfg.oversampling_ratio = 0 then Step.fault
    else
      let rate := Int.tdiv g.2.1 s.cfg.oversampling_ratio
      Step.go req.out_error
        { s1 with cfg := { s.cfg with
            running_avg_filter_order := g.2.2.1,
            sampling_rate := if rate ≤ hz ∧ rate > 0 then rate else s.cfg.sampling_rate } }
  else Step.go req.out_error s

/-- The write half of `hdaps_running_avg_filter_order_sysctlproc`. -/
def running_avg_filter_order_write (bus : Bus σ) (hz ticks : Int) (req : sysctl_req)
    (s : hdaps_state σ) : Int × hdaps_state σ :=
  if req.in_error ≠ 0 then (req.in_error, s)
  else if req.new_value ≠ s.cfg.running_avg_filter_order then
    let c := hdaps_set_ec_config bus hz ticks
      (int32 (s.cfg.sampling_rate * s.cfg.oversampling_ratio)) req.new_value s.ec
    if c.1 ≠ 0 then (c.1, { s with ec := c.2 })
    else (c.1, { s with ec := c.2,
                        cfg := { s.cfg with running_avg_filter_order := req.new_value } })
  else (req.in_error, s)

/-- The sysctl handler of the filter order. -/
def hdaps_running_avg_filter_order_sysctlproc (bus : Bus σ) (hz ticks_get ticks_set : Int)
    (req : sysctl_req) (s : hdaps_state σ) : Option (Int × hdaps_state σ) :=
  then_write req (running_avg_filter_order_read bus hz ticks_get req s)
    (running_avg_filter_order_write bus hz ticks_set req)

/-- The write half of `hdaps_fake_data_mode_sysctlproc`. -/
def fake_data_mode_write (bus : Bus σ) (hz ticks : Int) (req : sysctl_req)
    (s : hdaps_state σ) : Int × hdaps_state σ :=
  if req.in_error ≠ 0 then (req.in_error, s)
  else if req.new_value < 0 ∨ req.new_value > 1 then (EINVAL, s)
  else if req.new_value ≠ s.cfg.fake_data_mode then
    let c := hdaps_set_fake_data_mode bus hz ticks req.new_value s.ec
    if c.1 ≠ 0 then (c.1, { s with ec := c.2 })
    else (c.1, { s with ec := c.2, cfg := { s.cfg with fake_data_mode := req.new_value } })
  else (req.in_error, s)

/-- The sysctl handler of the fake data mode. -/
def hdaps_fake_data_mode_sysctlproc (bus : Bus σ) (hz ticks : Int) (req : sysctl_req)
    (s : hdaps_state σ) : Option (Int × hdaps_state σ) :=
  then_write req (Step.go req.out_error s) (fake_data_mode_write bus hz ticks req)

/-- The write half of `hdaps_invert_sysctlproc`. -/
def invert_write (bus : Bus σ) (hz : Int) (long_bits : Nat) (envs : Nat → update_env)
    (req : sysctl_req) (s : hdaps_state σ) : Int × hdaps_state σ :=
  if req.in_error ≠ 0 then (req.in_error, s)
  else if req.new_value < 0 ∨ req.new_value > 1 then (EINVAL, s)
  else if req.new_value ≠ (s.cfg.hdaps_invert : Int) then
    (req.in_error, hdaps_calibrate bus hz long_bits envs
      { s with cfg := { s.cfg with hdaps_invert := req.new_value.toNat } })
  else (req.in_error, s)

/-- The sysctl handler of the axis inversion. -/
def hdaps_invert_sysctlproc (bus : Bus σ) (hz : Int) (long_bits : Nat)
    (envs : Nat → update_env) (req : sysctl_req) (s : hdaps_state σ) :
    Option (Int × hdaps_state σ) :=
  then_write req (Step.go req.out_error s) (invert_write bus hz long_bits envs req)

/-- The non-blocking acquire `thinkpad_ec_try_lock`: it returns 0 iff the
mutex was free, and then holds it. -/
def thinkpad_ec_try_lock (s : hdaps_state σ) : Int × hdaps_state σ :=
  if s.mtx_held then (1, s)
  else (0, { s with mtx_held := true, lock_log := s.lock_log ++ [LockEv.lock] })

/-- What an invocation of the poller does to its timer: it leaves it
stopped, or it arms it with a period, or it divides by zero when it
computes the period. -/
inductive poll_outcome where
  | halted
  | rearmed (period : Int)
  | fault
  deriving DecidableEq, Repr

/-- The call `callout_reset(&hdaps_co, hz/sampling_rate, ...)`. -/
def callout_reset (hz sampling_rate : Int) : poll_outcome :=
  if sampling_rate = 0 then poll_outcome.fault
  else poll_outcome.rearmed (Int.tdiv hz sampling_rate)

/-- The timer handler `hdaps_mousedev_poll`. -/
def hdaps_mousedev_poll (bus : Bus σ) (hz : Int) (long_bits : Nat) (env : update_env)
    (s : hdaps_state σ) : poll_outcome × hdaps_state σ :=
  let s0 : hdaps_state σ := { s with smp := { s.smp with stale_readout := 1 } }
  let l := thinkpad_ec_try_lock s0
  if l.1 ≠ 0 then (callout_reset hz l.2.cfg.sampling_rate, l.2)
  else
    let u := __hdaps_update bus hz long_bits env true l.2
    let s2 := thinkpad_ec_unlock u.2
    if u.1 ≠ 0 ∧ u.1 ≠ - EBUSY ∧ u.1 ≠ - ENOATTR then (poll_outcome.halted, s2)
    else (callout_reset hz s2.cfg.sampling_rate, s2)

/-- The comparison `ticks < last + KMACT_REMEMBER_PERIOD` of an `int`, a
`u_long` and an `int`: both `int` operands are converted to `u_long` and
the sum wraps at the width of `long`. -/
def activity (long_bits : Nat) (hz ticks : Int) (last : Nat) : Int :=
  if u_long long_bits ticks <
      (last + u_long long_bits (KMACT_REMEMBER_PERIOD hz)) % 2 ^ long_bits then 1 else 0

/-- The five values that `hdaps_values_sysctlproc` reports. -/
structure hdaps_values where
  pos_x : Int
  pos_y : Int
  temperature : Int
  keyboard_activity : Int
  mouse_activity : Int
  deriving DecidableEq, Repr

/-- The sysctl handler of `hw.hdaps.values`: the result, the values copied
out if any, and the state; `ticks_keyboard` and `ticks_mouse` are the
values of `ticks` read by the two comparisons. -/
def hdaps_values_sysctlproc (bus : Bus σ) (hz : Int) (long_bits : Nat)
    (envs : Nat → update_env) (ticks_keyboard ticks_mouse : Int) (req : sysctl_req)
    (s : hdaps_state σ) : Int × Option hdaps_values × hdaps_state σ :=
  if !req.oldptr then (req.out_error, none, s)
  else
    let u := hdaps_update bus hz long_bits envs s
    if u.1 ≠ 0 then (u.1, none, u.2)
    else
      (req.out_error,
        some { pos_x := u.2.smp.pos_x, pos_y := u.2.smp.pos_y,
               temperature := u.2.smp.temperature,
               keyboard_activity :=
                 activity long_bits hz ticks_keyboard u.2.smp.last_keyboard_ticks,
               mouse_activity := activity long_bits hz ticks_mouse u.2.smp.last_mouse_ticks },
        u.2)

/-- A request that reads the old value only. -/
def read_req : sysctl_req :=
  { oldptr := true, newptr := false, out_error := 0, in_error := 0, new_value := 0 }

/-- A request that writes the new value `v` only. -/
def write_req (v : Int) : sysctl_req :=
  { oldptr := false, newptr := true, out_error := 0, in_error := 0, new_value := v }

/-- The status values of one full transaction on the simulated channel:
the documented sequence and the status shown after the read. -/
def transaction_script : List Nat := documented_sequence ++ [0x00]

/-! ## Reference notions for the configuration and the poller -/

/-- Specification of the result of a configuration write whose transaction
returned `transaction` and whose reply carries the status byte `status`:
the error of a failed transaction, `Busy` for `0x06`, `InvalidArgument`
for `0x03`, `IoError` for any other non-zero status, and success for
`0x00`. -/
def spec_config_result (transaction : Int) (status : Nat) : Int :=
  if transaction ≠ 0 then transaction
  else if status = 0x06 then - EBUSY
  else if status = 0x03 then - EINVAL
  else if status ≠ 0x00 then - EIO
  else 0

/-- Specification of a configuration write that reaches the hardware with
the transaction `t`: it returns `spec_config_result`, and the configuration
is changed by `set` on success and kept otherwise. -/
def spec_config_write (t : Int × thinkpad_ec_row × ec_state σ)
    (set : hdaps_config → hdaps_config) (s : hdaps_state σ) : Int × hdaps_state σ :=
  (spec_config_result t.1 (byte t.2.1 0xF),
    { s with ec := t.2.2,
             cfg := if spec_config_result t.1 (byte t.2.1 0xF) = 0 then set s.cfg else s.cfg })

/-- A run of the poller over consecutive timer periods.  Each period says
whether another thread holds the lock when the timer fires, and gives the
environment of the update; the run ends when the poller does not arm its
timer again.  The result lists what each invocation did to the timer. -/
def poll_cycles (bus : Bus σ) (hz : Int) (long_bits : Nat) :
    List (Bool × update_env) → hdaps_state σ → List poll_outcome
  | [], _ => []
  | c :: rest, s =>
    match hdaps_mousedev_poll bus hz long_bits c.2 { s with mtx_held := c.1 } with
    | (poll_outcome.rearmed p, s1) =>
      poll_outcome.rearmed p :: poll_cycles bus hz long_bits rest s1
    | (o, _) => [o]

/-- A reply on the simulated channel whose byte at offset `0xf` is `status`
and whose other bytes are zero. -/
def status_reply (status : Nat) : Nat → Nat := fun i => if i = 0xF then status else 0

/-- The initial driver state over a simulated channel that serves one
transaction and answers it with the status byte `status`. -/
def config_scene (status : Nat) : hdaps_state SimEC :=
  sim_hdaps transaction_script (status_reply status) (TPC_PREFETCH_JUNK 1000)
    (initial_sampler 64) initial_config

/-- The initial driver state with an oversampling ratio of 66, over a
simulated channel that accepts one configuration write. -/
def wide_rate_scene : hdaps_state SimEC :=
  sim_hdaps transaction_script (status_reply 0) (TPC_PREFETCH_JUNK 1000)
    (initial_sampler 64) { initial_config with oversampling_ratio := 66 }

/-- The initial driver state over a simulated channel that serves two
transactions and reports, to the configuration query, polling enabled, an
EC rate of 10 and a filter order of 2. -/
def low_rate_scene : hdaps_state SimEC :=
  sim_hdaps (transaction_script ++ transaction_script) (reply_of [0, 1, 10, 0, 2])
    (TPC_PREFETCH_JUNK 1000) (initial_sampler 64) initial_config

/-- The initial driver state with a sampler for a `long` of `long_bits`
bits, over a simulated channel that serves one update with one readout at
rest and an activity byte of zero. -/
def idle_scene (long_bits : Nat) : hdaps_state SimEC :=
  sim_hdaps full_update_script (reply_of [0, 1]) (TPC_PREFETCH_JUNK 1000)
    (initial_sampler long_bits) initial_config

/-- Ten timer periods: another thread holds the lock in all but the fourth. -/
def contended_cycles : List (Bool × update_env) :=
  [(true, env_at 5), (true, env_at 25), (true, env_at 45), (false, env_at 65),
   (true, env_at 85), (true, env_at 105), (true, env_at 125), (true, env_at 145),
   (true, env_at 165), (true, env_at 185)]

/-- A request that asks for the old value and writes the new value `v`. -/
def read_write_req (v : Int) : sysctl_req :=
  { oldptr := true, newptr := true, out_error := 0, in_error := 0, new_value := v }

/-- The initial driver state over a simulated channel that serves one
transaction and reports, to the configuration query, polling enabled, an
EC rate of 500 and a filter order of 3. -/
def reconcile_scene : hdaps_state SimEC :=
  sim_hdaps transaction_script (reply_of [0, 1, 0xF4, 0x01, 3]) (TPC_PREFETCH_JUNK 1000)
    (initial_sampler 64) initial_config

/-! # Theorems -/

/-! ## Bit tests -/

theorem and_one_eq_zero_iff (m : Nat) : m &&& 1 = 0 ↔ m.testBit 0 = false := by
  simp [Nat.testBit, Nat.and_comm]

theorem shiftRight_and_one_ne_zero_iff (m i : Nat) :
    (m >>> i) &&& 1 ≠ 0 ↔ m.testBit i = true := by
  simp [Nat.testBit, Nat.and_comm]

theorem and_0x8000_ne_zero_iff (m : Nat) : m &&& 0x8000 ≠ 0 ↔ m.testBit 15 = true := by
  rw [show (0x8000 : Nat) = 2 ^ 15 from rfl, Nat.and_two_pow]
  cases m.testBit 15 <;> simp

/-! ## Frame lemmas of the port accesses -/

section frames
variable (bus : Bus σ)

@[simp] theorem read_1_fst (s : ec_state σ) (p : Nat) :
    (bus_space_read_1 bus s p).1 = (bus.read_1 s.hw p).1 % 256 := rfl

@[simp] theorem read_1_hw (s : ec_state σ) (p : Nat) :
    (bus_space_read_1 bus s p).2.hw = (bus.read_1 s.hw p).2 := rfl

@[simp] theorem read_1_log (s : ec_state σ) (p : Nat) :
    (bus_space_read_1 bus s p).2.log = s.log ++ [Ev.rd p ((bus.read_1 s.hw p).1 % 256)] := rfl

@[simp] theorem read_1_calls (s : ec_state σ) (p : Nat) :
    (bus_space_read_1 bus s p).2.calls = s.calls := rfl

@[simp] theorem read_1_ticks (s : ec_state σ) (p : Nat) :
    (bus_space_read_1 bus s p).2.prefetch_ticks = s.prefetch_ticks := rfl

@[simp] theorem read_1_arg0 (s : ec_state σ) (p : Nat) :
    (bus_space_read_1 bus s p).2.prefetch_arg0 = s.prefetch_arg0 := rfl

@[simp] theorem read_1_argF (s : ec_state σ) (p : Nat) :
    (bus_space_read_1 bus s p).2.prefetch_argF = s.prefetch_argF := rfl

@[simp] theorem write_1_hw (s : ec_state σ) (p v : Nat) :
    (bus_space_write_1 bus s p v).hw = bus.write_1 s.hw p v := rfl

@[simp] theorem write_1_log (s : ec_state σ) (p v : Nat) :
    (bus_space_write_1 bus s p v).log = s.log ++ [Ev.wr p v] := rfl

@[simp] theorem write_1_calls (s : ec_state σ) (p v : Nat) :
    (bus_space_write_1 bus s p v).calls = s.calls := rfl

@[simp] theorem write_1_ticks (s : ec_state σ) (p v : Nat) :
    (bus_space_write_1 bus s p v).prefetch_ticks = s.prefetch_ticks := rfl

@[simp] theorem write_1_arg0 (s : ec_state σ) (p v : Nat) :
    (bus_space_write_1 bus s p v).prefetch_arg0 = s.prefetch_arg0 := rfl

@[simp] theorem write_1_argF (s : ec_state σ) (p v : Nat) :
    (bus_space_write_1 bus s p v).prefetch_argF = s.prefetch_argF := rfl

end frames

theorem same_cache_refl (s : ec_state σ) : same_cache s s := ⟨rfl, rfl, rfl, rfl⟩

theorem same_cache_trans {s t u : ec_state σ} (h1 : same_cache s t) (h2 : same_cache t u) :
    same_cache s u := by
  obtain ⟨a1, a2, a3, a4⟩ := h1
  obtain ⟨b1, b2, b3, b4⟩ := h2
  exact ⟨b1.trans a1, b2.trans a2, b3.trans a3, b4.trans a4⟩

theorem same_cache_read (bus : Bus σ) (s : ec_state σ) (p : Nat) :
    same_cache s (bus_space_read_1 bus s p).2 := ⟨rfl, rfl, rfl, rfl⟩

theorem same_cache_write (bus : Bus σ) (s : ec_state σ) (p v : Nat) :
    same_cache s (bus_space_write_1 bus s p v) := ⟨rfl, rfl, rfl, rfl⟩

/-! ## The loops of `thinkpad_ec_request_row` -/

theorem send_args_same_cache (bus : Bus σ) (args : thinkpad_ec_row) (n i : Nat)
    (s : ec_state σ) : same_cache s (send_args bus args n i s) := by
  induction n generalizing i s with
  | zero => exact same_cache_refl s
  | succ n ih =>
    unfold send_args
    split
    · exact same_cache_trans (same_cache_write bus s _ _) (ih _ _)
    · exact ih _ _

theorem send_args_log (bus : Bus σ) (args : thinkpad_ec_row) (n i : Nat)
    (s : ec_state σ) :
    (send_args bus args n i s).log = s.log ++ spec_arg_writes args (idx_from n i) := by
  induction n generalizing i s with
  | zero => simp [send_args, idx_from, spec_arg_writes]
  | succ n ih =>
    unfold send_args
    by_cases hb : args.mask.testBit i = true
    · have hc : (args.mask >>> i) &&& 1 ≠ 0 := (shiftRight_and_one_ne_zero_iff _ _).2 hb
      rw [if_pos hc, ih]
      simp [idx_from, spec_arg_writes, hb]
    · have hc : ¬ ((args.mask >>> i) &&& 1 ≠ 0) :=
        fun h => hb ((shiftRight_and_one_ne_zero_iff _ _).1 h)
      rw [if_neg hc, ih]
      simp [idx_from, spec_arg_writes, hb]

theorem wait_reply_same_cache (bus : Bus σ) (n : Nat) (s : ec_state σ) :
    same_cache s (wait_reply bus n s).2 := by
  induction n generalizing s with
  | zero => exact same_cache_refl s
  | succ n ih =>
    unfold wait_reply
    dsimp only
    split
    · exact same_cache_read bus s _
    · split
      · exact same_cache_trans (same_cache_read bus s _) (ih _)
      · exact same_cache_read bus s _

theorem wait_reply_log (bus : Bus σ) (n : Nat) (s : ec_state σ) :
    ∃ polls : List Ev, (∀ e ∈ polls, ∃ v, e = Ev.rd TPC_STR3_PORT v) ∧
      polls.length ≤ n ∧ (wait_reply bus n s).2.log = s.log ++ polls := by
  induction n generalizing s with
  | zero => exact ⟨[], by simp, by simp, by simp [wait_reply]⟩
  | succ n ih =>
    unfold wait_reply
    dsimp only
    split
    · exact ⟨[Ev.rd TPC_STR3_PORT ((bus.read_1 s.hw TPC_STR3_PORT).1 % 256)],
        by simp, by simp, by simp⟩
    · split
      · obtain ⟨polls, hp, hl, he⟩ := ih (bus_space_read_1 bus s TPC_STR3_PORT).2
        refine ⟨Ev.rd TPC_STR3_PORT ((bus.read_1 s.hw TPC_STR3_PORT).1 % 256) :: polls,
          ?_, by simp; omega, ?_⟩
        · intro e he'
          rcases List.mem_cons.1 he' with h | h
          · exact ⟨_, h⟩
          · exact hp e h
        · rw [he]; simp
      · exact ⟨[Ev.rd TPC_STR3_PORT ((bus.read_1 s.hw TPC_STR3_PORT).1 % 256)],
        by simp, by simp, by simp⟩

theorem idx_from_14_1 : idx_from 14 1 = [1, 2, 3, 4, 5, 6, 7, 8, 9, 10, 11, 12, 13, 14] := rfl

/-- C1: for every row request whose mask has bit 0 clear, for every device
and every cache state, `thinkpad_ec_request_row` returns `-EINVAL` and
makes no port access: the log of accesses, the device state and the
prefetch globals are unchanged. -/
theorem request_row_without_function_code (bus : Bus σ) (args : thinkpad_ec_row)
    (s : ec_state σ) (h : args.mask.testBit 0 = false) :
    (thinkpad_ec_request_row bus args s).1 = - EINVAL ∧
    (thinkpad_ec_request_row bus args s).2.log = s.log ∧
    (thinkpad_ec_request_row bus args s).2.hw = s.hw ∧
    (thinkpad_ec_request_row bus args s).2.prefetch_ticks = s.prefetch_ticks ∧
    (thinkpad_ec_request_row bus args s).2.prefetch_arg0 = s.prefetch_arg0 ∧
    (thinkpad_ec_request_row bus args s).2.prefetch_argF = s.prefetch_argF := by
  have hm : args.mask &&& 0x0001 = 0 := (and_one_eq_zero_iff _).2 h
  simp [thinkpad_ec_request_row, returned, request_row_body, hm]

/-- Instance of C1: the mask `0x8006` lacks bit 0 and the request is
rejected on the simulated channel. -/
theorem request_row_without_function_code_witness :
    (mk_row 0x8006 [0x14, 0x01]).mask.testBit 0 = false ∧
    (thinkpad_ec_request_row simBus (mk_row 0x8006 [0x14, 0x01])
      (sim_state documented_sequence (fun _ => 0) 0)).1 = - EINVAL :=
  ⟨by decide, (request_row_without_function_code simBus _ _ (by decide)).1⟩

theorem request_row_body_idle (bus : Bus σ) (args : thinkpad_ec_row) (s : ec_state σ)
    (h0 : args.mask.testBit 0 = true) (hidle : status bus s.hw = 0x00) :
    request_row_body bus args s =
      (let s1 := bus_space_write_1 bus (bus_space_read_1 bus s TPC_STR3_PORT).2
          TPC_TWR0_PORT (args.val 0)
       let r1 := bus_space_read_1 bus s1 TPC_STR3_PORT
       if r1.1 &&& H8S_STR3_MASK ≠ H8S_STR3_MWMF then (- EIO, r1.2)
       else
         wait_reply bus TPC_REQUEST_RETRIES
           (bus_space_write_1 bus (send_args bus args 14 1 r1.2) TPC_TWR15_PORT
             (if args.mask &&& 0x8000 ≠ 0 then args.val 0xf else 0x01))) := by
  have hm : ¬ (args.mask &&& 0x0001 = 0) := by
    rw [and_one_eq_zero_iff]; simp [h0]
  have hst : (bus.read_1 s.hw TPC_STR3_PORT).1 % 256 &&& H8S_STR3_MASK = 0 := hidle
  unfold request_row_body
  rw [if_neg hm]
  simp only [read_1_fst, hst]
  simp [H8S_STR3_OBF3B, H8S_STR3_SWMF, TP_CONTROLLER_ROW_LEN]

/-- C2: for every row request with mask bit 0 set, issued on an idle channel
(initial masked status `0x00`), `thinkpad_ec_request_row` reads the status,
writes `val[0]` to TWR0 and reads the status again.  If that status is not
exactly MWMF it returns `-EIO` and the log ends there.  Otherwise the log
goes on with the writes of `val[i]` to `TWR0+i` for the indices `i` of
`1 .. 14` whose mask bit is set, in increasing order and with no write for
a clear bit, then with one write to TWR15 of `val[15]` if mask bit 15 is
set and of `0x01` otherwise, and after that with status reads only. -/
theorem request_row_idle_write_order (bus : Bus σ) (args : thinkpad_ec_row)
    (s : ec_state σ) (h0 : args.mask.testBit 0 = true) (hidle : status bus s.hw = 0x00) :
    let v0 := (bus.read_1 s.hw TPC_STR3_PORT).1 % 256
    let h2 := bus.write_1 (bus.read_1 s.hw TPC_STR3_PORT).2 TPC_TWR0_PORT (args.val 0)
    let v1 := (bus.read_1 h2 TPC_STR3_PORT).1 % 256
    let first := s.log ++
      [Ev.rd TPC_STR3_PORT v0, Ev.wr TPC_TWR0_PORT (args.val 0), Ev.rd TPC_STR3_PORT v1]
    let r := thinkpad_ec_request_row bus args s
    (status bus h2 ≠ H8S_STR3_MWMF → r.1 = - EIO ∧ r.2.log = first) ∧
    (status bus h2 = H8S_STR3_MWMF →
      ∃ polls : List Ev, (∀ e ∈ polls, ∃ v, e = Ev.rd TPC_STR3_PORT v) ∧
        r.2.log = first ++
          spec_arg_writes args [1, 2, 3, 4, 5, 6, 7, 8, 9, 10, 11, 12, 13, 14] ++
          [Ev.wr TPC_TWR15_PORT (if args.mask.testBit 15 then args.val 15 else 0x01)] ++
          polls) := by
  intro v0 h2 v1 first r
  have hr1 : r.1 = (request_row_body bus args s).1 := rfl
  have hrl : r.2.log = (request_row_body bus args s).2.log := rfl
  rw [hr1, hrl, request_row_body_idle bus args s h0 hidle]
  constructor
  · intro hne
    have hne' : ¬ ((bus.read_1 h2 TPC_STR3_PORT).1 % 256 &&& H8S_STR3_MASK = H8S_STR3_MWMF) := hne
    simp [hne', first, v0, v1, h2]
  · intro heq
    have heq' : (bus.read_1 h2 TPC_STR3_PORT).1 % 256 &&& H8S_STR3_MASK = H8S_STR3_MWMF := heq
    have h15 : (args.mask &&& 0x8000 ≠ 0) = (args.mask.testBit 15 = true) :=
      propext (and_0x8000_ne_zero_iff _)
    dsimp only
    simp only [read_1_fst, read_1_hw, write_1_hw]
    rw [if_neg (by simpa [h2] using heq')]
    obtain ⟨polls, hp, _, hl⟩ := wait_reply_log bus TPC_REQUEST_RETRIES
      (bus_space_write_1 bus (send_args bus args 14 1
        (bus_space_read_1 bus (bus_space_write_1 bus (bus_space_read_1 bus s TPC_STR3_PORT).2
          TPC_TWR0_PORT (args.val 0)) TPC_STR3_PORT).2) TPC_TWR15_PORT
        (if args.mask &&& 0x8000 ≠ 0 then args.val 0xf else 0x01))
    refine ⟨polls, hp, ?_⟩
    rw [hl, write_1_log, send_args_log, idx_from_14_1]
    simp [first, v0, v1, h2, h15]

/-- Instance of C2: the row `0x14, 0x01, 0x02` with mask `0x8007` on the
simulated channel; the terminal byte written is the override `val[15] =
0x00`. -/
theorem request_row_idle_write_order_witness :
    (mk_row 0x8007 [0x14, 0x01, 0x02]).mask.testBit 0 = true ∧
    status simBus (sim_state documented_sequence (fun _ => 0) 0).hw = 0x00 ∧
    ∃ polls : List Ev, (∀ e ∈ polls, ∃ v, e = Ev.rd TPC_STR3_PORT v) ∧
      (thinkpad_ec_request_row simBus (mk_row 0x8007 [0x14, 0x01, 0x02])
        (sim_state documented_sequence (fun _ => 0) 0)).2.log =
      [Ev.rd 0x04 0x00, Ev.wr 0x10 0x14, Ev.rd 0x04 0x20, Ev.wr 0x11 0x01, Ev.wr 0x12 0x02,
       Ev.wr 0x1f 0x00] ++ polls :=
  ⟨by decide, by decide,
    (request_row_idle_write_order simBus (mk_row 0x8007 [0x14, 0x01, 0x02])
      (sim_state documented_sequence (fun _ => 0) 0) (by decide) (by decide)).2 (by decide)⟩

/-- C3: for every request with mask bit 0 set, `thinkpad_ec_request_row`
classifies the initial masked status: if the output-buffer-full bit is set
it reads TWR15 exactly once and returns `-EBUSY`; if the status is SWMF it
returns `-EBUSY` after the status read alone; for any other non-zero
status it returns `-EIO` after the status read alone; and whenever the
status is not `0x00` no port is written. -/
theorem request_row_initial_status (bus : Bus σ) (args : thinkpad_ec_row)
    (s : ec_state σ) (h0 : args.mask.testBit 0 = true) :
    let v0 := (bus.read_1 s.hw TPC_STR3_PORT).1 % 256
    let h1 := (bus.read_1 s.hw TPC_STR3_PORT).2
    let st := status bus s.hw
    let r := thinkpad_ec_request_row bus args s
    (st &&& H8S_STR3_OBF3B ≠ 0 →
      r.1 = - EBUSY ∧
      r.2.log = s.log ++
        [Ev.rd TPC_STR3_PORT v0, Ev.rd TPC_TWR15_PORT ((bus.read_1 h1 TPC_TWR15_PORT).1 % 256)]) ∧
    (st = H8S_STR3_SWMF → r.1 = - EBUSY ∧ r.2.log = s.log ++ [Ev.rd TPC_STR3_PORT v0]) ∧
    (st &&& H8S_STR3_OBF3B = 0 → st ≠ H8S_STR3_SWMF → st ≠ 0x00 →
      r.1 = - EIO ∧ r.2.log = s.log ++ [Ev.rd TPC_STR3_PORT v0]) ∧
    (st ≠ 0x00 → r.2.log.filter Ev.isWrite = s.log.filter Ev.isWrite) := by
  intro v0 h1 st r
  have hm : ¬ (args.mask &&& 0x0001 = 0) := by
    rw [and_one_eq_zero_iff]; simp [h0]
  have hr1 : r.1 = (request_row_body bus args s).1 := rfl
  have hrl : r.2.log = (request_row_body bus args s).2.log := rfl
  have hst : (bus.read_1 s.hw TPC_STR3_PORT).1 % 256 &&& H8S_STR3_MASK = st := rfl
  have A : st &&& H8S_STR3_OBF3B ≠ 0 →
      r.1 = - EBUSY ∧
      r.2.log = s.log ++
        [Ev.rd TPC_STR3_PORT v0, Ev.rd TPC_TWR15_PORT ((bus.read_1 h1 TPC_TWR15_PORT).1 % 256)] := by
    intro h
    rw [hr1, hrl]
    unfold request_row_body
    rw [if_neg hm]
    simp only [read_1_fst, hst]
    rw [if_pos h]
    simp [v0, h1]
  have B : st = H8S_STR3_SWMF → r.1 = - EBUSY ∧ r.2.log = s.log ++ [Ev.rd TPC_STR3_PORT v0] := by
    intro h
    rw [hr1, hrl]
    unfold request_row_body
    rw [if_neg hm]
    simp only [read_1_fst, hst]
    rw [if_neg (by rw [h]; decide), if_pos h]
    simp [v0]
  have C : st &&& H8S_STR3_OBF3B = 0 → st ≠ H8S_STR3_SWMF → st ≠ 0x00 →
      r.1 = - EIO ∧ r.2.log = s.log ++ [Ev.rd TPC_STR3_PORT v0] := by
    intro h1 h2 h3
    rw [hr1, hrl]
    unfold request_row_body
    rw [if_neg hm]
    simp only [read_1_fst, hst]
    rw [if_neg (by simp [h1]), if_neg h2, if_pos h3]
    simp [v0]
  refine ⟨A, B, C, ?_⟩
  intro hne
  by_cases hO : st &&& H8S_STR3_OBF3B = 0
  · by_cases hS : st = H8S_STR3_SWMF
    · rw [(B hS).2]; simp [Ev.isWrite]
    · rw [(C hO hS hne).2]; simp [Ev.isWrite]
  · rw [(A hO).2]; simp [Ev.isWrite]

/-- Instance of C3: with the status `0x50` the stale byte of TWR15 is read
once and the result is `-EBUSY`. -/
theorem request_row_initial_status_witness :
    (mk_row 0x0001 [0x11]).mask.testBit 0 = true ∧
    (thinkpad_ec_request_row simBus (mk_row 0x0001 [0x11])
      (sim_state [0x50] (fun _ => 0x07) 0)).1 = - EBUSY ∧
    (thinkpad_ec_request_row simBus (mk_row 0x0001 [0x11])
      (sim_state [0x50] (fun _ => 0x07) 0)).2.log = [Ev.rd 0x04 0x50, Ev.rd 0x1f 0x07] :=
  ⟨by decide,
    (request_row_initial_status simBus (mk_row 0x0001 [0x11])
      (sim_state [0x50] (fun _ => 0x07) 0) (by decide)).1 (by decide)⟩

theorem request_row_body_same_cache (bus : Bus σ) (args : thinkpad_ec_row) (s : ec_state σ) :
    same_cache s (request_row_body bus args s).2 := by
  unfold request_row_body
  dsimp only
  split
  · exact same_cache_refl s
  · split
    · exact same_cache_trans (same_cache_read bus s _) (same_cache_read bus _ _)
    · split
      · exact same_cache_read bus s _
      · split
        · exact same_cache_read bus s _
        · split
          · exact same_cache_trans (same_cache_read bus s _)
              (same_cache_trans (same_cache_write bus _ _ _) (same_cache_read bus _ _))
          · refine same_cache_trans (same_cache_read bus s TPC_STR3_PORT) ?_
            refine same_cache_trans (same_cache_write bus _ TPC_TWR0_PORT (args.val 0)) ?_
            refine same_cache_trans (same_cache_read bus _ TPC_STR3_PORT) ?_
            refine same_cache_trans
              (send_args_same_cache bus args (TP_CONTROLLER_ROW_LEN - 1 - 1) 1 _) ?_
            refine same_cache_trans (same_cache_write bus _ TPC_TWR15_PORT
              (if args.mask &&& 0x8000 ≠ 0 then args.val 0xf else 0x01)) ?_
            exact wait_reply_same_cache bus _ _

theorem request_row_frame (bus : Bus σ) (args : thinkpad_ec_row) (s : ec_state σ) :
    (thinkpad_ec_request_row bus args s).2.prefetch_ticks = s.prefetch_ticks ∧
    (thinkpad_ec_request_row bus args s).2.prefetch_arg0 = s.prefetch_arg0 ∧
    (thinkpad_ec_request_row bus args s).2.prefetch_argF = s.prefetch_argF ∧
    (thinkpad_ec_request_row bus args s).2.calls =
      s.calls ++ [(Fn.request_row, (thinkpad_ec_request_row bus args s).1)] := by
  obtain ⟨h1, h2, h3, h4⟩ := request_row_body_same_cache bus args s
  refine ⟨h1, h2, h3, ?_⟩
  show (request_row_body bus args s).2.calls ++ _ = _
  rw [h4]
  rfl

theorem read_args_same_cache (bus : Bus σ) (n i : Nat) (data : thinkpad_ec_row)
    (s : ec_state σ) : same_cache s (read_args bus n i data s).2 := by
  induction n generalizing i data s with
  | zero => exact same_cache_refl s
  | succ n ih =>
    unfold read_args
    split
    · exact same_cache_trans (same_cache_read bus s _) (ih _ _ _)
    · exact ih _ _ _

theorem read_data_body_same_cache (bus : Bus σ) (args data : thinkpad_ec_row)
    (s : ec_state σ) : same_cache s (read_data_body bus args data s).2.2 := by
  unfold read_data_body
  dsimp only
  split
  · exact same_cache_read bus s _
  · split
    · exact same_cache_read bus s _
    · refine same_cache_trans (same_cache_read bus s TPC_STR3_PORT) ?_
      refine same_cache_trans (same_cache_read bus _ TPC_TWR0_PORT) ?_
      refine same_cache_trans
        (read_args_same_cache bus (TP_CONTROLLER_ROW_LEN - 1 - 1) 1
          (set_val data 0
            (bus_space_read_1 bus (bus_space_read_1 bus s TPC_STR3_PORT).2 TPC_TWR0_PORT).1)
          _) ?_
      exact same_cache_trans (same_cache_read bus _ TPC_TWR15_PORT)
        (same_cache_read bus _ TPC_STR3_PORT)

theorem read_data_frame (bus : Bus σ) (args data : thinkpad_ec_row) (s : ec_state σ) :
    (thinkpad_ec_read_data bus args data s).2.2.prefetch_ticks = s.prefetch_ticks ∧
    (thinkpad_ec_read_data bus args data s).2.2.prefetch_arg0 = s.prefetch_arg0 ∧
    (thinkpad_ec_read_data bus args data s).2.2.prefetch_argF = s.prefetch_argF ∧
    (thinkpad_ec_read_data bus args data s).2.2.calls =
      s.calls ++ [(Fn.read_data, (thinkpad_ec_read_data bus args data s).1)] := by
  obtain ⟨h1, h2, h3, h4⟩ := read_data_body_same_cache bus args data s
  refine ⟨h1, h2, h3, ?_⟩
  show (read_data_body bus args data s).2.2.calls ++ _ = _
  rw [h4]
  rfl

/-- The three results of `thinkpad_ec_read_data`. -/
theorem read_data_cases (bus : Bus σ) (args data : thinkpad_ec_row) (s : ec_state σ) :
    let st := status bus s.hw
    let busy := st = (H8S_STR3_IBF3B ||| H8S_STR3_MWMF) ∨ st = 0x00 ∨ st = H8S_STR3_SWMF
    let ready := st = (H8S_STR3_OBF3B ||| H8S_STR3_SWMF)
    let r := read_data_body bus args data s
    (busy → r = (- EBUSY, data, (bus_space_read_1 bus s TPC_STR3_PORT).2)) ∧
    (¬ busy → ¬ ready → r = (- EIO, data, (bus_space_read_1 bus s TPC_STR3_PORT).2)) ∧
    (ready → r.1 = 0) := by
  intro st busy ready r
  have hst : (bus_space_read_1 bus s TPC_STR3_PORT).1 &&& H8S_STR3_MASK = st := rfl
  refine ⟨?_, ?_, ?_⟩
  · intro hb
    show read_data_body bus args data s = _
    unfold read_data_body
    simp only [hst]
    rw [if_pos hb]
  · intro hb hr
    show read_data_body bus args data s = _
    unfold read_data_body
    simp only [hst]
    rw [if_neg hb, if_pos hr]
  · intro hr
    have hb : ¬ busy := by
      have : st = 0x50 := hr
      simp only [busy, this]
      decide
    show (read_data_body bus args data s).1 = 0
    unfold read_data_body
    simp only [hst]
    rw [if_neg hb, if_neg (not_not.2 hr)]

/-- C4: the return value of `thinkpad_ec_read_data` is determined by the
initial masked status alone: `-EBUSY` iff it is `0xa0`, `0x00` or `0x10`,
`0` iff it is `0x50`, and `-EIO` iff it is none of these four; when the
result is not `0` the only port access is the status read and the data row
is unchanged.  The bus is arbitrary, so the result is `0` on status `0x50`
whatever the later status read and the terminal byte are. -/
theorem read_data_result_by_status (bus : Bus σ) (args data : thinkpad_ec_row)
    (s : ec_state σ) :
    let st := status bus s.hw
    let v0 := (bus.read_1 s.hw TPC_STR3_PORT).1 % 256
    let r := thinkpad_ec_read_data bus args data s
    (r.1 = - EBUSY ↔ (st = 0xa0 ∨ st = 0x00 ∨ st = 0x10)) ∧
    (r.1 = 0 ↔ st = 0x50) ∧
    (r.1 = - EIO ↔ ¬ (st = 0xa0 ∨ st = 0x00 ∨ st = 0x10 ∨ st = 0x50)) ∧
    (r.1 ≠ 0 → r.2.1 = data ∧ r.2.2.log = s.log ++ [Ev.rd TPC_STR3_PORT v0]) := by
  intro st v0 r
  obtain ⟨hB, hE, hR⟩ := read_data_cases bus args data s
  have hr1 : r.1 = (read_data_body bus args data s).1 := rfl
  have hr2 : r.2.1 = (read_data_body bus args data s).2.1 := rfl
  have hr3 : r.2.2.log = (read_data_body bus args data s).2.2.log := rfl
  rw [hr1, hr2, hr3]
  by_cases hb : st = 0xa0 ∨ st = 0x00 ∨ st = 0x10
  · have e := hB hb
    have hne : st ≠ 0x50 := by
      rcases hb with h | h | h <;> rw [h] <;> decide
    rw [e]
    simp only [read_1_log]
    refine ⟨by simp [hb], by simp [hne, EBUSY], ?_, fun _ => by simp [v0]⟩
    simp [EBUSY, EIO]
    tauto
  · by_cases hr : st = 0x50
    · have e := hR hr
      rw [e]
      refine ⟨by simp [hb, EBUSY], by simp [hr], by simp [hr, EIO], fun h => absurd rfl h⟩
    · have e := hE hb hr
      rw [e]
      simp only [read_1_log]
      refine ⟨by simp [hb, EBUSY, EIO], by simp [hr, EIO], ?_, fun _ => by simp [v0]⟩
      simp
      tauto

/-- Instance of C4: status `0x50`, then a status with the output-buffer-full
bit still set and the terminal byte `0x80`; the result is `0` all the same. -/
theorem read_data_result_by_status_witness :
    status simBus (sim_state [0x50, 0x40] (fun _ => 0x80) 0).hw = 0x50 ∧
    (thinkpad_ec_read_data simBus (mk_row 0x0001 [0x11]) (mk_row 0x8000 [])
      (sim_state [0x50, 0x40] (fun _ => 0x80) 0)).2.1.val 15 = 0x80 ∧
    (thinkpad_ec_read_data simBus (mk_row 0x0001 [0x11]) (mk_row 0x8000 [])
      (sim_state [0x50, 0x40] (fun _ => 0x80) 0)).1 = 0 :=
  ⟨by decide, by decide,
    (read_data_result_by_status simBus (mk_row 0x0001 [0x11]) (mk_row 0x8000 [])
      (sim_state [0x50, 0x40] (fun _ => 0x80) 0)).2.1.2 (by decide)⟩

theorem is_row_fetched_iff (hz ticks : Int) (args : thinkpad_ec_row) (s : ec_state σ) :
    thinkpad_ec_is_row_fetched hz ticks args s = true ↔
      s.prefetch_ticks ≠ TPC_PREFETCH_NONE hz ∧ s.prefetch_ticks ≠ TPC_PREFETCH_JUNK hz ∧
      s.prefetch_arg0 = args.val 0 ∧ s.prefetch_argF = args.val 15 ∧
      ticks < int32 (s.prefetch_ticks + TPC_PREFETCH_TIMEOUT hz) := by
  simp [thinkpad_ec_is_row_fetched, and_assoc]

theorem retry_results_cons {n : Nat} {rs : List Int} {last : Int}
    (h : retry_results n rs last) : retry_results (n + 1) (- EBUSY :: rs) last := by
  obtain ⟨k, h1, h2, h3⟩ := h
  refine ⟨k + 1, ?_, by omega, fun hl => by have := h3 hl; omega⟩
  rw [h1]; rfl

theorem retry_results_single {n : Nat} (r : Int) (hn : 0 < n) (h : r = - EBUSY → n = 1) :
    retry_results n [r] r :=
  ⟨0, rfl, by omega, fun hl => by have := h hl; omega⟩

theorem request_loop_trace (bus : Bus σ) (args : thinkpad_ec_row) (n : Nat) (ret : Int)
    (s : ec_state σ) (hn : 0 < n) :
    ∃ reqs : List Int,
      retry_results n reqs (request_loop bus args n ret s).2.1 ∧
      (request_loop bus args n ret s).2.2.calls = s.calls ++ attempts Fn.request_row reqs ∧
      ((request_loop bus args n ret s).1 = true ↔ (request_loop bus args n ret s).2.1 = 0) ∧
      (request_loop bus args n ret s).2.2.prefetch_ticks = s.prefetch_ticks ∧
      (request_loop bus args n ret s).2.2.prefetch_arg0 = s.prefetch_arg0 ∧
      (request_loop bus args n ret s).2.2.prefetch_argF = s.prefetch_argF := by
  induction n generalizing ret s with
  | zero => omega
  | succ m ih =>
    obtain ⟨f1, f2, f3, f4⟩ := request_row_frame bus args s
    unfold request_loop
    dsimp only
    by_cases h0 : (thinkpad_ec_request_row bus args s).1 = 0
    · rw [if_pos h0]
      refine ⟨[(thinkpad_ec_request_row bus args s).1],
        retry_results_single _ (by omega) (fun h => ?_), ?_, ?_, f1, f2, f3⟩
      · rw [h0] at h; exact absurd h (by decide)
      · rw [f4]; rfl
      · simp [h0]
    · rw [if_neg h0]
      by_cases hb : (thinkpad_ec_request_row bus args s).1 = - EBUSY
      · rw [if_neg (not_not.2 hb)]
        rcases Nat.eq_zero_or_pos m with hm | hm
        · subst hm
          refine ⟨[(thinkpad_ec_request_row bus args s).1],
            retry_results_single _ (by omega) (fun _ => rfl), ?_, ?_, f1, f2, f3⟩
          · simp only [request_loop]; rw [f4]; rfl
          · simp only [request_loop]; simp [h0]
        · obtain ⟨reqs, g1, g2, g3, g4, g5, g6⟩ :=
            ih (thinkpad_ec_request_row bus args s).1 (thinkpad_ec_request_row bus args s).2 hm
          refine ⟨- EBUSY :: reqs, retry_results_cons g1, ?_, g3, g4.trans f1, g5.trans f2,
            g6.trans f3⟩
          rw [g2, f4, hb]
          simp [attempts]
      · rw [if_pos hb]
        refine ⟨[(thinkpad_ec_request_row bus args s).1],
          retry_results_single _ (by omega) (fun h => absurd h hb), ?_, ?_, f1, f2, f3⟩
        · rw [f4]; rfl
        · simp [h0]

theorem read_loop_trace (bus : Bus σ) (args : thinkpad_ec_row) (n : Nat) (ret : Int)
    (data : thinkpad_ec_row) (s : ec_state σ) (hn : 0 < n) :
    ∃ reads : List Int,
      retry_results n reads (read_loop bus args n ret data s).1 ∧
      (read_loop bus args n ret data s).2.2.calls = s.calls ++ attempts Fn.read_data reads ∧
      (read_loop bus args n ret data s).2.2.prefetch_ticks = s.prefetch_ticks ∧
      (read_loop bus args n ret data s).2.2.prefetch_arg0 = s.prefetch_arg0 ∧
      (read_loop bus args n ret data s).2.2.prefetch_argF = s.prefetch_argF := by
  induction n generalizing ret data s with
  | zero => omega
  | succ m ih =>
    obtain ⟨f1, f2, f3, f4⟩ := read_data_frame bus args data s
    unfold read_loop
    dsimp only
    by_cases h0 : (thinkpad_ec_read_data bus args data s).1 = 0
    · rw [if_pos h0]
      refine ⟨[(thinkpad_ec_read_data bus args data s).1],
        retry_results_single _ (by omega) (fun h => ?_), ?_, f1, f2, f3⟩
      · rw [h0] at h; exact absurd h (by decide)
      · rw [f4]; rfl
    · rw [if_neg h0]
      by_cases hb : (thinkpad_ec_read_data bus args data s).1 = - EBUSY
      · rw [if_neg (not_not.2 hb)]
        rcases Nat.eq_zero_or_pos m with hm | hm
        · subst hm
          refine ⟨[(thinkpad_ec_read_data bus args data s).1],
            retry_results_single _ (by omega) (fun _ => rfl), ?_, f1, f2, f3⟩
          simp only [read_loop]; rw [f4]; rfl
        · obtain ⟨reads, g1, g2, g4, g5, g6⟩ :=
            ih (thinkpad_ec_read_data bus args data s).1
              (thinkpad_ec_read_data bus args data s).2.1
              (thinkpad_ec_read_data bus args data s).2.2 hm
          refine ⟨- EBUSY :: reads, retry_results_cons g1, ?_, g4.trans f1, g5.trans f2,
            g6.trans f3⟩
          rw [g2, f4, hb]
          simp [attempts]
      · rw [if_pos hb]
        refine ⟨[(thinkpad_ec_read_data bus args data s).1],
          retry_results_single _ (by omega) (fun h => absurd h hb), ?_, f1, f2, f3⟩
        rw [f4]; rfl

/-- The results that `thinkpad_ec_read_data` can return. -/
theorem read_data_result (bus : Bus σ) (args data : thinkpad_ec_row) (s : ec_state σ) :
    (thinkpad_ec_read_data bus args data s).1 = 0 ∨
    (thinkpad_ec_read_data bus args data s).1 = - EBUSY ∨
    (thinkpad_ec_read_data bus args data s).1 = - EIO := by
  show (read_data_body bus args data s).1 = 0 ∨ (read_data_body bus args data s).1 = - EBUSY ∨
    (read_data_body bus args data s).1 = - EIO
  unfold read_data_body
  dsimp only
  split
  · exact Or.inr (Or.inl rfl)
  · split
    · exact Or.inr (Or.inr rfl)
    · exact Or.inl rfl

theorem try_read_row_not_fetched (bus : Bus σ) (hz ticks : Int)
    (args data : thinkpad_ec_row) (s : ec_state σ)
    (hf : thinkpad_ec_is_row_fetched hz ticks args s = false) :
    thinkpad_ec_try_read_row bus hz ticks args data s = (- ENOATTR, data, s) := by
  unfold thinkpad_ec_try_read_row
  simp [hf]

theorem try_read_row_fetched (bus : Bus σ) (hz ticks : Int)
    (args data : thinkpad_ec_row) (s : ec_state σ)
    (hf : thinkpad_ec_is_row_fetched hz ticks args s = true) :
    thinkpad_ec_try_read_row bus hz ticks args data s =
      (if (thinkpad_ec_read_data bus args data s).1 = 0 then
        ((thinkpad_ec_read_data bus args data s).1, (thinkpad_ec_read_data bus args data s).2.1,
          { (thinkpad_ec_read_data bus args data s).2.2 with
            prefetch_ticks := TPC_PREFETCH_NONE hz })
      else thinkpad_ec_read_data bus args data s) := by
  unfold thinkpad_ec_try_read_row
  simp [hf]

/-- C8: `thinkpad_ec_try_read_row` in any cache state.  If the row is not
prefetched and fresh it returns `-ENOATTR` and leaves the data row and the
whole channel state (device, log, cache) unchanged.  Otherwise it makes
exactly one call of `thinkpad_ec_read_data` and none of
`thinkpad_ec_request_row`, returns the result, the data, the device state
and the log of that call; the result is `0`, `-EBUSY` or `-EIO`; the cache
holds the sentinel for no prefetch afterwards iff the result is `0`, and
on any other result the recorded tick is unchanged; the recorded argument
bytes are unchanged. -/
theorem try_read_row_one_attempt (bus : Bus σ) (hz ticks : Int)
    (args data : thinkpad_ec_row) (s : ec_state σ) :
    let r := thinkpad_ec_try_read_row bus hz ticks args data s
    let a := thinkpad_ec_read_data bus args data s
    (thinkpad_ec_is_row_fetched hz ticks args s = false → r = (- ENOATTR, data, s)) ∧
    (thinkpad_ec_is_row_fetched hz ticks args s = true →
      r.1 = a.1 ∧ r.2.1 = a.2.1 ∧ r.2.2.hw = a.2.2.hw ∧ r.2.2.log = a.2.2.log ∧
      r.2.2.calls = s.calls ++ [(Fn.read_data, r.1)] ∧
      (r.1 = 0 ∨ r.1 = - EBUSY ∨ r.1 = - EIO) ∧
      (r.2.2.prefetch_ticks = TPC_PREFETCH_NONE hz ↔ r.1 = 0) ∧
      (r.1 ≠ 0 → r.2.2.prefetch_ticks = s.prefetch_ticks) ∧
      r.2.2.prefetch_arg0 = s.prefetch_arg0 ∧ r.2.2.prefetch_argF = s.prefetch_argF) := by
  intro r a
  obtain ⟨f1, f2, f3, f4⟩ := read_data_frame bus args data s
  constructor
  · intro hf
    exact try_read_row_not_fetched bus hz ticks args data s hf
  · intro hf
    have hnone : s.prefetch_ticks ≠ TPC_PREFETCH_NONE hz :=
      ((is_row_fetched_iff hz ticks args s).1 hf).1
    have hr : r = (if a.1 = 0 then
        (a.1, a.2.1, { a.2.2 with prefetch_ticks := TPC_PREFETCH_NONE hz }) else a) :=
      try_read_row_fetched bus hz ticks args data s hf
    by_cases h0 : a.1 = 0
    · rw [if_pos h0] at hr
      rw [hr]
      refine ⟨rfl, rfl, rfl, rfl, f4, Or.inl h0, ?_, fun h => absurd h0 h, f2, f3⟩
      simp [h0]
    · rw [if_neg h0] at hr
      rw [hr]
      refine ⟨rfl, rfl, rfl, rfl, f4, read_data_result bus args data s, ?_, fun _ => f1, f2, f3⟩
      constructor
      · intro h
        exact absurd (f1.symm.trans h) hnone
      · intro h
        exact absurd h h0

/-- Instance of C8: a fresh cache entry for the accelerometer row; the call
trace grows by the one record of `thinkpad_ec_read_data`. -/
theorem try_read_row_one_attempt_witness :
    thinkpad_ec_is_row_fetched 1000 5 (mk_row 0x0001 [0x11])
      { sim_state [0x50] (fun _ => 0) 0 with prefetch_arg0 := 0x11 } = true ∧
    (thinkpad_ec_try_read_row simBus 1000 5 (mk_row 0x0001 [0x11]) (mk_row 0x0002 [])
      { sim_state [0x50] (fun _ => 0) 0 with prefetch_arg0 := 0x11 }).2.2.calls =
      [] ++ [(Fn.read_data,
        (thinkpad_ec_try_read_row simBus 1000 5 (mk_row 0x0001 [0x11]) (mk_row 0x0002 [])
          { sim_state [0x50] (fun _ => 0) 0 with prefetch_arg0 := 0x11 }).1)] :=
  ⟨by decide,
    ((try_read_row_one_attempt simBus 1000 5 (mk_row 0x0001 [0x11]) (mk_row 0x0002 [])
      { sim_state [0x50] (fun _ => 0) 0 with prefetch_arg0 := 0x11 }).2 (by decide)).2.2.2.2.1⟩

theorem is_row_fetched_junk (hz ticks : Int) (args : thinkpad_ec_row) (s : ec_state σ)
    (h : s.prefetch_ticks = TPC_PREFETCH_JUNK hz) :
    thinkpad_ec_is_row_fetched hz ticks args s = false := by
  cases hf : thinkpad_ec_is_row_fetched hz ticks args s
  · rfl
  · exact absurd h ((is_row_fetched_iff hz ticks args s).1 hf).2.1

/-- C9: for every request, data row, cache state and device, on return from
`thinkpad_ec_read_row` the prefetch cache holds the junk sentinel, whatever
the result; consequently a `thinkpad_ec_try_read_row` made afterwards, for
any row, at any tick and in any device state, returns `-ENOATTR` and
changes nothing. -/
theorem read_row_leaves_junk (bus : Bus σ) (hz ticks : Int) (args data : thinkpad_ec_row)
    (s : ec_state σ) :
    (thinkpad_ec_read_row bus hz ticks args data s).2.2.prefetch_ticks =
      TPC_PREFETCH_JUNK hz ∧
    ∀ (ticks' : Int) (args' data' : thinkpad_ec_row) (h : σ),
      thinkpad_ec_try_read_row bus hz ticks' args' data'
        { (thinkpad_ec_read_row bus hz ticks args data s).2.2 with hw := h } =
      (- ENOATTR, data',
        { (thinkpad_ec_read_row bus hz ticks args data s).2.2 with hw := h }) := by
  have hj : (thinkpad_ec_read_row bus hz ticks args data s).2.2.prefetch_ticks =
      TPC_PREFETCH_JUNK hz := rfl
  refine ⟨hj, ?_⟩
  intro ticks' args' data' h
  have hf := is_row_fetched_junk hz ticks' args'
    { (thinkpad_ec_read_row bus hz ticks args data s).2.2 with hw := h } hj
  unfold thinkpad_ec_try_read_row
  simp [hf]

/-- C10: the attempts made by `thinkpad_ec_read_row`, read off the ghost call
trace.  If the row is prefetched and fresh there is no call of
`thinkpad_ec_request_row`, only a retry sequence of `thinkpad_ec_read_data`
calls.  Otherwise there is a retry sequence of `thinkpad_ec_request_row`
calls: at most 75, each but the last returning `-EBUSY`, and ending with
`-EBUSY` only when all 75 were made.  If its last result `q` is not `0`
(an error, or `-EBUSY` after 75 attempts) `thinkpad_ec_read_row` returns
`q` and no `thinkpad_ec_read_data` call is made.  If `q` is `0` a retry
sequence of `thinkpad_ec_read_data` calls follows, with the same bound and
stopping rule, and the result of the last attempt is returned. -/
theorem read_row_attempts (bus : Bus σ) (hz ticks : Int) (args data : thinkpad_ec_row)
    (s : ec_state σ) :
    let r := thinkpad_ec_read_row bus hz ticks args data s
    (thinkpad_ec_is_row_fetched hz ticks args s = true →
      ∃ reads : List Int, retry_results TPC_READ_RETRIES reads r.1 ∧
        r.2.2.calls = s.calls ++ attempts Fn.read_data reads) ∧
    (thinkpad_ec_is_row_fetched hz ticks args s = false →
      ∃ (reqs : List Int) (q : Int), retry_results TPC_READ_RETRIES reqs q ∧
        (q ≠ 0 → r.1 = q ∧ r.2.2.calls = s.calls ++ attempts Fn.request_row reqs) ∧
        (q = 0 → ∃ reads : List Int, retry_results TPC_READ_RETRIES reads r.1 ∧
          r.2.2.calls = s.calls ++ attempts Fn.request_row reqs ++
            attempts Fn.read_data reads)) := by
  intro r
  constructor
  · intro hf
    obtain ⟨reads, g1, g2, _⟩ :=
      read_loop_trace bus args TPC_READ_RETRIES 0 data s (by decide)
    refine ⟨reads, ?_, ?_⟩
    · have : r.1 = (read_loop bus args TPC_READ_RETRIES 0 data s).1 := by
        show (thinkpad_ec_read_row bus hz ticks args data s).1 = _
        unfold thinkpad_ec_read_row
        simp [hf]
      rw [this]; exact g1
    · have : r.2.2.calls = (read_loop bus args TPC_READ_RETRIES 0 data s).2.2.calls := by
        show (thinkpad_ec_read_row bus hz ticks args data s).2.2.calls = _
        unfold thinkpad_ec_read_row
        simp [hf, thinkpad_ec_invalidate]
      rw [this]; exact g2
  · intro hf
    obtain ⟨reqs, g1, g2, g3, _⟩ :=
      request_loop_trace bus args TPC_READ_RETRIES 0 s (by decide)
    refine ⟨reqs, (request_loop bus args TPC_READ_RETRIES 0 s).2.1, g1, ?_, ?_⟩
    · intro hq
      have hfl : (request_loop bus args TPC_READ_RETRIES 0 s).1 = false := by
        cases hc : (request_loop bus args TPC_READ_RETRIES 0 s).1
        · rfl
        · exact absurd (g3.1 hc) hq
      constructor
      · show (thinkpad_ec_read_row bus hz ticks args data s).1 = _
        unfold thinkpad_ec_read_row
        simp [hf, hfl]
      · rw [← g2]
        show (thinkpad_ec_read_row bus hz ticks args data s).2.2.calls = _
        unfold thinkpad_ec_read_row
        simp [hf, hfl, thinkpad_ec_invalidate]
    · intro hq
      have hfl : (request_loop bus args TPC_READ_RETRIES 0 s).1 = true := g3.2 hq
      obtain ⟨reads, k1, k2, _⟩ :=
        read_loop_trace bus args TPC_READ_RETRIES
          (request_loop bus args TPC_READ_RETRIES 0 s).2.1 data
          (request_loop bus args TPC_READ_RETRIES 0 s).2.2 (by decide)
      refine ⟨reads, ?_, ?_⟩
      · have : r.1 = (read_loop bus args TPC_READ_RETRIES
            (request_loop bus args TPC_READ_RETRIES 0 s).2.1 data
            (request_loop bus args TPC_READ_RETRIES 0 s).2.2).1 := by
          show (thinkpad_ec_read_row bus hz ticks args data s).1 = _
          unfold thinkpad_ec_read_row
          simp [hf, hfl]
        rw [this]; exact k1
      · rw [← g2, ← k2]
        show (thinkpad_ec_read_row bus hz ticks args data s).2.2.calls = _
        unfold thinkpad_ec_read_row
        simp [hf, hfl, thinkpad_ec_invalidate]

/-- Instance of C10: a read of the accelerometer row with a junk cache on
the simulated channel. -/
theorem read_row_attempts_witness :
    thinkpad_ec_is_row_fetched 1000 0 (mk_row 0x0001 [0x11])
      (sim_state documented_sequence (fun _ => 0) (TPC_PREFETCH_JUNK 1000)) = false ∧
    ∃ (reqs : List Int) (q : Int), retry_results TPC_READ_RETRIES reqs q ∧
      (q ≠ 0 →
        (thinkpad_ec_read_row simBus 1000 0 (mk_row 0x0001 [0x11]) (mk_row 0x8002 [])
          (sim_state documented_sequence (fun _ => 0) (TPC_PREFETCH_JUNK 1000))).1 = q ∧
        (thinkpad_ec_read_row simBus 1000 0 (mk_row 0x0001 [0x11]) (mk_row 0x8002 [])
          (sim_state documented_sequence (fun _ => 0) (TPC_PREFETCH_JUNK 1000))).2.2.calls =
          (sim_state documented_sequence (fun _ => 0) (TPC_PREFETCH_JUNK 1000)).calls ++
            attempts Fn.request_row reqs) ∧
      (q = 0 → ∃ reads : List Int,
        retry_results TPC_READ_RETRIES reads
          (thinkpad_ec_read_row simBus 1000 0 (mk_row 0x0001 [0x11]) (mk_row 0x8002 [])
            (sim_state documented_sequence (fun _ => 0) (TPC_PREFETCH_JUNK 1000))).1 ∧
        (thinkpad_ec_read_row simBus 1000 0 (mk_row 0x0001 [0x11]) (mk_row 0x8002 [])
          (sim_state documented_sequence (fun _ => 0) (TPC_PREFETCH_JUNK 1000))).2.2.calls =
          (sim_state documented_sequence (fun _ => 0) (TPC_PREFETCH_JUNK 1000)).calls ++
            attempts Fn.request_row reqs ++ attempts Fn.read_data reads) :=
  ⟨by decide,
    (read_row_attempts simBus 1000 0 (mk_row 0x0001 [0x11]) (mk_row 0x8002 [])
      (sim_state documented_sequence (fun _ => 0) (TPC_PREFETCH_JUNK 1000))).2 (by decide)⟩

/-! ## Facts about the simulated channel -/

theorem sim_send_args_hw (args : thinkpad_ec_row) (n i : Nat) (s : ec_state SimEC) :
    (send_args simBus args n i s).hw = s.hw := by
  induction n generalizing i s with
  | zero => rfl
  | succ n ih =>
    unfold send_args
    split
    · rw [ih]; rfl
    · rw [ih]

theorem sim_read_data_port (d : SimEC) (i : Nat) :
    simBus.read_1 d (TPC_TWR0_PORT + i) = (d.reply i, d) := by
  have h : ¬ (TPC_TWR0_PORT + i = TPC_STR3_PORT) := by
    simp only [TPC_TWR0_PORT, TPC_STR3_PORT]; omega
  simp only [simBus, if_neg h, Nat.add_sub_cancel_left]

theorem sim_read_args (n i : Nat) (data : thinkpad_ec_row) (s : ec_state SimEC) :
    (read_args simBus n i data s).2.hw = s.hw ∧
    (read_args simBus n i data s).1.mask = data.mask ∧
    ∀ j : Nat, (read_args simBus n i data s).1.val j =
      if i ≤ j ∧ j < i + n ∧ data.mask.testBit j = true then s.hw.reply j % 256
      else data.val j := by
  induction n generalizing i data s with
  | zero =>
    refine ⟨rfl, rfl, fun j => ?_⟩
    have : ¬ (i ≤ j ∧ j < i + 0 ∧ data.mask.testBit j = true) := by omega
    rw [if_neg this]; rfl
  | succ n ih =>
    unfold read_args
    by_cases hb : data.mask.testBit i = true
    · have hc : (data.mask >>> i) &&& 1 ≠ 0 := (shiftRight_and_one_ne_zero_iff _ _).2 hb
      rw [if_pos hc]
      dsimp only
      obtain ⟨a1, a2, a3⟩ := ih (i + 1)
        (set_val data i (bus_space_read_1 simBus s (TPC_TWR0_PORT + i)).1)
        (bus_space_read_1 simBus s (TPC_TWR0_PORT + i)).2
      have hhw : (bus_space_read_1 simBus s (TPC_TWR0_PORT + i)).2.hw = s.hw := by
        rw [read_1_hw, sim_read_data_port]
      have hv : (bus_space_read_1 simBus s (TPC_TWR0_PORT + i)).1 = s.hw.reply i % 256 := by
        rw [read_1_fst, sim_read_data_port]
      refine ⟨a1.trans hhw, a2, fun j => ?_⟩
      rw [a3 j, hhw, hv]
      by_cases hj : j = i
      · subst hj
        have h1 : ¬ (j + 1 ≤ j ∧ j < j + 1 + n ∧
            (set_val data j (s.hw.reply j % 256)).mask.testBit j = true) := by omega
        have h2 : j ≤ j ∧ j < j + (n + 1) ∧ data.mask.testBit j = true :=
          ⟨le_refl _, by omega, hb⟩
        rw [if_neg h1, if_pos h2]
        simp [set_val]
      · have hm : (set_val data i (s.hw.reply i % 256)).mask = data.mask := rfl
        have hval : (set_val data i (s.hw.reply i % 256)).val j = data.val j := by
          simp [set_val, hj]
        rw [hm, hval]
        by_cases hc1 : i + 1 ≤ j ∧ j < i + 1 + n ∧ data.mask.testBit j = true
        · have hc2 : i ≤ j ∧ j < i + (n + 1) ∧ data.mask.testBit j = true :=
            ⟨by omega, by omega, hc1.2.2⟩
          rw [if_pos hc1, if_pos hc2]
        · have hc2 : ¬ (i ≤ j ∧ j < i + (n + 1) ∧ data.mask.testBit j = true) := by
            intro h
            exact hc1 ⟨by omega, by omega, h.2.2⟩
          rw [if_neg hc1, if_neg hc2]
    · have hc : ¬ ((data.mask >>> i) &&& 1 ≠ 0) :=
        fun h => hb ((shiftRight_and_one_ne_zero_iff _ _).1 h)
      rw [if_neg hc]
      obtain ⟨a1, a2, a3⟩ := ih (i + 1) data s
      refine ⟨a1, a2, fun j => ?_⟩
      rw [a3 j]
      by_cases hc1 : i + 1 ≤ j ∧ j < i + 1 + n ∧ data.mask.testBit j = true
      · have hc2 : i ≤ j ∧ j < i + (n + 1) ∧ data.mask.testBit j = true :=
          ⟨by omega, by omega, hc1.2.2⟩
        rw [if_pos hc1, if_pos hc2]
      · have hc2 : ¬ (i ≤ j ∧ j < i + (n + 1) ∧ data.mask.testBit j = true) := by
          intro h
          by_cases hj : j = i
          · subst hj; exact hb h.2.2
          · exact hc1 ⟨by omega, by omega, h.2.2⟩
        rw [if_neg hc1, if_neg hc2]

theorem sim_request_row (args : thinkpad_ec_row) (s : ec_state SimEC) (rest : List Nat)
    (reply : Nat → Nat) (h0 : args.mask.testBit 0 = true)
    (hs : s.hw = { script := 0x00 :: 0x20 :: 0x10 :: rest, reply := reply }) :
    (request_row_body simBus args s).1 = 0 ∧
    (request_row_body simBus args s).2.hw = { script := rest, reply := reply } := by
  have hidle : status simBus s.hw = 0x00 := by
    rw [hs]; simp [status, simBus, H8S_STR3_MASK]
  rw [request_row_body_idle simBus args s h0 hidle]
  have e1 : (bus_space_read_1 simBus (bus_space_write_1 simBus
      (bus_space_read_1 simBus s TPC_STR3_PORT).2 TPC_TWR0_PORT (args.val 0))
      TPC_STR3_PORT).1 = 0x20 := by
    simp only [read_1_fst, write_1_hw, read_1_hw, hs]; rfl
  have e2 : (bus_space_read_1 simBus (bus_space_write_1 simBus
      (bus_space_read_1 simBus s TPC_STR3_PORT).2 TPC_TWR0_PORT (args.val 0))
      TPC_STR3_PORT).2.hw = { script := 0x10 :: rest, reply := reply } := by
    simp only [read_1_fst, write_1_hw, read_1_hw, hs]; rfl
  dsimp only
  rw [e1, if_neg (by decide)]
  have e3 : TPC_REQUEST_RETRIES = 999 + 1 := rfl
  rw [e3, wait_reply]
  have e4 : ∀ v : Nat, (bus_space_write_1 simBus (send_args simBus args 14 1
      (bus_space_read_1 simBus (bus_space_write_1 simBus
        (bus_space_read_1 simBus s TPC_STR3_PORT).2 TPC_TWR0_PORT (args.val 0))
        TPC_STR3_PORT).2) TPC_TWR15_PORT v).hw = { script := 0x10 :: rest, reply := reply } := by
    intro v
    rw [write_1_hw, sim_send_args_hw, e2]; rfl
  simp only [read_1_fst, read_1_hw, e4]
  have e5 : (simBus.read_1 { script := 0x10 :: rest, reply := reply } TPC_STR3_PORT) =
      (0x10, { script := rest, reply := reply }) := rfl
  rw [e5]
  have e6 : ((0x10 : Nat) % 256 &&& H8S_STR3_MASK) &&& H8S_STR3_SWMF ≠ 0 := by decide
  rw [if_pos e6]
  refine ⟨rfl, ?_⟩
  show (bus_space_read_1 simBus _ TPC_STR3_PORT).2.hw = _
  rw [read_1_hw, e4, e5]

theorem sim_read_data (args data : thinkpad_ec_row) (s : ec_state SimEC) (rest : List Nat)
    (reply : Nat → Nat) (hs : s.hw = { script := 0x50 :: rest, reply := reply }) :
    (read_data_body simBus args data s).1 = 0 ∧
    (read_data_body simBus args data s).2.1.mask = data.mask ∧
    ∀ i : Nat, i < 16 → (read_data_body simBus args data s).2.1.val i =
      if i = 0 ∨ i = 15 ∨ data.mask.testBit i = true then reply i % 256 else data.val i := by
  have hst : (bus_space_read_1 simBus s TPC_STR3_PORT).1 &&& H8S_STR3_MASK = 0x50 := by
    rw [read_1_fst, hs]
    show (0x50 % 256) &&& 0xf0 = 0x50
    decide
  have hhw : (bus_space_read_1 simBus s TPC_STR3_PORT).2.hw =
      { script := rest, reply := reply } := by
    rw [read_1_hw, hs]; rfl
  have hp0 : TPC_TWR0_PORT = TPC_TWR0_PORT + 0 := rfl
  have hp15 : TPC_TWR15_PORT = TPC_TWR0_PORT + 15 := rfl
  have h0hw : (bus_space_read_1 simBus (bus_space_read_1 simBus s TPC_STR3_PORT).2
      TPC_TWR0_PORT).2.hw = { script := rest, reply := reply } := by
    rw [read_1_hw, hp0, sim_read_data_port, hhw]
  have h0v : (bus_space_read_1 simBus (bus_space_read_1 simBus s TPC_STR3_PORT).2
      TPC_TWR0_PORT).1 = reply 0 % 256 := by
    rw [read_1_fst, hp0, sim_read_data_port, hhw]
  obtain ⟨a1, a2, a3⟩ := sim_read_args 14 1
    (set_val data 0 (bus_space_read_1 simBus (bus_space_read_1 simBus s TPC_STR3_PORT).2
      TPC_TWR0_PORT).1)
    (bus_space_read_1 simBus (bus_space_read_1 simBus s TPC_STR3_PORT).2 TPC_TWR0_PORT).2
  rw [h0hw] at a1
  rw [h0hw] at a3
  have hfv : (bus_space_read_1 simBus (read_args simBus 14 1
      (set_val data 0 (bus_space_read_1 simBus (bus_space_read_1 simBus s TPC_STR3_PORT).2
        TPC_TWR0_PORT).1)
      (bus_space_read_1 simBus (bus_space_read_1 simBus s TPC_STR3_PORT).2
        TPC_TWR0_PORT).2).2 TPC_TWR15_PORT).1 = reply 15 % 256 := by
    rw [read_1_fst, hp15, sim_read_data_port, a1]
  have e14 : TP_CONTROLLER_ROW_LEN - 1 - 1 = 14 := rfl
  unfold read_data_body
  simp only [hst, e14]
  rw [if_neg (by decide), if_neg (by decide)]
  refine ⟨rfl, a2, fun i hi => ?_⟩
  show (set_val _ 0xf _).val i = _
  rw [hfv]
  by_cases h15 : i = 15
  · subst h15; simp [set_val]
  · have hsv : ∀ (d : thinkpad_ec_row) (v : Nat), (set_val d 15 v).val i = d.val i := by
      intro d v; simp [set_val, h15]
    rw [hsv, a3 i, h0v]
    by_cases hi0 : i = 0
    · subst hi0; simp [set_val]
    · have hm : (set_val data 0 (reply 0 % 256)).mask = data.mask := rfl
      have hv : (set_val data 0 (reply 0 % 256)).val i = data.val i := by
        simp [set_val, hi0]
      rw [hm, hv]
      by_cases hb : data.mask.testBit i = true
      · rw [if_pos ⟨by omega, by omega, hb⟩, if_pos (Or.inr (Or.inr hb))]
      · rw [if_neg (fun h => hb h.2.2), if_neg (by
          rintro (h | h | h)
          · exact hi0 h
          · exact h15 h
          · exact hb h)]

/-- C5 (amended): for every row request with mask bit 0 set, every data row
and data mask, and every content `reply` of the data ports, on the
simulated channel that shows the documented status sequence (idle, write
accepted, reply started, output ready) `thinkpad_ec_request_row` followed
at once by `thinkpad_ec_read_data` returns `0` from both calls; the data
mask is unchanged, slots 0 and 15 are always overwritten with the bytes of
TWR0 and TWR15, and a slot `i` of `1 .. 14` is overwritten with the byte of
`TWR0+i` if mask bit `i` is set and keeps its old value otherwise. -/
theorem sim_request_then_read (args data : thinkpad_ec_row) (rest : List Nat)
    (reply : Nat → Nat) (s : ec_state SimEC) (h0 : args.mask.testBit 0 = true) :
    let s0 : ec_state SimEC :=
      { s with hw := { script := documented_sequence ++ rest, reply := reply } }
    let r1 := thinkpad_ec_request_row simBus args s0
    let r2 := thinkpad_ec_read_data simBus args data r1.2
    r1.1 = 0 ∧ r2.1 = 0 ∧ r2.2.1.mask = data.mask ∧
    ∀ i : Nat, i < 16 → r2.2.1.val i =
      if i = 0 ∨ i = 15 ∨ data.mask.testBit i = true then reply i % 256 else data.val i := by
  intro s0 r1 r2
  obtain ⟨a1, a2⟩ := sim_request_row args s0 (0x50 :: rest) reply h0 rfl
  have hr1 : r1.1 = (request_row_body simBus args s0).1 := rfl
  have hhw : r1.2.hw = { script := 0x50 :: rest, reply := reply } := a2
  obtain ⟨b1, b2, b3⟩ := sim_read_data args data r1.2 rest reply hhw
  exact ⟨hr1.trans a1, b1, b2, b3⟩

/-- Instance of C5 (amended): the accelerometer row with the data mask
`0x0002`. -/
theorem sim_request_then_read_witness :
    (mk_row 0x0001 [0x11]).mask.testBit 0 = true ∧
    (thinkpad_ec_read_data simBus (mk_row 0x0001 [0x11]) (mk_row 0x0002 [])
      (thinkpad_ec_request_row simBus (mk_row 0x0001 [0x11])
        (sim_state documented_sequence (fun i => i + 1) 0)).2).1 = 0 :=
  ⟨by decide,
    (sim_request_then_read (mk_row 0x0001 [0x11]) (mk_row 0x0002 []) [] (fun i => i + 1)
      (sim_state documented_sequence (fun i => i + 1) 0) (by decide)).2.1⟩

/-- C5 fails as stated: with the data mask `0x0000` and a data row whose
slot 0 holds 7, on the simulated channel whose data ports all hold 9, it is
not the case that both calls return `0` and every slot `i` of `0 .. 15` is
overwritten iff mask bit `i` is set: slot 0 is overwritten with 9 although
its mask bit is clear. -/
theorem read_data_fills_unmasked_slot :
    ¬ ((thinkpad_ec_request_row simBus (mk_row 0x0001 [0x11])
          (sim_state documented_sequence (fun _ => 9) 0)).1 = 0 ∧
      (thinkpad_ec_read_data simBus (mk_row 0x0001 [0x11]) (mk_row 0x0000 [7])
        (thinkpad_ec_request_row simBus (mk_row 0x0001 [0x11])
          (sim_state documented_sequence (fun _ => 9) 0)).2).1 = 0 ∧
      ∀ i : Nat, i < 16 →
        (thinkpad_ec_read_data simBus (mk_row 0x0001 [0x11]) (mk_row 0x0000 [7])
          (thinkpad_ec_request_row simBus (mk_row 0x0001 [0x11])
            (sim_state documented_sequence (fun _ => 9) 0)).2).2.1.val i =
        if (mk_row 0x0000 [7]).mask.testBit i = true then (fun _ => 9) i % 256
        else (mk_row 0x0000 [7]).val i) := by
  intro h
  exact absurd (h.2.2 0 (by decide)) (by decide)

theorem int32_of_range (x : Int) (h1 : -2147483648 ≤ x) (h2 : x ≤ 2147483647) :
    int32 x = x := by
  unfold int32
  omega

theorem reads_only_refl (s : ec_state σ) : reads_only s s := ⟨[], by simp, by simp⟩

theorem reads_only_trans {s t u : ec_state σ} (h1 : reads_only s t) (h2 : reads_only t u) :
    reads_only s u := by
  obtain ⟨e1, a1, b1⟩ := h1
  obtain ⟨e2, a2, b2⟩ := h2
  refine ⟨e1 ++ e2, ?_, by rw [b2, b1, List.append_assoc]⟩
  intro e he
  rcases List.mem_append.1 he with h | h
  · exact a1 e h
  · exact a2 e h

theorem reads_only_read (bus : Bus σ) (s : ec_state σ) (p : Nat) :
    reads_only s (bus_space_read_1 bus s p).2 :=
  ⟨[Ev.rd p ((bus.read_1 s.hw p).1 % 256)], by simp [Ev.isWrite], rfl⟩

theorem read_args_reads_only (bus : Bus σ) (n i : Nat) (data : thinkpad_ec_row)
    (s : ec_state σ) : reads_only s (read_args bus n i data s).2 := by
  induction n generalizing i data s with
  | zero => exact reads_only_refl s
  | succ n ih =>
    unfold read_args
    split
    · exact reads_only_trans (reads_only_read bus s _) (ih _ _ _)
    · exact ih _ _ _

theorem read_data_body_reads_only (bus : Bus σ) (args data : thinkpad_ec_row)
    (s : ec_state σ) : reads_only s (read_data_body bus args data s).2.2 := by
  unfold read_data_body
  dsimp only
  split
  · exact reads_only_read bus s _
  · split
    · exact reads_only_read bus s _
    · refine reads_only_trans (reads_only_read bus s TPC_STR3_PORT) ?_
      refine reads_only_trans (reads_only_read bus _ TPC_TWR0_PORT) ?_
      refine reads_only_trans
        (read_args_reads_only bus (TP_CONTROLLER_ROW_LEN - 1 - 1) 1
          (set_val data 0
            (bus_space_read_1 bus (bus_space_read_1 bus s TPC_STR3_PORT).2 TPC_TWR0_PORT).1)
          _) ?_
      exact reads_only_trans (reads_only_read bus _ TPC_TWR15_PORT)
        (reads_only_read bus _ TPC_STR3_PORT)

theorem read_data_no_write (bus : Bus σ) (args data : thinkpad_ec_row) (s : ec_state σ) :
    (thinkpad_ec_read_data bus args data s).2.2.log.filter Ev.isWrite =
      s.log.filter Ev.isWrite := by
  obtain ⟨evs, h1, h2⟩ := read_data_body_reads_only bus args data s
  show (read_data_body bus args data s).2.2.log.filter Ev.isWrite = _
  rw [h2, List.filter_append]
  have : evs.filter Ev.isWrite = [] := by
    rw [List.filter_eq_nil_iff]
    intro e he
    simp [h1 e he]
  rw [this, List.append_nil]

theorem prefetch_row_ok (bus : Bus σ) (hz ticks : Int) (args : thinkpad_ec_row)
    (s : ec_state σ) (hok : (thinkpad_ec_prefetch_row bus hz ticks args s).1 = 0) :
    (thinkpad_ec_prefetch_row bus hz ticks args s).2.prefetch_ticks = ticks ∧
    (thinkpad_ec_prefetch_row bus hz ticks args s).2.prefetch_arg0 = args.val 0 ∧
    (thinkpad_ec_prefetch_row bus hz ticks args s).2.prefetch_argF = args.val 15 := by
  unfold thinkpad_ec_prefetch_row at hok ⊢
  dsimp only at hok ⊢
  by_cases h : (thinkpad_ec_request_row bus args s).1 = 0
  · rw [if_neg (not_not.2 h)]
    exact ⟨rfl, rfl, rfl⟩
  · rw [if_pos h] at hok
    exact absurd hok h

/-- C6 (amended): let `thinkpad_ec_prefetch_row` succeed for row `args` at tick
`t0`, where `t0` is a C `int` that is neither of the two sentinels
`-300*hz` and `-300*hz+1` and `t0 + hz/10` does not exceed `INT_MAX`.  Then
at every tick `t` with `t0 ≤ t < t0 + hz/10`, and whatever state `h` the
device has reached meanwhile as long as it shows output ready,
`thinkpad_ec_try_read_row` for the same row returns `0`; it makes exactly
one call of `thinkpad_ec_read_data` and none of `thinkpad_ec_request_row`,
writes no port, returns the data of that one `thinkpad_ec_read_data`, and
leaves the cache at the sentinel for no prefetch. -/
theorem prefetch_then_try_read_in_window (bus : Bus σ) (hz t0 t : Int)
    (args data : thinkpad_ec_row) (s : ec_state σ) (h : σ)
    (hok : (thinkpad_ec_prefetch_row bus hz t0 args s).1 = 0)
    (hnone : t0 ≠ TPC_PREFETCH_NONE hz) (hjunk : t0 ≠ TPC_PREFETCH_JUNK hz)
    (hmin : -2147483648 ≤ t0) (hmax : t0 + TPC_PREFETCH_TIMEOUT hz ≤ 2147483647)
    (hlo : t0 ≤ t) (hhi : t < t0 + TPC_PREFETCH_TIMEOUT hz)
    (hready : status bus h = H8S_STR3_OBF3B ||| H8S_STR3_SWMF) :
    let s1 : ec_state σ := { (thinkpad_ec_prefetch_row bus hz t0 args s).2 with hw := h }
    let r := thinkpad_ec_try_read_row bus hz t args data s1
    r.1 = 0 ∧
    r.2.1 = (thinkpad_ec_read_data bus args data s1).2.1 ∧
    r.2.2.calls = s1.calls ++ [(Fn.read_data, 0)] ∧
    r.2.2.log.filter Ev.isWrite = s1.log.filter Ev.isWrite ∧
    r.2.2.prefetch_ticks = TPC_PREFETCH_NONE hz := by
  intro s1 r
  obtain ⟨p1, p2, p3⟩ := prefetch_row_ok bus hz t0 args s hok
  have hf : thinkpad_ec_is_row_fetched hz t args s1 = true := by
    rw [is_row_fetched_iff]
    refine ⟨?_, ?_, p2, p3, ?_⟩
    · show (thinkpad_ec_prefetch_row bus hz t0 args s).2.prefetch_ticks ≠ _
      rw [p1]; exact hnone
    · show (thinkpad_ec_prefetch_row bus hz t0 args s).2.prefetch_ticks ≠ _
      rw [p1]; exact hjunk
    · show t < int32 ((thinkpad_ec_prefetch_row bus hz t0 args s).2.prefetch_ticks + _)
      rw [p1, int32_of_range _ (by omega) hmax]
      exact hhi
  have ha : (thinkpad_ec_read_data bus args data s1).1 = 0 :=
    (read_data_cases bus args data s1).2.2 hready
  have hr : r = ((thinkpad_ec_read_data bus args data s1).1,
      (thinkpad_ec_read_data bus args data s1).2.1,
      { (thinkpad_ec_read_data bus args data s1).2.2 with
        prefetch_ticks := TPC_PREFETCH_NONE hz }) := by
    have e := try_read_row_fetched bus hz t args data s1 hf
    rw [if_pos ha] at e
    exact e
  rw [hr]
  refine ⟨ha, rfl, ?_, read_data_no_write bus args data s1, rfl⟩
  show (thinkpad_ec_read_data bus args data s1).2.2.calls = _
  rw [(read_data_frame bus args data s1).2.2.2, ha]

/-- Instance of C6 (amended): `hz = 1000`, prefetch at tick 0, read at tick
99, the last tick of the window. -/
theorem prefetch_then_try_read_in_window_witness :
    (thinkpad_ec_prefetch_row simBus 1000 0 (mk_row 0x0001 [0x11])
      (sim_state documented_sequence (fun _ => 0) (TPC_PREFETCH_JUNK 1000))).1 = 0 ∧
    (0 : Int) ≠ TPC_PREFETCH_NONE 1000 ∧ (0 : Int) ≠ TPC_PREFETCH_JUNK 1000 ∧
    (-2147483648 : Int) ≤ 0 ∧ (0 : Int) + TPC_PREFETCH_TIMEOUT 1000 ≤ 2147483647 ∧
    (0 : Int) ≤ 99 ∧ (99 : Int) < 0 + TPC_PREFETCH_TIMEOUT 1000 ∧
    status simBus { script := [0x50], reply := fun _ => 0 } =
      H8S_STR3_OBF3B ||| H8S_STR3_SWMF ∧
    (thinkpad_ec_try_read_row simBus 1000 99 (mk_row 0x0001 [0x11]) (mk_row 0x8002 [])
      { (thinkpad_ec_prefetch_row simBus 1000 0 (mk_row 0x0001 [0x11])
          (sim_state documented_sequence (fun _ => 0) (TPC_PREFETCH_JUNK 1000))).2 with
        hw := { script := [0x50], reply := fun _ => 0 } }).1 = 0 :=
  ⟨by decide, by decide, by decide, by decide, by decide, by decide, by decide, by decide,
    (prefetch_then_try_read_in_window simBus 1000 0 99 (mk_row 0x0001 [0x11])
      (mk_row 0x8002 []) (sim_state documented_sequence (fun _ => 0) (TPC_PREFETCH_JUNK 1000))
      { script := [0x50], reply := fun _ => 0 }
      (by decide) (by decide) (by decide) (by decide) (by decide) (by decide) (by decide)
      (by decide)).1⟩

/-- C6 fails as stated: with `hz = 1000`, a prefetch of the accelerometer
row that succeeds at tick `-300000` records the tick `-300*hz`, which is
the sentinel for no prefetch; a `thinkpad_ec_try_read_row` of the same row
at the same tick, inside the window and with the channel showing output
ready, returns `-ENOATTR`. -/
theorem prefetch_at_sentinel_tick_is_lost :
    (thinkpad_ec_prefetch_row simBus 1000 (-300000) (mk_row 0x0001 [0x11])
      (sim_state documented_sequence (fun _ => 0) (TPC_PREFETCH_JUNK 1000))).1 = 0 ∧
    (-300000 : Int) ≤ -300000 ∧ (-300000 : Int) < -300000 + TPC_PREFETCH_TIMEOUT 1000 ∧
    status simBus (thinkpad_ec_prefetch_row simBus 1000 (-300000) (mk_row 0x0001 [0x11])
      (sim_state documented_sequence (fun _ => 0) (TPC_PREFETCH_JUNK 1000))).2.hw =
      H8S_STR3_OBF3B ||| H8S_STR3_SWMF ∧
    (thinkpad_ec_try_read_row simBus 1000 (-300000) (mk_row 0x0001 [0x11]) (mk_row 0x8002 [])
      (thinkpad_ec_prefetch_row simBus 1000 (-300000) (mk_row 0x0001 [0x11])
        (sim_state documented_sequence (fun _ => 0) (TPC_PREFETCH_JUNK 1000))).2).1 =
      - ENOATTR := by
  decide

/-- C7 (amended): after a successful `thinkpad_ec_prefetch_row` of row `A`,
`thinkpad_ec_try_read_row` for every row `B` whose first or last argument
byte differs from that of `A` returns `-ENOATTR` at every tick and for
every device state, with the data row and the channel state unchanged. -/
theorem try_read_other_row_not_prefetched (bus : Bus σ) (hz t0 t : Int)
    (A B data : thinkpad_ec_row) (s : ec_state σ) (h : σ)
    (hok : (thinkpad_ec_prefetch_row bus hz t0 A s).1 = 0)
    (hdiff : B.val 0 ≠ A.val 0 ∨ B.val 15 ≠ A.val 15) :
    thinkpad_ec_try_read_row bus hz t B data
      { (thinkpad_ec_prefetch_row bus hz t0 A s).2 with hw := h } =
    (- ENOATTR, data, { (thinkpad_ec_prefetch_row bus hz t0 A s).2 with hw := h }) := by
  obtain ⟨_, p2, p3⟩ := prefetch_row_ok bus hz t0 A s hok
  apply try_read_row_not_fetched
  cases hf : thinkpad_ec_is_row_fetched hz t B
      { (thinkpad_ec_prefetch_row bus hz t0 A s).2 with hw := h }
  · rfl
  · obtain ⟨_, _, q2, q3, _⟩ := (is_row_fetched_iff hz t B _).1 hf
    rcases hdiff with hd | hd
    · exact absurd (q2.symm.trans p2) hd
    · exact absurd (q3.symm.trans p3) hd

/-- Instance of C7 (amended): the accelerometer row `0x11` is prefetched and
the power row `0x14` is asked for. -/
theorem try_read_other_row_not_prefetched_witness :
    (thinkpad_ec_prefetch_row simBus 1000 0 (mk_row 0x0001 [0x11])
      (sim_state documented_sequence (fun _ => 0) (TPC_PREFETCH_JUNK 1000))).1 = 0 ∧
    ((mk_row 0x0003 [0x14, 0x01]).val 0 ≠ (mk_row 0x0001 [0x11]).val 0 ∨
      (mk_row 0x0003 [0x14, 0x01]).val 15 ≠ (mk_row 0x0001 [0x11]).val 15) ∧
    (thinkpad_ec_try_read_row simBus 1000 50 (mk_row 0x0003 [0x14, 0x01]) (mk_row 0x8000 [])
      { (thinkpad_ec_prefetch_row simBus 1000 0 (mk_row 0x0001 [0x11])
          (sim_state documented_sequence (fun _ => 0) (TPC_PREFETCH_JUNK 1000))).2 with
        hw := { script := [0x50], reply := fun _ => 0 } }).1 = - ENOATTR :=
  ⟨by decide, by decide,
    congrArg Prod.fst
      (try_read_other_row_not_prefetched simBus 1000 0 50 (mk_row 0x0001 [0x11])
        (mk_row 0x0003 [0x14, 0x01]) (mk_row 0x8000 [])
        (sim_state documented_sequence (fun _ => 0) (TPC_PREFETCH_JUNK 1000))
        { script := [0x50], reply := fun _ => 0 } (by decide) (by decide))⟩

/-- C7 fails as stated: after a successful prefetch of the power-on row
(`0x14, 0x01`), a `thinkpad_ec_try_read_row` of the power-off row
(`0x14, 0x00`), which differs in argument byte 1 only, made inside the
window returns `0`, not `-ENOATTR`. -/
theorem try_read_row_ignores_middle_bytes :
    (thinkpad_ec_prefetch_row simBus 1000 0 (mk_row 0x0003 [0x14, 0x01])
      (sim_state documented_sequence (fun _ => 0) (TPC_PREFETCH_JUNK 1000))).1 = 0 ∧
    (mk_row 0x0003 [0x14, 0x00]).val 1 ≠ (mk_row 0x0003 [0x14, 0x01]).val 1 ∧
    (0 : Int) ≤ 50 ∧ (50 : Int) < 0 + TPC_PREFETCH_TIMEOUT 1000 ∧
    (thinkpad_ec_try_read_row simBus 1000 50 (mk_row 0x0003 [0x14, 0x00]) (mk_row 0x8000 [])
      (thinkpad_ec_prefetch_row simBus 1000 0 (mk_row 0x0003 [0x14, 0x01])
        (sim_state documented_sequence (fun _ => 0) (TPC_PREFETCH_JUNK 1000))).2).1 = 0 ∧
    (0 : Int) ≠ - ENOATTR := by
  decide

/-! ## Staleness and prefetch -/

theorem tdiv_ten_nonneg (hz : Int) (h : 0 ≤ hz) : 0 ≤ TPC_PREFETCH_TIMEOUT hz := by
  unfold TPC_PREFETCH_TIMEOUT
  rw [Int.tdiv_eq_ediv h (by decide)]
  omega

theorem read_row_not_fetched_requests (bus : Bus σ) (hz ticks : Int)
    (args data : thinkpad_ec_row) (s : ec_state σ)
    (hf : thinkpad_ec_is_row_fetched hz ticks args s = false) :
    ∃ (x : Int) (rest : List (Fn × Int)),
      (thinkpad_ec_read_row bus hz ticks args data s).2.2.calls =
        s.calls ++ (Fn.request_row, x) :: rest := by
  obtain ⟨reqs, ⟨k, hk, _, _⟩, g2, g3, _⟩ :=
    request_loop_trace bus args TPC_READ_RETRIES 0 s (by decide)
  have hhead : ∃ x tl, attempts Fn.request_row reqs = (Fn.request_row, x) :: tl := by
    rw [hk]
    cases k with
    | zero => exact ⟨_, [], rfl⟩
    | succ k => exact ⟨- EBUSY, _, rfl⟩
  obtain ⟨x, tl, htl⟩ := hhead
  cases hfl : (request_loop bus args TPC_READ_RETRIES 0 s).1
  · refine ⟨x, tl, ?_⟩
    rw [← htl, ← g2]
    unfold thinkpad_ec_read_row
    simp [hf, hfl, thinkpad_ec_invalidate]
  · obtain ⟨reads, _, k2, _⟩ :=
      read_loop_trace bus args TPC_READ_RETRIES
        (request_loop bus args TPC_READ_RETRIES 0 s).2.1 data
        (request_loop bus args TPC_READ_RETRIES 0 s).2.2 (by decide)
    refine ⟨x, tl ++ attempts Fn.read_data reads, ?_⟩
    have : (thinkpad_ec_read_row bus hz ticks args data s).2.2.calls =
        (read_loop bus args TPC_READ_RETRIES
          (request_loop bus args TPC_READ_RETRIES 0 s).2.1 data
          (request_loop bus args TPC_READ_RETRIES 0 s).2.2).2.2.calls := by
      unfold thinkpad_ec_read_row
      simp [hf, hfl, thinkpad_ec_invalidate]
    rw [this, k2, g2, htl]
    simp

/-- C11, amended: with `hz` not negative and the ticks within the range of a
C `int`, an entry whose age, the difference `ticks - prefetch_ticks` of the
two tick values as integers, exceeds `hz/10` is treated like junk for every
row: `thinkpad_ec_is_row_fetched` is false, `thinkpad_ec_try_read_row`
returns `-ENOATTR` and changes nothing, and the first call that
`thinkpad_ec_read_row` makes is a `thinkpad_ec_request_row`.  As long as
`prefetch_ticks + hz/10` does not overflow, `thinkpad_ec_is_row_fetched`
holds iff the recorded tick is neither sentinel, the recorded first and last
bytes equal `val[0]` and `val[15]`, and `ticks < prefetch_ticks + hz/10`.  In
general the same iff holds with the sum taken in `int` arithmetic, where it
wraps around. -/
theorem stale_entry_is_junk (bus : Bus σ) (hz ticks : Int) (args data : thinkpad_ec_row)
    (s : ec_state σ) (hz0 : 0 ≤ hz) (hmin : -2147483648 ≤ s.prefetch_ticks)
    (hmax : ticks ≤ 2147483647) :
    (ticks - s.prefetch_ticks > TPC_PREFETCH_TIMEOUT hz →
      thinkpad_ec_is_row_fetched hz ticks args s = false ∧
      thinkpad_ec_try_read_row bus hz ticks args data s = (- ENOATTR, data, s) ∧
      ∃ (x : Int) (rest : List (Fn × Int)),
        (thinkpad_ec_read_row bus hz ticks args data s).2.2.calls =
          s.calls ++ (Fn.request_row, x) :: rest) ∧
    (s.prefetch_ticks + TPC_PREFETCH_TIMEOUT hz ≤ 2147483647 →
      (thinkpad_ec_is_row_fetched hz ticks args s = true ↔
        s.prefetch_ticks ≠ TPC_PREFETCH_NONE hz ∧ s.prefetch_ticks ≠ TPC_PREFETCH_JUNK hz ∧
        s.prefetch_arg0 = args.val 0 ∧ s.prefetch_argF = args.val 15 ∧
        ticks < s.prefetch_ticks + TPC_PREFETCH_TIMEOUT hz)) ∧
    (thinkpad_ec_is_row_fetched hz ticks args s = true ↔
      s.prefetch_ticks ≠ TPC_PREFETCH_NONE hz ∧ s.prefetch_ticks ≠ TPC_PREFETCH_JUNK hz ∧
      s.prefetch_arg0 = args.val 0 ∧ s.prefetch_argF = args.val 15 ∧
      ticks < int32 (s.prefetch_ticks + TPC_PREFETCH_TIMEOUT hz)) := by
  have hT := tdiv_ten_nonneg hz hz0
  refine ⟨?_, ?_, is_row_fetched_iff hz ticks args s⟩
  · intro hage
    have hf : thinkpad_ec_is_row_fetched hz ticks args s = false := by
      cases hc : thinkpad_ec_is_row_fetched hz ticks args s
      · rfl
      · have h5 := ((is_row_fetched_iff hz ticks args s).1 hc).2.2.2.2
        rw [int32_of_range _ (by omega) (by omega)] at h5
        omega
    exact ⟨hf, try_read_row_not_fetched bus hz ticks args data s hf,
      read_row_not_fetched_requests bus hz ticks args data s hf⟩
  · intro hsum
    rw [is_row_fetched_iff, int32_of_range _ (by omega) hsum]

/-- Instance of C11: `hz = 1000`, an entry recorded at tick 5000 and looked
up at tick 5101. -/
theorem stale_entry_is_junk_witness :
    (0 : Int) ≤ 1000 ∧
    (-2147483648 : Int) ≤
      ({ sim_state [] (fun _ => 0) 5000 with prefetch_arg0 := 0x11 } :
        ec_state SimEC).prefetch_ticks ∧
    (5101 : Int) ≤ 2147483647 ∧
    (5101 : Int) - 5000 > TPC_PREFETCH_TIMEOUT 1000 ∧
    thinkpad_ec_is_row_fetched 1000 5101 ec_accel_args
      ({ sim_state [] (fun _ => 0) 5000 with prefetch_arg0 := 0x11 } : ec_state SimEC) = false :=
  ⟨by decide, by decide, by decide, by decide,
    ((stale_entry_is_junk simBus 1000 5101 ec_accel_args (mk_row 0 [])
      { sim_state [] (fun _ => 0) 5000 with prefetch_arg0 := 0x11 }
      (by decide) (by decide) (by decide)).1 (by decide)).1⟩

/-- C11 fails as stated near the end of the range of `int`, with `hz = 1000`.
An entry for the accelerometer row recorded at tick 2147483600 and looked up
at tick 2147483610 is neither sentinel, has both bytes equal and satisfies
`ticks < prefetch_ticks + hz/10`, yet it is not fetched and
`thinkpad_ec_try_read_row` returns `-ENOATTR`: the sum overflows.  An entry
recorded at tick 2147483000 and looked up at tick -2147483000, after `ticks`
has wrapped around, has the age 1296 in `int` arithmetic, above `hz/10`, yet
it is fetched. -/
theorem entry_near_int_max_not_fetched :
    (2147483600 : Int) ≠ TPC_PREFETCH_NONE 1000 ∧
    (2147483600 : Int) ≠ TPC_PREFETCH_JUNK 1000 ∧
    ({ sim_state [] (fun _ => 0) 2147483600 with prefetch_arg0 := 0x11 } :
      ec_state SimEC).prefetch_arg0 = ec_accel_args.val 0 ∧
    ({ sim_state [] (fun _ => 0) 2147483600 with prefetch_arg0 := 0x11 } :
      ec_state SimEC).prefetch_argF = ec_accel_args.val 15 ∧
    (2147483610 : Int) < 2147483600 + TPC_PREFETCH_TIMEOUT 1000 ∧
    thinkpad_ec_is_row_fetched 1000 2147483610 ec_accel_args
      ({ sim_state [] (fun _ => 0) 2147483600 with prefetch_arg0 := 0x11 } :
        ec_state SimEC) = false ∧
    (thinkpad_ec_try_read_row simBus 1000 2147483610 ec_accel_args (mk_row 0x8002 [])
      ({ sim_state [] (fun _ => 0) 2147483600 with prefetch_arg0 := 0x11 } :
        ec_state SimEC)).1 = - ENOATTR ∧
    int32 (-2147483000 - 2147483000) = 1296 ∧
    (1296 : Int) > TPC_PREFETCH_TIMEOUT 1000 ∧
    thinkpad_ec_is_row_fetched 1000 (-2147483000) ec_accel_args
      ({ sim_state [] (fun _ => 0) 2147483000 with prefetch_arg0 := 0x11 } :
        ec_state SimEC) = true := by
  refine ⟨by decide, by decide, by decide, by decide, by decide, by decide, by decide,
    by decide, by decide, by decide⟩

/-- C12, amended: `thinkpad_ec_prefetch_row` makes exactly one call of
`thinkpad_ec_request_row` and none of `thinkpad_ec_read_data`, and returns
the result of that call, with its device state and its log. When the result
is `0` the cache records `val[0]`, `val[15]` and the current tick, which is
a prefetched entry unless the tick is itself one of the two sentinel values;
when the result is an error the cache holds the junk sentinel. The prior
cache state is arbitrary. -/
theorem prefetch_row_one_request (bus : Bus σ) (hz ticks : Int) (args : thinkpad_ec_row)
    (s : ec_state σ) :
    let q := thinkpad_ec_request_row bus args s
    let r := thinkpad_ec_prefetch_row bus hz ticks args s
    r.1 = q.1 ∧ r.2.hw = q.2.hw ∧ r.2.log = q.2.log ∧
    r.2.calls = s.calls ++ [(Fn.request_row, r.1)] ∧
    (r.1 = 0 →
      r.2.prefetch_arg0 = args.val 0 ∧ r.2.prefetch_argF = args.val 15 ∧
      r.2.prefetch_ticks = ticks ∧
      (ticks ≠ TPC_PREFETCH_NONE hz → ticks ≠ TPC_PREFETCH_JUNK hz →
        r.2.prefetch_ticks ≠ TPC_PREFETCH_NONE hz ∧
        r.2.prefetch_ticks ≠ TPC_PREFETCH_JUNK hz)) ∧
    (r.1 ≠ 0 → r.2.prefetch_ticks = TPC_PREFETCH_JUNK hz) := by
  intro q r
  obtain ⟨_, _, _, f4⟩ := request_row_frame bus args s
  simp only [q, r]
  unfold thinkpad_ec_prefetch_row
  dsimp only
  by_cases h : (thinkpad_ec_request_row bus args s).1 = 0
  · rw [if_neg (not_not.2 h)]
    exact ⟨rfl, rfl, rfl, f4, fun _ => ⟨rfl, rfl, rfl, fun h1 h2 => ⟨h1, h2⟩⟩,
      fun hne => absurd h hne⟩
  · rw [if_pos h]
    exact ⟨rfl, rfl, rfl, f4, fun h0 => absurd h0 h, fun _ => rfl⟩

/-- Instance of C12: a prefetch of the accelerometer row at tick 7 on the
simulated channel, from the cache state without prefetch. -/
theorem prefetch_row_one_request_witness :
    (thinkpad_ec_prefetch_row simBus 1000 7 ec_accel_args
      (sim_state documented_sequence (fun _ => 0) (TPC_PREFETCH_NONE 1000))).1 = 0 ∧
    (thinkpad_ec_prefetch_row simBus 1000 7 ec_accel_args
      (sim_state documented_sequence (fun _ => 0) (TPC_PREFETCH_NONE 1000))).2.prefetch_arg0 =
      0x11 ∧
    (thinkpad_ec_prefetch_row simBus 1000 7 ec_accel_args
      (sim_state documented_sequence (fun _ => 0) (TPC_PREFETCH_NONE 1000))).2.prefetch_ticks =
      7 :=
  ⟨by decide,
    ((prefetch_row_one_request simBus 1000 7 ec_accel_args
      (sim_state documented_sequence (fun _ => 0) (TPC_PREFETCH_NONE 1000))).2.2.2.2.1
      (by decide)).1,
    ((prefetch_row_one_request simBus 1000 7 ec_accel_args
      (sim_state documented_sequence (fun _ => 0) (TPC_PREFETCH_NONE 1000))).2.2.2.2.1
      (by decide)).2.2.1⟩

/-- C12 fails as stated when the current tick is a sentinel value: with
`hz = 1000`, from the cache state without prefetch, a
`thinkpad_ec_prefetch_row` of the accelerometer row at tick `-300000` returns
0 and leaves the cache in the state without prefetch, so that the row is not
fetched at that very tick; at tick `-299999` it returns 0 and leaves the cache
in the junk state. -/
theorem prefetch_at_sentinel_tick_records_none :
    (thinkpad_ec_prefetch_row simBus 1000 (-300000) ec_accel_args
      (sim_state documented_sequence (fun _ => 0) (TPC_PREFETCH_NONE 1000))).1 = 0 ∧
    (thinkpad_ec_prefetch_row simBus 1000 (-300000) ec_accel_args
      (sim_state documented_sequence (fun _ => 0) (TPC_PREFETCH_NONE 1000))).2.prefetch_ticks =
      TPC_PREFETCH_NONE 1000 ∧
    thinkpad_ec_is_row_fetched 1000 (-300000) ec_accel_args
      (thinkpad_ec_prefetch_row simBus 1000 (-300000) ec_accel_args
        (sim_state documented_sequence (fun _ => 0) (TPC_PREFETCH_NONE 1000))).2 = false ∧
    (thinkpad_ec_prefetch_row simBus 1000 (-299999) ec_accel_args
      (sim_state documented_sequence (fun _ => 0) (TPC_PREFETCH_NONE 1000))).1 = 0 ∧
    (thinkpad_ec_prefetch_row simBus 1000 (-299999) ec_accel_args
      (sim_state documented_sequence (fun _ => 0) (TPC_PREFETCH_NONE 1000))).2.prefetch_ticks =
      TPC_PREFETCH_JUNK 1000 := by
  refine ⟨by decide, by decide, by decide, by decide, by decide⟩

/-! ## The accelerometer sampler -/

theorem byte_lt (data : thinkpad_ec_row) (i : Nat) : byte data i < 256 :=
  Nat.mod_lt _ (by decide)

theorem load_short_eq (data : thinkpad_ec_row) (i : Nat) :
    load_short data i = spec_int16_le (byte data i) (byte data (i + 1)) := by
  have h1 := byte_lt data i
  have h2 := byte_lt data (i + 1)
  unfold load_short int16 spec_int16_le
  split <;> push_cast <;> omega

theorem load_short_range (data : thinkpad_ec_row) (i : Nat) :
    -32768 ≤ load_short data i ∧ load_short data i ≤ 32767 := by
  unfold load_short int16
  omega

/-- The shape of the result of `hdaps_update_body`. -/
theorem update_body_cases (bus : Bus σ) (hz : Int) (lw : Nat) (env : update_env)
    (fast : Bool) (s : hdaps_state σ) :
    let rd := accel_read bus hz env fast s.ec
    let r := hdaps_update_body bus hz lw env fast s
    (rd.1 ≠ 0 → r.1 = rd.1 ∧ r.2.smp = s.smp) ∧
    (rd.1 = 0 → byte rd.2.1 EC_ACCEL_IDX_RETVAL ≠ 0 → r.1 = - EIO ∧ r.2.smp = s.smp) ∧
    (rd.1 = 0 → byte rd.2.1 EC_ACCEL_IDX_RETVAL = 0 →
      byte rd.2.1 EC_ACCEL_IDX_READOUTS < 1 → r.1 = - EBUSY ∧ r.2.smp = s.smp) ∧
    (rd.1 = 0 → byte rd.2.1 EC_ACCEL_IDX_RETVAL = 0 →
      ¬ byte rd.2.1 EC_ACCEL_IDX_READOUTS < 1 →
      r.1 = 0 ∧
      r.2.smp.pos_x = (transform_axes s.cfg.hdaps_invert
        (load_short rd.2.1 EC_ACCEL_IDX_XPOS1) (load_short rd.2.1 EC_ACCEL_IDX_YPOS1)).1 ∧
      r.2.smp.pos_y = (transform_axes s.cfg.hdaps_invert
        (load_short rd.2.1 EC_ACCEL_IDX_XPOS1) (load_short rd.2.1 EC_ACCEL_IDX_YPOS1)).2 ∧
      r.2.smp.temperature = (byte rd.2.1 EC_ACCEL_IDX_TEMP1 : Int) ∧
      success_post s.smp r.2.smp) ∧
    r.2.cfg = s.cfg ∧ r.2.mtx_held = s.mtx_held ∧ r.2.lock_log = s.lock_log ∧
    r.2.updates = s.updates ∧
    r.2.ec = (thinkpad_ec_prefetch_row bus hz env.ticks_prefetch ec_accel_args rd.2.2).2 := by
  intro rd r
  refine ⟨?_, ?_, ?_, ?_, ?_⟩
  · intro h
    simp only [r]
    unfold hdaps_update_body
    simp only [rd] at h
    simp [h]
  · intro h0 h1
    simp only [r]
    unfold hdaps_update_body
    simp only [rd] at h0 h1
    simp [h0, h1]
  · intro h0 h1 h2
    simp only [r]
    unfold hdaps_update_body
    simp only [rd] at h0 h1 h2
    simp [h0, h1, h2]
  · intro h0 h1 h2
    simp only [r]
    unfold hdaps_update_body
    simp only [rd] at h0 h1 h2
    by_cases hc : s.smp.needs_calibration = 0 <;> simp [h0, h1, h2, hc, success_post]
  · simp only [r]
    unfold hdaps_update_body
    dsimp only
    split
    · exact ⟨rfl, rfl, rfl, rfl, rfl⟩
    · split
      · exact ⟨rfl, rfl, rfl, rfl, rfl⟩
      · split
        · exact ⟨rfl, rfl, rfl, rfl, rfl⟩
        · exact ⟨rfl, rfl, rfl, rfl, rfl⟩

theorem hdaps_update_fst (bus : Bus σ) (hz : Int) (lw : Nat) (env : update_env)
    (fast : Bool) (s : hdaps_state σ) :
    (__hdaps_update bus hz lw env fast s).1 = (hdaps_update_body bus hz lw env fast s).1 := rfl

theorem hdaps_update_smp (bus : Bus σ) (hz : Int) (lw : Nat) (env : update_env)
    (fast : Bool) (s : hdaps_state σ) :
    (__hdaps_update bus hz lw env fast s).2.smp =
      (hdaps_update_body bus hz lw env fast s).2.smp := rfl

/-- An update that fails leaves the sampler state alone. -/
theorem update_body_error (bus : Bus σ) (hz : Int) (lw : Nat) (env : update_env)
    (fast : Bool) (s : hdaps_state σ)
    (h : (hdaps_update_body bus hz lw env fast s).1 ≠ 0) :
    (hdaps_update_body bus hz lw env fast s).2.smp = s.smp := by
  obtain ⟨c1, c2, c3, c4, _⟩ := update_body_cases bus hz lw env fast s
  by_cases h0 : (accel_read bus hz env fast s.ec).1 = 0
  · by_cases h1 : byte (accel_read bus hz env fast s.ec).2.1 EC_ACCEL_IDX_RETVAL = 0
    · by_cases h2 : byte (accel_read bus hz env fast s.ec).2.1 EC_ACCEL_IDX_READOUTS < 1
      · exact (c3 h0 h1 h2).2
      · exact absurd (c4 h0 h1 h2).1 h
    · exact (c2 h0 h1).2
  · exact (c1 h0).2

/-- An update that succeeds has read a row with return code 0 and at least
one readout, and has stored what it parsed. -/
theorem update_body_ok (bus : Bus σ) (hz : Int) (lw : Nat) (env : update_env)
    (fast : Bool) (s : hdaps_state σ)
    (h : (hdaps_update_body bus hz lw env fast s).1 = 0) :
    let rd := accel_read bus hz env fast s.ec
    let r := hdaps_update_body bus hz lw env fast s
    rd.1 = 0 ∧ byte rd.2.1 EC_ACCEL_IDX_RETVAL = 0 ∧ ¬ byte rd.2.1 EC_ACCEL_IDX_READOUTS < 1 ∧
    r.2.smp.pos_x = (transform_axes s.cfg.hdaps_invert
      (load_short rd.2.1 EC_ACCEL_IDX_XPOS1) (load_short rd.2.1 EC_ACCEL_IDX_YPOS1)).1 ∧
    r.2.smp.pos_y = (transform_axes s.cfg.hdaps_invert
      (load_short rd.2.1 EC_ACCEL_IDX_XPOS1) (load_short rd.2.1 EC_ACCEL_IDX_YPOS1)).2 ∧
    r.2.smp.temperature = (byte rd.2.1 EC_ACCEL_IDX_TEMP1 : Int) ∧
    success_post s.smp r.2.smp := by
  intro rd r
  obtain ⟨c1, c2, c3, c4, _⟩ := update_body_cases bus hz lw env fast s
  by_cases h0 : (accel_read bus hz env fast s.ec).1 = 0
  · by_cases h1 : byte (accel_read bus hz env fast s.ec).2.1 EC_ACCEL_IDX_RETVAL = 0
    · by_cases h2 : byte (accel_read bus hz env fast s.ec).2.1 EC_ACCEL_IDX_READOUTS < 1
      · have := (c3 h0 h1 h2).1
        rw [h] at this
        exact absurd this (by decide)
      · exact ⟨h0, h1, h2, (c4 h0 h1 h2).2⟩
    · have := (c2 h0 h1).1
      rw [h] at this
      exact absurd this (by decide)
  · exact absurd ((c1 h0).1.symm.trans h) h0

/-- C13: whenever `__hdaps_update`, fast or not, returns an error, whatever
its origin, the sampler state is unchanged: position, temperature, rest
position, the two activity timestamps, the staleness flag and the
pending-calibration flag keep their values. -/
theorem update_error_keeps_sampler (bus : Bus σ) (hz : Int) (lw : Nat) (env : update_env)
    (fast : Bool) (s : hdaps_state σ)
    (h : (__hdaps_update bus hz lw env fast s).1 ≠ 0) :
    (__hdaps_update bus hz lw env fast s).2.smp = s.smp :=
  update_body_error bus hz lw env fast s h

/-- Instance of C13: a fast update without a prefetched row. -/
theorem update_error_keeps_sampler_witness :
    (__hdaps_update simBus 1000 64 (env_at 5) true
      (sim_hdaps [] (fun _ => 0) (TPC_PREFETCH_JUNK 1000) (initial_sampler 64)
        initial_config)).1 ≠ 0 ∧
    (__hdaps_update simBus 1000 64 (env_at 5) true
      (sim_hdaps [] (fun _ => 0) (TPC_PREFETCH_JUNK 1000) (initial_sampler 64)
        initial_config)).2.smp = initial_sampler 64 :=
  ⟨by decide,
    update_error_keeps_sampler simBus 1000 64 (env_at 5) true
      (sim_hdaps [] (fun _ => 0) (TPC_PREFETCH_JUNK 1000) (initial_sampler 64) initial_config)
      (by decide)⟩

/-- C14: when the channel read of the readout row succeeds, `__hdaps_update`
returns `-EIO` iff the return-code byte at offset `0xf` is not `0x00`,
`-EBUSY` iff that byte is `0x00` and the readout count at offset 1 is less
than 1, and `0` iff that byte is `0x00` and the count is at least 1. The
return code takes precedence: a non-zero return code with a count of 0 gives
`-EIO`. -/
theorem update_result_after_read (bus : Bus σ) (hz : Int) (lw : Nat) (env : update_env)
    (fast : Bool) (s : hdaps_state σ)
    (hrd : (accel_read bus hz env fast s.ec).1 = 0) :
    let data := (accel_read bus hz env fast s.ec).2.1
    let ret := (__hdaps_update bus hz lw env fast s).1
    (ret = - EIO ↔ byte data EC_ACCEL_IDX_RETVAL ≠ 0x00) ∧
    (ret = - EBUSY ↔
      byte data EC_ACCEL_IDX_RETVAL = 0x00 ∧ byte data EC_ACCEL_IDX_READOUTS < 1) ∧
    (ret = 0 ↔
      byte data EC_ACCEL_IDX_RETVAL = 0x00 ∧ ¬ byte data EC_ACCEL_IDX_READOUTS < 1) ∧
    (byte data EC_ACCEL_IDX_RETVAL ≠ 0x00 → byte data EC_ACCEL_IDX_READOUTS = 0 →
      ret = - EIO) := by
  intro data ret
  obtain ⟨_, c2, c3, c4, _⟩ := update_body_cases bus hz lw env fast s
  have hret : ret = (hdaps_update_body bus hz lw env fast s).1 := rfl
  by_cases h1 : byte data EC_ACCEL_IDX_RETVAL = 0
  · by_cases h2 : byte data EC_ACCEL_IDX_READOUTS < 1
    · have e : ret = - EBUSY := hret.trans (c3 hrd h1 h2).1
      rw [e]
      simp [h1, h2, EBUSY, EIO]
    · have e : ret = 0 := hret.trans (c4 hrd h1 h2).1
      rw [e]
      simp [h1, h2, EBUSY, EIO]
  · have e : ret = - EIO := hret.trans (c2 hrd h1).1
    rw [e]
    simp [h1, EBUSY, EIO]

/-- Instance of C14: a readout row with return code `0x03` and a readout
count of 0. -/
theorem update_result_after_read_witness :
    (accel_read simBus 1000 (env_at 5) false
      (sim_hdaps full_update_script (reply_of [0, 0, 0, 0, 0, 0, 0, 0, 0, 0, 0, 0, 0, 0, 0, 3])
        (TPC_PREFETCH_JUNK 1000) (initial_sampler 64) initial_config).ec).1 = 0 ∧
    (__hdaps_update simBus 1000 64 (env_at 5) false
      (sim_hdaps full_update_script (reply_of [0, 0, 0, 0, 0, 0, 0, 0, 0, 0, 0, 0, 0, 0, 0, 3])
        (TPC_PREFETCH_JUNK 1000) (initial_sampler 64) initial_config)).1 = - EIO :=
  ⟨by decide,
    (update_result_after_read simBus 1000 64 (env_at 5) false
      (sim_hdaps full_update_script (reply_of [0, 0, 0, 0, 0, 0, 0, 0, 0, 0, 0, 0, 0, 0, 0, 3])
        (TPC_PREFETCH_JUNK 1000) (initial_sampler 64) initial_config)
      (by decide)).2.2.2 (by decide) (by decide)⟩

/-- C15: after a successful `__hdaps_update`, `pos_x` is the signed 16-bit
little-endian word with low byte 4 and high byte 5 of the readout row, and
`pos_y` the one with low byte 2 and high byte 3, each negated when
`hdaps_invert` is set and unchanged when it is clear. -/
theorem update_position (bus : Bus σ) (hz : Int) (lw : Nat) (env : update_env)
    (fast : Bool) (s : hdaps_state σ)
    (h : (__hdaps_update bus hz lw env fast s).1 = 0) :
    let data := (accel_read bus hz env fast s.ec).2.1
    let x := spec_int16_le (byte data 4) (byte data 5)
    let y := spec_int16_le (byte data 2) (byte data 3)
    (__hdaps_update bus hz lw env fast s).2.smp.pos_x =
      (if s.cfg.hdaps_invert ≠ 0 then -x else x) ∧
    (__hdaps_update bus hz lw env fast s).2.smp.pos_y =
      (if s.cfg.hdaps_invert ≠ 0 then -y else y) := by
  intro data x y
  obtain ⟨_, _, _, px, py, _⟩ := update_body_ok bus hz lw env fast s h
  rw [hdaps_update_smp, px, py, load_short_eq, load_short_eq]
  unfold transform_axes
  by_cases hi : s.cfg.hdaps_invert = 0
  · simp [hi, x, y, data, EC_ACCEL_IDX_XPOS1, EC_ACCEL_IDX_YPOS1]
  · simp [hi, x, y, data, EC_ACCEL_IDX_XPOS1, EC_ACCEL_IDX_YPOS1]

/-- Instance of C15: the y word `0xfffb` reads -5. -/
theorem update_position_witness :
    (__hdaps_update simBus 1000 64 (env_at 5) false
      (sim_hdaps full_update_script (reply_of [0, 1, 0xfb, 0xff, 0x0a, 0x00])
        (TPC_PREFETCH_JUNK 1000) (initial_sampler 64) initial_config)).1 = 0 ∧
    (__hdaps_update simBus 1000 64 (env_at 5) false
      (sim_hdaps full_update_script (reply_of [0, 1, 0xfb, 0xff, 0x0a, 0x00])
        (TPC_PREFETCH_JUNK 1000) (initial_sampler 64) initial_config)).2.smp.pos_y =
      (if initial_config.hdaps_invert ≠ 0 then - spec_int16_le 0xfb 0xff
        else spec_int16_le 0xfb 0xff) ∧
    spec_int16_le 0xfb 0xff = -5 :=
  ⟨by decide,
    (update_position simBus 1000 64 (env_at 5) false
      (sim_hdaps full_update_script (reply_of [0, 1, 0xfb, 0xff, 0x0a, 0x00])
        (TPC_PREFETCH_JUNK 1000) (initial_sampler 64) initial_config) (by decide)).2,
    by decide⟩

/-- C16 (amended): after every successful `__hdaps_update`, for every
readout row and both settings of `hdaps_invert`, `pos_x` and `pos_y` lie in
`[-32768, 32768]`; they lie in `[-32768, 32767]` when `hdaps_invert` is
clear and in `[-32767, 32768]` when it is set. -/
theorem update_position_range (bus : Bus σ) (hz : Int) (lw : Nat) (env : update_env)
    (fast : Bool) (s : hdaps_state σ)
    (h : (__hdaps_update bus hz lw env fast s).1 = 0) :
    let p := (__hdaps_update bus hz lw env fast s).2.smp
    (-32768 ≤ p.pos_x ∧ p.pos_x ≤ 32768 ∧ -32768 ≤ p.pos_y ∧ p.pos_y ≤ 32768) ∧
    (s.cfg.hdaps_invert = 0 → p.pos_x ≤ 32767 ∧ p.pos_y ≤ 32767) ∧
    (s.cfg.hdaps_invert ≠ 0 → -32767 ≤ p.pos_x ∧ -32767 ≤ p.pos_y) := by
  intro p
  obtain ⟨_, _, _, px, py, _⟩ := update_body_ok bus hz lw env fast s h
  have hx := load_short_range (accel_read bus hz env fast s.ec).2.1 EC_ACCEL_IDX_XPOS1
  have hy := load_short_range (accel_read bus hz env fast s.ec).2.1 EC_ACCEL_IDX_YPOS1
  have ex : p.pos_x = (transform_axes s.cfg.hdaps_invert
      (load_short (accel_read bus hz env fast s.ec).2.1 EC_ACCEL_IDX_XPOS1)
      (load_short (accel_read bus hz env fast s.ec).2.1 EC_ACCEL_IDX_YPOS1)).1 := px
  have ey : p.pos_y = (transform_axes s.cfg.hdaps_invert
      (load_short (accel_read bus hz env fast s.ec).2.1 EC_ACCEL_IDX_XPOS1)
      (load_short (accel_read bus hz env fast s.ec).2.1 EC_ACCEL_IDX_YPOS1)).2 := py
  rw [ex, ey]
  unfold transform_axes
  by_cases hi : s.cfg.hdaps_invert = 0
  · simp only [hi, ne_eq, not_true_eq_false, if_false]
    refine ⟨⟨by omega, by omega, by omega, by omega⟩, fun _ => ⟨by omega, by omega⟩,
      fun hne => hne.elim⟩
  · simp only [ne_eq, hi, not_false_eq_true, if_true]
    refine ⟨⟨by omega, by omega, by omega, by omega⟩, fun h0 => h0.elim,
      fun _ => ⟨by omega, by omega⟩⟩

/-- Instance of C16 (amended): the position (10, -5). -/
theorem update_position_range_witness :
    (__hdaps_update simBus 1000 64 (env_at 5) false
      (sim_hdaps full_update_script (reply_of [0, 1, 0xfb, 0xff, 0x0a, 0x00])
        (TPC_PREFETCH_JUNK 1000) (initial_sampler 64) initial_config)).1 = 0 ∧
    (__hdaps_update simBus 1000 64 (env_at 5) false
      (sim_hdaps full_update_script (reply_of [0, 1, 0xfb, 0xff, 0x0a, 0x00])
        (TPC_PREFETCH_JUNK 1000) (initial_sampler 64) initial_config)).2.smp.pos_x ≤ 32768 :=
  ⟨by decide,
    (update_position_range simBus 1000 64 (env_at 5) false
      (sim_hdaps full_update_script (reply_of [0, 1, 0xfb, 0xff, 0x0a, 0x00])
        (TPC_PREFETCH_JUNK 1000) (initial_sampler 64) initial_config) (by decide)).1.2.1⟩

/-- C16 fails as stated: with `hdaps_invert` set and the x word `0x8000`,
that is -32768, a successful update stores `pos_x = 32768`, which is not a
value of a signed 16-bit integer. -/
theorem inverted_minimum_leaves_int16 :
    (__hdaps_update simBus 1000 64 (env_at 5) false
      (sim_hdaps full_update_script (reply_of [0, 1, 0x00, 0x00, 0x00, 0x80])
        (TPC_PREFETCH_JUNK 1000) (initial_sampler 64)
        { initial_config with hdaps_invert := 1 })).1 = 0 ∧
    (__hdaps_update simBus 1000 64 (env_at 5) false
      (sim_hdaps full_update_script (reply_of [0, 1, 0x00, 0x00, 0x00, 0x80])
        (TPC_PREFETCH_JUNK 1000) (initial_sampler 64)
        { initial_config with hdaps_invert := 1 })).2.smp.pos_x = 32768 ∧
    ¬ ((32768 : Int) ≤ 32767) := by
  decide

/-- C17 (amended): after a successful `__hdaps_update` the stored
temperature equals byte 6 of the readout row read as an unsigned byte, so it
lies in `[0, 255]`; it equals the signed 8-bit reading of that byte exactly
when the byte is below `0x80`. -/
theorem update_temperature (bus : Bus σ) (hz : Int) (lw : Nat) (env : update_env)
    (fast : Bool) (s : hdaps_state σ)
    (h : (__hdaps_update bus hz lw env fast s).1 = 0) :
    let b := byte (accel_read bus hz env fast s.ec).2.1 6
    let t := (__hdaps_update bus hz lw env fast s).2.smp.temperature
    t = (b : Int) ∧ 0 ≤ t ∧ t ≤ 255 ∧ (t = spec_int8 b ↔ b < 128) := by
  intro b t
  obtain ⟨_, _, _, _, _, pt, _⟩ := update_body_ok bus hz lw env fast s h
  have e : t = (b : Int) := pt
  have hb : b < 256 := byte_lt _ _
  refine ⟨e, by omega, by omega, ?_⟩
  rw [e]
  unfold spec_int8
  split <;> omega

/-- Instance of C17 (amended): the temperature byte `0x2a`. -/
theorem update_temperature_witness :
    (__hdaps_update simBus 1000 64 (env_at 5) false
      (sim_hdaps full_update_script (reply_of [0, 1, 0, 0, 0, 0, 0x2a])
        (TPC_PREFETCH_JUNK 1000) (initial_sampler 64) initial_config)).1 = 0 ∧
    (__hdaps_update simBus 1000 64 (env_at 5) false
      (sim_hdaps full_update_script (reply_of [0, 1, 0, 0, 0, 0, 0x2a])
        (TPC_PREFETCH_JUNK 1000) (initial_sampler 64) initial_config)).2.smp.temperature =
      ((byte (accel_read simBus 1000 (env_at 5) false
        (sim_hdaps full_update_script (reply_of [0, 1, 0, 0, 0, 0, 0x2a])
          (TPC_PREFETCH_JUNK 1000) (initial_sampler 64) initial_config).ec).2.1 6 : Nat) : Int) :=
  ⟨by decide,
    (update_temperature simBus 1000 64 (env_at 5) false
      (sim_hdaps full_update_script (reply_of [0, 1, 0, 0, 0, 0, 0x2a])
        (TPC_PREFETCH_JUNK 1000) (initial_sampler 64) initial_config) (by decide)).1⟩

/-- C17 fails as stated: a successful update of a readout row whose byte 6
is `0xf6` stores the temperature 246, while the signed 8-bit reading of
`0xf6` is -10. -/
theorem temperature_byte_is_unsigned :
    (__hdaps_update simBus 1000 64 (env_at 5) false
      (sim_hdaps full_update_script (reply_of [0, 1, 0, 0, 0, 0, 0xf6])
        (TPC_PREFETCH_JUNK 1000) (initial_sampler 64) initial_config)).1 = 0 ∧
    byte (accel_read simBus 1000 (env_at 5) false
      (sim_hdaps full_update_script (reply_of [0, 1, 0, 0, 0, 0, 0xf6])
        (TPC_PREFETCH_JUNK 1000) (initial_sampler 64) initial_config).ec).2.1 6 = 0xf6 ∧
    spec_int8 0xf6 = -10 ∧
    (__hdaps_update simBus 1000 64 (env_at 5) false
      (sim_hdaps full_update_script (reply_of [0, 1, 0, 0, 0, 0, 0xf6])
        (TPC_PREFETCH_JUNK 1000) (initial_sampler 64) initial_config)).2.smp.temperature = 246 := by
  decide

/-- C18: on a successful `__hdaps_update` with a calibration pending the
rest position becomes the position just stored and the pending flag is
cleared; on a successful update with no calibration pending the rest
position is unchanged and the flag stays clear. -/
theorem update_calibration (bus : Bus σ) (hz : Int) (lw : Nat) (env : update_env)
    (fast : Bool) (s : hdaps_state σ)
    (h : (__hdaps_update bus hz lw env fast s).1 = 0) :
    let p := (__hdaps_update bus hz lw env fast s).2.smp
    (s.smp.needs_calibration ≠ 0 →
      p.rest_x = p.pos_x ∧ p.rest_y = p.pos_y ∧ p.needs_calibration = 0) ∧
    (s.smp.needs_calibration = 0 →
      p.rest_x = s.smp.rest_x ∧ p.rest_y = s.smp.rest_y ∧ p.needs_calibration = 0) := by
  intro p
  obtain ⟨_, _, _, _, _, _, _, hn, hc, hk⟩ := update_body_ok bus hz lw env fast s h
  exact ⟨fun hne => ⟨(hc hne).1, (hc hne).2, hn⟩, fun h0 => ⟨(hk h0).1, (hk h0).2, hn⟩⟩

/-- Instance of C18: the calibrating update reads (10, -5) and the rest
position is (10, -5); the later update reads (13, -5) and the position minus
the rest position is (3, 0). -/
theorem update_calibration_witness :
    (__hdaps_update simBus 1000 64 (env_at 5) false calibration_scene).1 = 0 ∧
    calibration_scene.smp.needs_calibration ≠ 0 ∧
    (__hdaps_update simBus 1000 64 (env_at 5) false calibration_scene).2.smp.rest_x = 10 ∧
    (__hdaps_update simBus 1000 64 (env_at 5) false calibration_scene).2.smp.rest_y = -5 ∧
    (__hdaps_update simBus 1000 64 (env_at 20) true moved_scene).1 = 0 ∧
    (__hdaps_update simBus 1000 64 (env_at 20) true moved_scene).2.smp.pos_x -
      (__hdaps_update simBus 1000 64 (env_at 20) true moved_scene).2.smp.rest_x = 3 ∧
    (__hdaps_update simBus 1000 64 (env_at 20) true moved_scene).2.smp.pos_y -
      (__hdaps_update simBus 1000 64 (env_at 20) true moved_scene).2.smp.rest_y = 0 :=
  ⟨by decide, by decide,
    ((update_calibration simBus 1000 64 (env_at 5) false calibration_scene (by decide)).1
      (by decide)).1.trans (by decide),
    ((update_calibration simBus 1000 64 (env_at 5) false calibration_scene (by decide)).1
      (by decide)).2.1.trans (by decide),
    by decide, by decide, by decide⟩

theorem hdaps_update_loop_done (bus : Bus σ) (hz : Int) (lw : Nat) (envs : Nat → update_env)
    (n total : Nat) (ret : Int) (s : hdaps_state σ) (h : ¬ total < READ_TIMEOUT_MSECS) :
    hdaps_update_loop bus hz lw envs n total ret s = (ret, s) := by
  cases n with
  | zero => rfl
  | succ n =>
    unfold hdaps_update_loop
    rw [if_neg h]

/-- One iteration of the loop of `hdaps_update`. -/
theorem hdaps_update_loop_step (bus : Bus σ) (hz : Int) (lw : Nat) (envs : Nat → update_env)
    (n total : Nat) (ret : Int) (s : hdaps_state σ) (h : total < READ_TIMEOUT_MSECS) :
    hdaps_update_loop bus hz lw envs (n + 1) total ret s =
      (let u := __hdaps_update bus hz lw (envs total) false (thinkpad_ec_lock s).2
       if u.1 = 0 then (0, thinkpad_ec_unlock u.2)
       else if u.1 ≠ - EBUSY then (u.1, thinkpad_ec_unlock u.2)
       else hdaps_update_loop bus hz lw envs n (total + RETRY_MSECS) u.1
         (thinkpad_ec_unlock u.2)) := by
  have hl : ¬ ((thinkpad_ec_lock s).1 ≠ 0) := fun h => h rfl
  rw [hdaps_update_loop, if_pos h]
  dsimp only
  rw [if_neg hl]

theorem hdaps_update_updates (bus : Bus σ) (hz : Int) (lw : Nat) (env : update_env)
    (fast : Bool) (s : hdaps_state σ) :
    (__hdaps_update bus hz lw env fast s).2.updates =
      s.updates ++ [(fast, (__hdaps_update bus hz lw env fast s).1)] ∧
    (__hdaps_update bus hz lw env fast s).2.cfg = s.cfg := by
  obtain ⟨_, _, _, _, c5, _, _, c8, _⟩ := update_body_cases bus hz lw env fast s
  constructor
  · show (hdaps_update_body bus hz lw env fast s).2.updates ++ _ = _
    rw [c8]; rfl
  · exact c5

theorem hdaps_update_loop_trace (bus : Bus σ) (hz : Int) (lw : Nat)
    (envs : Nat → update_env) (n total : Nat) (ret : Int) (s : hdaps_state σ)
    (hlt : total < READ_TIMEOUT_MSECS) (hfuel : attempts_from total ≤ n) :
    ∃ rs : List Int,
      retry_results (attempts_from total) rs (hdaps_update_loop bus hz lw envs n total ret s).1 ∧
      (hdaps_update_loop bus hz lw envs n total ret s).2.updates =
        s.updates ++ rs.map (fun x => (false, x)) ∧
      ((hdaps_update_loop bus hz lw envs n total ret s).1 ≠ 0 →
        (hdaps_update_loop bus hz lw envs n total ret s).2.smp = s.smp) ∧
      ((hdaps_update_loop bus hz lw envs n total ret s).1 = 0 →
        success_post s.smp (hdaps_update_loop bus hz lw envs n total ret s).2.smp) ∧
      (hdaps_update_loop bus hz lw envs n total ret s).2.cfg = s.cfg ∧
      (hdaps_update_loop bus hz lw envs n total ret s).2.mtx_held = false := by
  induction n generalizing total ret s with
  | zero =>
    simp only [attempts_from, READ_TIMEOUT_MSECS, RETRY_MSECS] at hfuel hlt
    omega
  | succ n ih =>
    have hpos : 0 < attempts_from total := by
      simp only [attempts_from, READ_TIMEOUT_MSECS, RETRY_MSECS] at hlt ⊢
      omega
    obtain ⟨u1, u2⟩ := hdaps_update_updates bus hz lw (envs total) false (thinkpad_ec_lock s).2
    rw [hdaps_update_loop_step bus hz lw envs n total ret s hlt]
    dsimp only
    by_cases h0 : (__hdaps_update bus hz lw (envs total) false (thinkpad_ec_lock s).2).1 = 0
    · rw [if_pos h0]
      refine ⟨[0], retry_results_single 0 hpos (fun h => absurd h (by decide)), ?_,
        fun h => absurd rfl h, fun _ => ?_, u2, rfl⟩
      · show (__hdaps_update bus hz lw (envs total) false (thinkpad_ec_lock s).2).2.updates = _
        rw [u1, h0]; rfl
      · exact (update_body_ok bus hz lw (envs total) false (thinkpad_ec_lock s).2 h0).2.2.2.2.2.2
    · rw [if_neg h0]
      have hsmp : (__hdaps_update bus hz lw (envs total) false (thinkpad_ec_lock s).2).2.smp =
          s.smp := update_body_error bus hz lw (envs total) false (thinkpad_ec_lock s).2 h0
      by_cases hb : (__hdaps_update bus hz lw (envs total) false (thinkpad_ec_lock s).2).1 =
          - EBUSY
      · rw [if_neg (not_not.2 hb)]
        by_cases hnext : total + RETRY_MSECS < READ_TIMEOUT_MSECS
        · have hf2 : attempts_from (total + RETRY_MSECS) ≤ n := by
            simp only [attempts_from, READ_TIMEOUT_MSECS, RETRY_MSECS] at hfuel hnext ⊢
            omega
          have hcnt : attempts_from (total + RETRY_MSECS) + 1 = attempts_from total := by
            simp only [attempts_from, READ_TIMEOUT_MSECS, RETRY_MSECS] at hnext ⊢
            omega
          obtain ⟨rs, g1, g2, g3, g4, g5, g6⟩ := ih (total + RETRY_MSECS)
            (__hdaps_update bus hz lw (envs total) false (thinkpad_ec_lock s).2).1
            (thinkpad_ec_unlock
              (__hdaps_update bus hz lw (envs total) false (thinkpad_ec_lock s).2).2)
            hnext hf2
          have hs2 : (thinkpad_ec_unlock
              (__hdaps_update bus hz lw (envs total) false (thinkpad_ec_lock s).2).2).smp =
              s.smp := hsmp
          refine ⟨- EBUSY :: rs, ?_, ?_, fun h => (g3 h).trans hs2, fun h => ?_,
            g5.trans u2, g6⟩
          · rw [← hcnt]; exact retry_results_cons g1
          · rw [g2]
            show (__hdaps_update bus hz lw (envs total) false (thinkpad_ec_lock s).2).2.updates
              ++ _ = _
            rw [u1, hb]
            simp
            rfl
          · have := g4 h
            rw [hs2] at this
            exact this
        · rw [hdaps_update_loop_done bus hz lw envs n _ _ _ hnext]
          have hone : attempts_from total = 1 := by
            simp only [attempts_from, READ_TIMEOUT_MSECS, RETRY_MSECS] at hnext hlt ⊢
            omega
          refine ⟨[(__hdaps_update bus hz lw (envs total) false (thinkpad_ec_lock s).2).1],
            retry_results_single _ hpos (fun _ => hone), ?_, fun _ => hsmp,
            fun h => absurd h h0, u2, rfl⟩
          show (__hdaps_update bus hz lw (envs total) false (thinkpad_ec_lock s).2).2.updates = _
          rw [u1]; rfl
      · rw [if_pos hb]
        refine ⟨[(__hdaps_update bus hz lw (envs total) false (thinkpad_ec_lock s).2).1],
          retry_results_single _ hpos (fun h => absurd h hb), ?_, fun _ => hsmp,
          fun h => absurd h h0, u2, rfl⟩
        show (__hdaps_update bus hz lw (envs total) false (thinkpad_ec_lock s).2).2.updates = _
        rw [u1]; rfl

theorem attempts_from_zero : attempts_from 0 = 34 := by decide

/-- C19 (amended): `hdaps_calibrate` sets the pending-calibration flag and
then calls `hdaps_update`. When the staleness flag is false no update is
made and nothing else changes, so the flag stays set. When it is true one to
34 calls of `__hdaps_update` with `fast = 0` are made, each but the last
returning `-EBUSY`; if the last one fails the sampler state is the old one
with the flag set, and if it succeeds the flag is clear and the rest
position equals the stored position. -/
theorem calibrate_refreshes (bus : Bus σ) (hz : Int) (lw : Nat) (envs : Nat → update_env)
    (s : hdaps_state σ) :
    let c := hdaps_calibrate bus hz lw envs s
    (s.smp.stale_readout = 0 →
      c = { s with smp := { s.smp with needs_calibration := 1 } }) ∧
    (s.smp.stale_readout ≠ 0 →
      ∃ (rs : List Int) (last : Int), retry_results 34 rs last ∧
        c.updates = s.updates ++ rs.map (fun x => (false, x)) ∧
        (last ≠ 0 → c.smp = { s.smp with needs_calibration := 1 }) ∧
        (last = 0 → c.smp.needs_calibration = 0 ∧ c.smp.rest_x = c.smp.pos_x ∧
          c.smp.rest_y = c.smp.pos_y)) := by
  intro c
  constructor
  · intro h
    show (hdaps_update bus hz lw envs _).2 = _
    unfold hdaps_update
    rw [if_pos h]
  · intro h
    have hc : c = (hdaps_update_loop bus hz lw envs READ_TIMEOUT_MSECS 0 0
        { s with smp := { s.smp with needs_calibration := 1 } }).2 := by
      show (hdaps_update bus hz lw envs _).2 = _
      unfold hdaps_update
      rw [if_neg h]
    obtain ⟨rs, g1, g2, g3, g4, _⟩ := hdaps_update_loop_trace bus hz lw envs
      READ_TIMEOUT_MSECS 0 0 { s with smp := { s.smp with needs_calibration := 1 } }
      (by decide) (by decide)
    rw [attempts_from_zero] at g1
    refine ⟨rs, _, g1, ?_, fun hl => ?_, fun hl => ?_⟩
    · rw [hc]; exact g2
    · rw [hc]; exact g3 hl
    · rw [hc]
      obtain ⟨_, k2, k3, _⟩ := g4 hl
      have hne : (1 : Int) ≠ 0 := by decide
      exact ⟨k2, (k3 hne).1, (k3 hne).2⟩

/-- Instance of C19 (amended): a calibration from a stale state on the
simulated channel. -/
theorem calibrate_refreshes_witness :
    calibration_scene.smp.stale_readout ≠ 0 ∧
    ∃ (rs : List Int) (last : Int), retry_results 34 rs last ∧
      (hdaps_calibrate simBus 1000 64 (fun _ => env_at 5) calibration_scene).updates =
        calibration_scene.updates ++ rs.map (fun x => (false, x)) ∧
      (last ≠ 0 →
        (hdaps_calibrate simBus 1000 64 (fun _ => env_at 5) calibration_scene).smp =
          { calibration_scene.smp with needs_calibration := 1 }) ∧
      (last = 0 →
        (hdaps_calibrate simBus 1000 64 (fun _ => env_at 5)
          calibration_scene).smp.needs_calibration = 0 ∧
        (hdaps_calibrate simBus 1000 64 (fun _ => env_at 5) calibration_scene).smp.rest_x =
          (hdaps_calibrate simBus 1000 64 (fun _ => env_at 5) calibration_scene).smp.pos_x ∧
        (hdaps_calibrate simBus 1000 64 (fun _ => env_at 5) calibration_scene).smp.rest_y =
          (hdaps_calibrate simBus 1000 64 (fun _ => env_at 5) calibration_scene).smp.pos_y) :=
  ⟨by decide,
    (calibrate_refreshes simBus 1000 64 (fun _ => env_at 5) calibration_scene).2 (by decide)⟩

/-- C19 fails as stated: from a state whose staleness flag is false,
`hdaps_calibrate` makes no call of `__hdaps_update` and no port access; the
pending flag stays set. -/
theorem calibrate_on_fresh_readout_skips_update :
    (hdaps_calibrate simBus 1000 64 (fun _ => env_at 5)
      (sim_hdaps full_update_script (reply_of [0, 1, 0xfb, 0xff, 0x0a, 0x00])
        (TPC_PREFETCH_JUNK 1000) { initial_sampler 64 with stale_readout := 0 }
        initial_config)).updates = [] ∧
    (hdaps_calibrate simBus 1000 64 (fun _ => env_at 5)
      (sim_hdaps full_update_script (reply_of [0, 1, 0xfb, 0xff, 0x0a, 0x00])
        (TPC_PREFETCH_JUNK 1000) { initial_sampler 64 with stale_readout := 0 }
        initial_config)).ec.log = [] ∧
    (hdaps_calibrate simBus 1000 64 (fun _ => env_at 5)
      (sim_hdaps full_update_script (reply_of [0, 1, 0xfb, 0xff, 0x0a, 0x00])
        (TPC_PREFETCH_JUNK 1000) { initial_sampler 64 with stale_readout := 0 }
        initial_config)).smp.needs_calibration = 1 := by
  decide

/-- C20 (amended): `hdaps_update` returns `0` and leaves the whole state
unchanged, mutex trace and port log included, whenever the staleness flag is
false; and after an `hdaps_update` that returned `0`, the next
`hdaps_update` is such a no-op. -/
theorem refresh_after_success_is_noop (bus : Bus σ) (hz : Int) (lw : Nat)
    (envs envs' : Nat → update_env) (s : hdaps_state σ) :
    (s.smp.stale_readout = 0 → hdaps_update bus hz lw envs s = (0, s)) ∧
    ((hdaps_update bus hz lw envs s).1 = 0 →
      hdaps_update bus hz lw envs' (hdaps_update bus hz lw envs s).2 =
        (0, (hdaps_update bus hz lw envs s).2)) := by
  have hnoop : ∀ (e : Nat → update_env) (t : hdaps_state σ), t.smp.stale_readout = 0 →
      hdaps_update bus hz lw e t = (0, t) := by
    intro e t h
    unfold hdaps_update
    rw [if_pos h]
  refine ⟨hnoop envs s, fun hok => ?_⟩
  apply hnoop
  by_cases h : s.smp.stale_readout = 0
  · rw [hnoop envs s h]; exact h
  · have hu : hdaps_update bus hz lw envs s =
        hdaps_update_loop bus hz lw envs READ_TIMEOUT_MSECS 0 0 s := by
      unfold hdaps_update
      rw [if_neg h]
    obtain ⟨_, _, _, _, g4, _⟩ := hdaps_update_loop_trace bus hz lw envs
      READ_TIMEOUT_MSECS 0 0 s (by decide) (by decide)
    rw [hu] at hok ⊢
    exact (g4 hok).1

/-- Instance of C20 (amended): a successful `hdaps_update` followed by
another one. -/
theorem refresh_after_success_is_noop_witness :
    (hdaps_update simBus 1000 64 (fun _ => env_at 5) calibration_scene).1 = 0 ∧
    hdaps_update simBus 1000 64 (fun _ => env_at 9)
      (hdaps_update simBus 1000 64 (fun _ => env_at 5) calibration_scene).2 =
      (0, (hdaps_update simBus 1000 64 (fun _ => env_at 5) calibration_scene).2) :=
  ⟨by decide,
    (refresh_after_success_is_noop simBus 1000 64 (fun _ => env_at 5) (fun _ => env_at 9)
      calibration_scene).2 (by decide)⟩

/-- C20 fails as stated: on a channel that answers no request,
`hdaps_update` returns `-EIO` after 6 port accesses and leaves the staleness
flag set; the `hdaps_update` called next returns `-EIO` again and makes 6
more port accesses. -/
theorem refresh_after_failure_repeats_io :
    (hdaps_update simBus 1000 64 (fun _ => env_at 5)
      (sim_hdaps [] (fun _ => 0) (TPC_PREFETCH_JUNK 1000) (initial_sampler 64)
        initial_config)).1 = - EIO ∧
    (hdaps_update simBus 1000 64 (fun _ => env_at 5)
      (sim_hdaps [] (fun _ => 0) (TPC_PREFETCH_JUNK 1000) (initial_sampler 64)
        initial_config)).2.smp.stale_readout = 1 ∧
    (hdaps_update simBus 1000 64 (fun _ => env_at 5)
      (sim_hdaps [] (fun _ => 0) (TPC_PREFETCH_JUNK 1000) (initial_sampler 64)
        initial_config)).2.ec.log.length = 6 ∧
    (hdaps_update simBus 1000 64 (fun _ => env_at 9)
      (hdaps_update simBus 1000 64 (fun _ => env_at 5)
        (sim_hdaps [] (fun _ => 0) (TPC_PREFETCH_JUNK 1000) (initial_sampler 64)
          initial_config)).2).1 = - EIO ∧
    (hdaps_update simBus 1000 64 (fun _ => env_at 9)
      (hdaps_update simBus 1000 64 (fun _ => env_at 5)
        (sim_hdaps [] (fun _ => 0) (TPC_PREFETCH_JUNK 1000) (initial_sampler 64)
          initial_config)).2).2.ec.log.length = 12 := by
  decide

/-! ## The status poll of `thinkpad_ec_request_row` -/

theorem tolerated_no_swmf {st : Nat} (h : tolerated st) : st &&& H8S_STR3_SWMF = 0 := by
  rcases h with h | h <;> rw [h] <;> decide

/-- The poll whose status decides: all earlier polls showed a tolerated
status, and poll `k` ends the loop. -/
theorem wait_reply_decided (bus : Bus σ) (n : Nat) (s : ec_state σ) (k : Nat) (hk : k < n)
    (htol : ∀ j, j < k → tolerated (poll_status bus s.hw j)) :
    (poll_status bus s.hw k &&& H8S_STR3_SWMF ≠ 0 → (wait_reply bus n s).1 = 0) ∧
    (poll_status bus s.hw k &&& H8S_STR3_SWMF = 0 → ¬ tolerated (poll_status bus s.hw k) →
      (wait_reply bus n s).1 = - EIO) ∧
    (¬ tolerated (poll_status bus s.hw k) →
      ∃ polls : List Ev, (∀ e ∈ polls, ∃ v, e = Ev.rd TPC_STR3_PORT v) ∧
        polls.length = k + 1 ∧ (wait_reply bus n s).2.log = s.log ++ polls) := by
  induction n generalizing s k with
  | zero => omega
  | succ n ih =>
    have hst : (bus_space_read_1 bus s TPC_STR3_PORT).1 &&& H8S_STR3_MASK =
        poll_status bus s.hw 0 := rfl
    cases k with
    | zero =>
      unfold wait_reply
      simp only [hst]
      refine ⟨fun h => by rw [if_pos h], fun h hnt => ?_, fun hnt => ?_⟩
      · have hnt' : ¬ (poll_status bus s.hw 0 = H8S_STR3_IBF3B ||| H8S_STR3_MWMF ∨
            poll_status bus s.hw 0 = 0x00) := hnt
        rw [if_neg (by simp [h]), if_neg hnt']
      · have hnt' : ¬ (poll_status bus s.hw 0 = H8S_STR3_IBF3B ||| H8S_STR3_MWMF ∨
            poll_status bus s.hw 0 = 0x00) := hnt
        by_cases hsw : poll_status bus s.hw 0 &&& H8S_STR3_SWMF ≠ 0
        · rw [if_pos hsw]
          exact ⟨[Ev.rd TPC_STR3_PORT ((bus.read_1 s.hw TPC_STR3_PORT).1 % 256)],
            by simp, rfl, rfl⟩
        · rw [if_neg hsw, if_neg hnt']
          exact ⟨[Ev.rd TPC_STR3_PORT ((bus.read_1 s.hw TPC_STR3_PORT).1 % 256)],
            by simp, rfl, rfl⟩
    | succ k =>
      have h0 : tolerated (poll_status bus s.hw 0) := htol 0 (by omega)
      have hshift : ∀ j, poll_status bus (bus_space_read_1 bus s TPC_STR3_PORT).2.hw j =
          poll_status bus s.hw (j + 1) := fun j => rfl
      have hw : wait_reply bus (n + 1) s =
          wait_reply bus n (bus_space_read_1 bus s TPC_STR3_PORT).2 := by
        rw [wait_reply]
        simp only [hst]
        have h0' : poll_status bus s.hw 0 = H8S_STR3_IBF3B ||| H8S_STR3_MWMF ∨
            poll_status bus s.hw 0 = 0x00 := h0
        rw [if_neg (by simp [tolerated_no_swmf h0]), if_pos h0']
      obtain ⟨a1, a2, a3⟩ := ih (bus_space_read_1 bus s TPC_STR3_PORT).2 k (by omega)
        (fun j hj => by rw [hshift]; exact htol (j + 1) (by omega))
      rw [hshift] at a1 a2 a3
      rw [hw]
      refine ⟨a1, a2, fun hnt => ?_⟩
      obtain ⟨polls, p1, p2, p3⟩ := a3 hnt
      refine ⟨Ev.rd TPC_STR3_PORT ((bus.read_1 s.hw TPC_STR3_PORT).1 % 256) :: polls, ?_, ?_, ?_⟩
      · intro e he
        rcases List.mem_cons.1 he with h | h
        · exact ⟨_, h⟩
        · exact p1 e h
      · simp [p2]
      · rw [p3]; simp

/-- The poll that is never answered: every one of the `n` polls shows a
tolerated status. -/
theorem wait_reply_exhausted (bus : Bus σ) (n : Nat) (s : ec_state σ)
    (htol : ∀ j, j < n → tolerated (poll_status bus s.hw j)) :
    (wait_reply bus n s).1 = - EIO ∧
    ∃ polls : List Ev, (∀ e ∈ polls, ∃ v, e = Ev.rd TPC_STR3_PORT v) ∧
      polls.length = n ∧ (wait_reply bus n s).2.log = s.log ++ polls := by
  induction n generalizing s with
  | zero => exact ⟨rfl, [], by simp, rfl, by simp [wait_reply]⟩
  | succ n ih =>
    have hst : (bus_space_read_1 bus s TPC_STR3_PORT).1 &&& H8S_STR3_MASK =
        poll_status bus s.hw 0 := rfl
    have h0 : tolerated (poll_status bus s.hw 0) := htol 0 (by omega)
    have hshift : ∀ j, poll_status bus (bus_space_read_1 bus s TPC_STR3_PORT).2.hw j =
        poll_status bus s.hw (j + 1) := fun j => rfl
    have hw : wait_reply bus (n + 1) s =
        wait_reply bus n (bus_space_read_1 bus s TPC_STR3_PORT).2 := by
      rw [wait_reply]
      simp only [hst]
      have h0' : poll_status bus s.hw 0 = H8S_STR3_IBF3B ||| H8S_STR3_MWMF ∨
          poll_status bus s.hw 0 = 0x00 := h0
      rw [if_neg (by simp [tolerated_no_swmf h0]), if_pos h0']
    obtain ⟨a1, polls, p1, p2, p3⟩ := ih (bus_space_read_1 bus s TPC_STR3_PORT).2
      (fun j hj => by rw [hshift]; exact htol (j + 1) (by omega))
    rw [hw]
    refine ⟨a1, Ev.rd TPC_STR3_PORT ((bus.read_1 s.hw TPC_STR3_PORT).1 % 256) :: polls,
      ?_, ?_, ?_⟩
    · intro e he
      rcases List.mem_cons.1 he with h | h
      · exact ⟨_, h⟩
      · exact p1 e h
    · simp [p2]
    · rw [p3]; simp

/-- C27: after the terminal byte has been written, `thinkpad_ec_request_row`
polls the masked status at most 1000 times (`TPC_REQUEST_RETRIES`).  With
`s3` the state after the terminal write: (1) on an idle controller that
accepts the request, the result and the log of `thinkpad_ec_request_row` are
those of the poll that starts at `s3`; (2) the poll makes at most 1000
accesses, each a read of the status port; (3) if `k < 1000` and the polls
before poll `k` all showed a tolerated status (`IBF3B|MWMF` or `0x00`), then
poll `k` with the SWMF bit set gives 0 after exactly `k+1` polls, and poll `k`
with any other status that is not tolerated gives `-EIO` after exactly `k+1`
polls; (4) if all 1000 polls showed a tolerated status, the result is `-EIO`
after exactly 1000 polls.  The function is total: it returns for every
sequence of status values. -/
theorem request_row_poll_bound (bus : Bus σ) (args : thinkpad_ec_row) (s : ec_state σ) :
    let s3 := after_terminal_write bus args s
    let r := wait_reply bus TPC_REQUEST_RETRIES s3
    (args.mask.testBit 0 = true → status bus s.hw = 0x00 →
      status bus (bus.write_1 (bus.read_1 s.hw TPC_STR3_PORT).2 TPC_TWR0_PORT (args.val 0)) =
        H8S_STR3_MWMF →
      (thinkpad_ec_request_row bus args s).1 = r.1 ∧
      (thinkpad_ec_request_row bus args s).2.log = r.2.log) ∧
    (∃ polls : List Ev, (∀ e ∈ polls, ∃ v, e = Ev.rd TPC_STR3_PORT v) ∧
      polls.length ≤ 1000 ∧ r.2.log = s3.log ++ polls) ∧
    (∀ k, k < 1000 → (∀ j, j < k → tolerated (poll_status bus s3.hw j)) →
      (poll_status bus s3.hw k &&& H8S_STR3_SWMF ≠ 0 →
        r.1 = 0 ∧ r.2.log.length = s3.log.length + (k + 1)) ∧
      (poll_status bus s3.hw k &&& H8S_STR3_SWMF = 0 → ¬ tolerated (poll_status bus s3.hw k) →
        r.1 = - EIO ∧ r.2.log.length = s3.log.length + (k + 1))) ∧
    ((∀ j, j < 1000 → tolerated (poll_status bus s3.hw j)) →
      r.1 = - EIO ∧ r.2.log.length = s3.log.length + 1000) := by
  intro s3 r
  refine ⟨?_, ?_, ?_, ?_⟩
  · intro h0 hidle hacc
    have hb := request_row_body_idle bus args s h0 hidle
    have hacc' : ¬ ((bus_space_read_1 bus (bus_space_write_1 bus
        (bus_space_read_1 bus s TPC_STR3_PORT).2 TPC_TWR0_PORT (args.val 0))
        TPC_STR3_PORT).1 &&& H8S_STR3_MASK ≠ H8S_STR3_MWMF) := not_not.2 hacc
    dsimp only at hb
    rw [if_neg hacc'] at hb
    have e1 : (thinkpad_ec_request_row bus args s).1 = (request_row_body bus args s).1 := rfl
    have e2 : (thinkpad_ec_request_row bus args s).2.log =
        (request_row_body bus args s).2.log := rfl
    rw [e1, e2, hb]
    exact ⟨rfl, rfl⟩
  · obtain ⟨polls, p1, p2, p3⟩ := wait_reply_log bus TPC_REQUEST_RETRIES s3
    exact ⟨polls, p1, p2, p3⟩
  · intro k hk htol
    obtain ⟨a1, a2, a3⟩ := wait_reply_decided bus TPC_REQUEST_RETRIES s3 k hk htol
    constructor
    · intro hsw
      have hnt : ¬ tolerated (poll_status bus s3.hw k) :=
        fun ht => hsw (tolerated_no_swmf ht)
      obtain ⟨polls, _, p2, p3⟩ := a3 hnt
      refine ⟨a1 hsw, ?_⟩
      rw [p3, List.length_append, p2]
    · intro hsw hnt
      obtain ⟨polls, _, p2, p3⟩ := a3 hnt
      refine ⟨a2 hsw hnt, ?_⟩
      rw [p3, List.length_append, p2]
  · intro htol
    obtain ⟨a1, polls, _, p2, p3⟩ := wait_reply_exhausted bus TPC_REQUEST_RETRIES s3 htol
    refine ⟨a1, ?_⟩
    rw [p3, List.length_append, p2]
    rfl

/-- Instance of C27: on the simulated channel with the documented status
sequence the first poll shows the reply started. -/
theorem request_row_poll_bound_witness :
    (0 : Nat) < 1000 ∧
    poll_status simBus (after_terminal_write simBus ec_accel_args
      (sim_state documented_sequence (fun _ => 0) 0)).hw 0 &&& H8S_STR3_SWMF ≠ 0 ∧
    (wait_reply simBus TPC_REQUEST_RETRIES (after_terminal_write simBus ec_accel_args
      (sim_state documented_sequence (fun _ => 0) 0))).1 = 0 :=
  ⟨by decide, by decide,
    (((request_row_poll_bound simBus ec_accel_args
      (sim_state documented_sequence (fun _ => 0) 0)).2.2.1 0 (by decide)
      (fun j hj => absurd hj (Nat.not_lt_zero j))).1 (by decide)).1⟩

/-- C21: when the staleness flag is set, `hdaps_update` returns after at most
34 calls of `__hdaps_update(0)`, whatever the channel does: every call but
the last returned `-EBUSY`, the result of the last call is the result of
`hdaps_update`, and a result of `-EBUSY` means that all 34 attempts were made.
So it returns 0 at the first attempt that succeeds, returns the first error
other than `-EBUSY` at once, and returns `-EBUSY` when every attempt was
busy. -/
theorem refresh_attempt_bound (bus : Bus σ) (hz : Int) (lw : Nat) (envs : Nat → update_env)
    (s : hdaps_state σ) (hstale : s.smp.stale_readout ≠ 0) :
    let r := hdaps_update bus hz lw envs s
    ∃ k : Nat, k + 1 ≤ 34 ∧
      r.2.updates = s.updates ++ List.replicate k (false, - EBUSY) ++ [(false, r.1)] ∧
      (r.1 = - EBUSY → k + 1 = 34) := by
  intro r
  have hu : r = hdaps_update_loop bus hz lw envs READ_TIMEOUT_MSECS 0 0 s := by
    show hdaps_update bus hz lw envs s = _
    unfold hdaps_update
    rw [if_neg hstale]
  obtain ⟨rs, ⟨k, g1, g2, g3⟩, h2, _⟩ :=
    hdaps_update_loop_trace bus hz lw envs READ_TIMEOUT_MSECS 0 0 s (by decide) (by decide)
  rw [attempts_from_zero] at g2 g3
  rw [← hu] at g1 g3 h2
  refine ⟨k, g2, ?_, g3⟩
  rw [h2, g1]
  simp [List.append_assoc]

/-- Instance of C21: a refresh on a channel that answers no request stops
after the first attempt, which returns `-EIO`. -/
theorem refresh_attempt_bound_witness :
    (sim_hdaps [] (fun _ => 0) (TPC_PREFETCH_JUNK 1000) (initial_sampler 64)
      initial_config).smp.stale_readout ≠ 0 ∧
    ∃ k : Nat, k + 1 ≤ 34 ∧
      (hdaps_update simBus 1000 64 (fun _ => env_at 5)
        (sim_hdaps [] (fun _ => 0) (TPC_PREFETCH_JUNK 1000) (initial_sampler 64)
          initial_config)).2.updates =
        (sim_hdaps [] (fun _ => 0) (TPC_PREFETCH_JUNK 1000) (initial_sampler 64)
          initial_config).updates ++ List.replicate k (false, - EBUSY) ++
          [(false, (hdaps_update simBus 1000 64 (fun _ => env_at 5)
            (sim_hdaps [] (fun _ => 0) (TPC_PREFETCH_JUNK 1000) (initial_sampler 64)
              initial_config)).1)] ∧
      ((hdaps_update simBus 1000 64 (fun _ => env_at 5)
        (sim_hdaps [] (fun _ => 0) (TPC_PREFETCH_JUNK 1000) (initial_sampler 64)
          initial_config)).1 = - EBUSY → k + 1 = 34) :=
  ⟨by decide,
    refresh_attempt_bound simBus 1000 64 (fun _ => env_at 5)
      (sim_hdaps [] (fun _ => 0) (TPC_PREFETCH_JUNK 1000) (initial_sampler 64) initial_config)
      (by decide)⟩

/-- C25: `__hdaps_update` issues exactly one `thinkpad_ec_prefetch_row` for
the readout row `ec_accel_args` (function code `0x11`, mask `0x0001`) after
its read and before it returns, for both values of `fast` and for every
outcome of the read: its final channel state is the state after that
prefetch, and the one `request_row` call of the prefetch is the only call
made after the read.  The value returned is determined by the read alone;
the result of the prefetch does not enter it. -/
theorem update_prefetches_once (bus : Bus σ) (hz : Int) (lw : Nat) (env : update_env)
    (fast : Bool) (s : hdaps_state σ) :
    let rd := accel_read bus hz env fast s.ec
    let pf := thinkpad_ec_prefetch_row bus hz env.ticks_prefetch ec_accel_args rd.2.2
    let r := __hdaps_update bus hz lw env fast s
    r.2.ec = pf.2 ∧
    r.2.ec.calls = rd.2.2.calls ++ [(Fn.request_row, pf.1)] ∧
    ec_accel_args.val 0 = 0x11 ∧ ec_accel_args.mask = 0x0001 ∧
    r.1 = (if rd.1 ≠ 0 then rd.1
      else if byte rd.2.1 EC_ACCEL_IDX_RETVAL ≠ 0x00 then - EIO
      else if byte rd.2.1 EC_ACCEL_IDX_READOUTS < 1 then - EBUSY else 0) := by
  intro rd pf r
  obtain ⟨c1, c2, c3, c4, _, _, _, _, c9⟩ := update_body_cases bus hz lw env fast s
  have hec : r.2.ec = pf.2 := c9
  have hcalls : pf.2.calls = rd.2.2.calls ++ [(Fn.request_row, pf.1)] := by
    have h1 := (request_row_frame bus ec_accel_args rd.2.2).2.2.2
    simp only [pf]
    unfold thinkpad_ec_prefetch_row
    dsimp only
    split
    · exact h1
    · exact h1
  have hret : r.1 = (hdaps_update_body bus hz lw env fast s).1 := rfl
  refine ⟨hec, by rw [hec]; exact hcalls, rfl, rfl, ?_⟩
  rw [hret]
  by_cases h0 : rd.1 = 0
  · rw [if_neg (not_not.2 h0)]
    by_cases h1 : byte rd.2.1 EC_ACCEL_IDX_RETVAL = 0
    · rw [if_neg (not_not.2 h1)]
      by_cases h2 : byte rd.2.1 EC_ACCEL_IDX_READOUTS < 1
      · rw [if_pos h2]; exact (c3 h0 h1 h2).1
      · rw [if_neg h2]; exact (c4 h0 h1 h2).1
    · rw [if_pos h1]; exact (c2 h0 h1).1
  · rw [if_pos h0]; exact (c1 h0).1

/-! ## The configuration requests -/

theorem set_config_args_val (ec_rate order : Int) :
    (set_config_args ec_rate order).val 1 = u_char ec_rate ∧
    (set_config_args ec_rate order).val 2 = u_char (ec_rate >>> (8 : Nat)) := ⟨rfl, rfl⟩

theorem ec_rate_of_bytes (e : Int) (h0 : 0 ≤ e) (h1 : e ≤ 65535) :
    ec_rate_of (u_char e) (u_char (e >>> (8 : Nat))) = e := by
  obtain ⟨n, rfl⟩ := Int.eq_ofNat_of_zero_le h0
  have hn : n ≤ 65535 := by exact_mod_cast h1
  have hs : ((n : Int) >>> (8 : Nat)) = ((n / 256 : Nat) : Int) := by
    rw [Int.shiftRight_eq_div_pow]
    norm_num
  have hlo : u_char (n : Int) = n % 256 := by
    unfold u_char
    omega
  have hhi : u_char ((n : Int) >>> (8 : Nat)) = n / 256 := by
    rw [hs]
    unfold u_char
    omega
  rw [hlo, hhi]
  unfold ec_rate_of
  have hlt : n % 256 < 2 ^ 8 := by
    have := Nat.mod_lt n (show 0 < 256 by decide)
    simpa using this
  have hor := Nat.mul_add_lt_is_or hlt (n / 256)
  rw [Nat.shiftLeft_eq, Nat.or_comm, Nat.mul_comm, ← hor]
  have : 2 ^ 8 * (n / 256) + n % 256 = n := by
    have := Nat.div_add_mod n 256
    omega
  rw [this]

theorem set_ec_config_spec (bus : Bus σ) (hz ticks ec_rate order : Int) (ec : ec_state σ) :
    hdaps_set_ec_config bus hz ticks ec_rate order ec =
      (spec_config_result
        (thinkpad_ec_read_row bus hz ticks (set_config_args ec_rate order)
          (mk_row 0x8000 []) ec).1
        (byte (thinkpad_ec_read_row bus hz ticks (set_config_args ec_rate order)
          (mk_row 0x8000 []) ec).2.1 0xF),
       (thinkpad_ec_read_row bus hz ticks (set_config_args ec_rate order)
          (mk_row 0x8000 []) ec).2.2) := by
  unfold hdaps_set_ec_config spec_config_result
  simp only []
  generalize thinkpad_ec_read_row bus hz ticks (set_config_args ec_rate order)
    (mk_row 0x8000 []) ec = t
  by_cases h0 : t.1 = 0
  · by_cases h3 : byte t.2.1 0xF = 0x03
    · simp [h0, h3]
    · by_cases h6 : byte t.2.1 0xF = 0x06
      · simp [h0, h6]
      · by_cases hz0 : byte t.2.1 0xF = 0x00
        · simp [h0, hz0]
        · simp [h0, h3, h6, hz0]
  · simp [h0]

theorem spec_config_write_of (t : Int × thinkpad_ec_row × ec_state σ)
    (set : hdaps_config → hdaps_config) (s : hdaps_state σ)
    (c : Int × ec_state σ) (hc : c = (spec_config_result t.1 (byte t.2.1 0xF), t.2.2)) :
    (if c.1 ≠ 0 then (c.1, { s with ec := c.2 })
      else (c.1, { s with ec := c.2, cfg := set s.cfg })) = spec_config_write t set s := by
  subst hc
  unfold spec_config_write
  by_cases h : spec_config_result t.1 (byte t.2.1 0xF) = 0
  · simp [h]
  · simp [h]

theorem sampling_rate_write_spec (bus : Bus σ) (hz ticks : Int) (req : sysctl_req)
    (s : hdaps_state σ) (hin : req.in_error = 0) (hlo : 1 ≤ req.new_value)
    (hhi : req.new_value ≤ hz) (hne : req.new_value ≠ s.cfg.sampling_rate) :
    sampling_rate_write bus hz ticks req s =
      spec_config_write
        (thinkpad_ec_read_row bus hz ticks
          (set_config_args (int32 (req.new_value * s.cfg.oversampling_ratio))
            s.cfg.running_avg_filter_order) (mk_row 0x8000 []) s.ec)
        (fun c => { c with sampling_rate := req.new_value }) s := by
  unfold sampling_rate_write
  have hv : ¬ (req.new_value > hz ∨ req.new_value < 1) := by omega
  rw [if_neg (by simp [hin]), if_neg hv, if_pos hne]
  exact spec_config_write_of _ (fun c => { c with sampling_rate := req.new_value }) s _
    (set_ec_config_spec bus hz ticks (int32 (req.new_value * s.cfg.oversampling_ratio))
      s.cfg.running_avg_filter_order s.ec)

theorem oversampling_ratio_write_spec (bus : Bus σ) (hz ticks : Int) (req : sysctl_req)
    (s : hdaps_state σ) (hin : req.in_error = 0) (hlo : 1 ≤ req.new_value)
    (hne : req.new_value ≠ s.cfg.oversampling_ratio) :
    oversampling_ratio_write bus hz ticks req s =
      spec_config_write
        (thinkpad_ec_read_row bus hz ticks
          (set_config_args (int32 (s.cfg.sampling_rate * req.new_value))
            s.cfg.running_avg_filter_order) (mk_row 0x8000 []) s.ec)
        (fun c => { c with oversampling_ratio := req.new_value }) s := by
  unfold oversampling_ratio_write
  have hv : ¬ (req.new_value < 1) := by omega
  rw [if_neg (by simp [hin]), if_neg hv, if_pos hne]
  exact spec_config_write_of _ (fun c => { c with oversampling_ratio := req.new_value }) s _
    (set_ec_config_spec bus hz ticks (int32 (s.cfg.sampling_rate * req.new_value))
      s.cfg.running_avg_filter_order s.ec)

theorem running_avg_filter_order_write_spec (bus : Bus σ) (hz ticks : Int) (req : sysctl_req)
    (s : hdaps_state σ) (hin : req.in_error = 0)
    (hne : req.new_value ≠ s.cfg.running_avg_filter_order) :
    running_avg_filter_order_write bus hz ticks req s =
      spec_config_write
        (thinkpad_ec_read_row bus hz ticks
          (set_config_args (int32 (s.cfg.sampling_rate * s.cfg.oversampling_ratio))
            req.new_value) (mk_row 0x8000 []) s.ec)
        (fun c => { c with running_avg_filter_order := req.new_value }) s := by
  unfold running_avg_filter_order_write
  rw [if_neg (by simp [hin]), if_pos hne]
  exact spec_config_write_of _ (fun c => { c with running_avg_filter_order := req.new_value })
    s _ (set_ec_config_spec bus hz ticks
      (int32 (s.cfg.sampling_rate * s.cfg.oversampling_ratio)) req.new_value s.ec)

theorem then_write_go {α : Type} (req : sysctl_req) (s : α) (write : α → Int × α)
    (hnew : req.newptr = true) :
    then_write req (Step.go 0 s) write = some (write s) := by
  unfold then_write
  simp [hnew]

theorem oversampling_ratio_read_skip (bus : Bus σ) (hz ticks : Int) (req : sysctl_req)
    (s : hdaps_state σ) (hold : req.oldptr = false) :
    oversampling_ratio_read bus hz ticks req s = Step.go req.out_error s := by
  unfold oversampling_ratio_read
  simp [hold]

theorem running_avg_filter_order_read_skip (bus : Bus σ) (hz ticks : Int) (req : sysctl_req)
    (s : hdaps_state σ) (hold : req.oldptr = false) :
    running_avg_filter_order_read bus hz ticks req s = Step.go req.out_error s := by
  unfold running_avg_filter_order_read
  simp [hold]

theorem spec_config_write_cases (t : Int × thinkpad_ec_row × ec_state σ)
    (set : hdaps_config → hdaps_config) (s : hdaps_state σ) :
    let r := spec_config_write t set s
    (t.1 ≠ 0 → r.1 = t.1 ∧ r.2.cfg = s.cfg) ∧
    (t.1 = 0 → byte t.2.1 0xF = 0x06 → r.1 = - EBUSY ∧ r.2.cfg = s.cfg) ∧
    (t.1 = 0 → byte t.2.1 0xF = 0x03 → r.1 = - EINVAL ∧ r.2.cfg = s.cfg) ∧
    (t.1 = 0 → byte t.2.1 0xF ≠ 0x06 → byte t.2.1 0xF ≠ 0x03 → byte t.2.1 0xF ≠ 0x00 →
      r.1 = - EIO ∧ r.2.cfg = s.cfg) ∧
    (t.1 = 0 → byte t.2.1 0xF = 0x00 → r.1 = 0 ∧ r.2.cfg = set s.cfg) ∧
    r.2.ec = t.2.2 ∧ r.2.smp = s.smp := by
  intro r
  have hE : (- EBUSY : Int) ≠ 0 := by decide
  have hV : (- EINVAL : Int) ≠ 0 := by decide
  have hI : (- EIO : Int) ≠ 0 := by decide
  refine ⟨?_, ?_, ?_, ?_, ?_, rfl, rfl⟩
  · intro h
    simp [r, spec_config_write, spec_config_result, h]
  · intro h0 h1
    simp [r, spec_config_write, spec_config_result, h0, h1, hE]
  · intro h0 h1
    simp [r, spec_config_write, spec_config_result, h0, h1, hV]
  · intro h0 h1 h2 h3
    simp [r, spec_config_write, spec_config_result, h0, h1, h2, h3, hI]
  · intro h0 h1
    simp [r, spec_config_write, spec_config_result, h0, h1]

/-- C22, amended: a configuration write that reaches the hardware (a new
sampling rate within its range, a new oversampling ratio of at least 1, or a
new filter order, each different from the current value) returns what
`spec_config_write` says of its transaction: the error of a failed
transaction, `-EBUSY` for the status byte `0x06`, `-EINVAL` for `0x03`,
`-EIO` for any other non-zero status, each with the configuration
unchanged, and 0 for the status byte `0x00`, with only the value being set
changed.  The request carries a new value and its copies succeed.  For the
sampling rate this holds of every such request.  For the oversampling ratio
and the filter order it holds relative to the state `s1` that the query half
of the handler leaves: that is the state before the call when the request
does not ask for the old value, and otherwise the state in which the query
has stored its reconciled values. -/
theorem config_write_status (bus : Bus σ) (hz ticks_get ticks : Int) (req : sysctl_req)
    (s : hdaps_state σ) (hnew : req.newptr = true) (hout : req.out_error = 0)
    (hin : req.in_error = 0) :
    (1 ≤ req.new_value → req.new_value ≤ hz → req.new_value ≠ s.cfg.sampling_rate →
      hdaps_sampling_rate_sysctlproc bus hz ticks req s =
        some (spec_config_write
          (thinkpad_ec_read_row bus hz ticks
            (set_config_args (int32 (req.new_value * s.cfg.oversampling_ratio))
              s.cfg.running_avg_filter_order) (mk_row 0x8000 []) s.ec)
          (fun c => { c with sampling_rate := req.new_value }) s)) ∧
    (req.oldptr = false → 1 ≤ req.new_value → req.new_value ≠ s.cfg.oversampling_ratio →
      hdaps_oversampling_ratio_sysctlproc bus hz ticks_get ticks req s =
        some (spec_config_write
          (thinkpad_ec_read_row bus hz ticks
            (set_config_args (int32 (s.cfg.sampling_rate * req.new_value))
              s.cfg.running_avg_filter_order) (mk_row 0x8000 []) s.ec)
          (fun c => { c with oversampling_ratio := req.new_value }) s)) ∧
    (req.oldptr = false → req.new_value ≠ s.cfg.running_avg_filter_order →
      hdaps_running_avg_filter_order_sysctlproc bus hz ticks_get ticks req s =
        some (spec_config_write
          (thinkpad_ec_read_row bus hz ticks
            (set_config_args (int32 (s.cfg.sampling_rate * s.cfg.oversampling_ratio))
              req.new_value) (mk_row 0x8000 []) s.ec)
          (fun c => { c with running_avg_filter_order := req.new_value }) s)) ∧
    (∀ (s1 : hdaps_state σ) (t : Int × thinkpad_ec_row × ec_state σ)
      (set : hdaps_config → hdaps_config),
      (t.1 ≠ 0 →
        (spec_config_write t set s1).1 = t.1 ∧ (spec_config_write t set s1).2.cfg = s1.cfg) ∧
      (t.1 = 0 → byte t.2.1 0xF = 0x06 →
        (spec_config_write t set s1).1 = - EBUSY ∧
        (spec_config_write t set s1).2.cfg = s1.cfg) ∧
      (t.1 = 0 → byte t.2.1 0xF = 0x03 →
        (spec_config_write t set s1).1 = - EINVAL ∧
        (spec_config_write t set s1).2.cfg = s1.cfg) ∧
      (t.1 = 0 → byte t.2.1 0xF ≠ 0x06 → byte t.2.1 0xF ≠ 0x03 → byte t.2.1 0xF ≠ 0x00 →
        (spec_config_write t set s1).1 = - EIO ∧ (spec_config_write t set s1).2.cfg = s1.cfg) ∧
      (t.1 = 0 → byte t.2.1 0xF = 0x00 →
        (spec_config_write t set s1).1 = 0 ∧
        (spec_config_write t set s1).2.cfg = set s1.cfg)) ∧
    (∀ s1 : hdaps_state σ, oversampling_ratio_read bus hz ticks_get req s = Step.go 0 s1 →
      1 ≤ req.new_value → req.new_value ≠ s1.cfg.oversampling_ratio →
      hdaps_oversampling_ratio_sysctlproc bus hz ticks_get ticks req s =
        some (spec_config_write
          (thinkpad_ec_read_row bus hz ticks
            (set_config_args (int32 (s1.cfg.sampling_rate * req.new_value))
              s1.cfg.running_avg_filter_order) (mk_row 0x8000 []) s1.ec)
          (fun c => { c with oversampling_ratio := req.new_value }) s1)) ∧
    (∀ s1 : hdaps_state σ,
      running_avg_filter_order_read bus hz ticks_get req s = Step.go 0 s1 →
      req.new_value ≠ s1.cfg.running_avg_filter_order →
      hdaps_running_avg_filter_order_sysctlproc bus hz ticks_get ticks req s =
        some (spec_config_write
          (thinkpad_ec_read_row bus hz ticks
            (set_config_args (int32 (s1.cfg.sampling_rate * s1.cfg.oversampling_ratio))
              req.new_value) (mk_row 0x8000 []) s1.ec)
          (fun c => { c with running_avg_filter_order := req.new_value }) s1)) := by
  refine ⟨?_, ?_, ?_, ?_, ?_, ?_⟩
  · intro hlo hhi hne
    unfold hdaps_sampling_rate_sysctlproc
    rw [hout, then_write_go req s _ hnew, sampling_rate_write_spec bus hz ticks req s hin hlo hhi hne]
  · intro hold hlo hne
    unfold hdaps_oversampling_ratio_sysctlproc
    rw [oversampling_ratio_read_skip bus hz ticks_get req s hold, hout,
      then_write_go req s _ hnew, oversampling_ratio_write_spec bus hz ticks req s hin hlo hne]
  · intro hold hne
    unfold hdaps_running_avg_filter_order_sysctlproc
    rw [running_avg_filter_order_read_skip bus hz ticks_get req s hold, hout,
      then_write_go req s _ hnew, running_avg_filter_order_write_spec bus hz ticks req s hin hne]
  · intro s1 t set
    obtain ⟨c1, c2, c3, c4, c5, _⟩ := spec_config_write_cases t set s1
    exact ⟨c1, c2, c3, c4, c5⟩
  · intro s1 hread hlo hne
    unfold hdaps_oversampling_ratio_sysctlproc
    rw [hread, then_write_go req s1 _ hnew,
      oversampling_ratio_write_spec bus hz ticks req s1 hin hlo hne]
  · intro s1 hread hne
    unfold hdaps_running_avg_filter_order_sysctlproc
    rw [hread, then_write_go req s1 _ hnew,
      running_avg_filter_order_write_spec bus hz ticks req s1 hin hne]

/-- C23, amended: the write half of every configuration setter validates
before any hardware access of its own.  A sampling rate below 1 or above
`hz`, an oversampling ratio below 1, and a fake-data-mode or invert value
outside {0, 1} return `EINVAL`, and a valid value equal to the current one
returns 0; in both cases the write half leaves the whole driver state,
channel log included, as it found it.  The request carries a new value and
its copies succeed.  For the sampling rate, the fake data mode and the
inversion that state is the state before the call.  For the oversampling
ratio and the filter order it is the state `s1` that the query half of the
handler leaves: the state before the call when the request does not ask for
the old value, and otherwise the state after the query transaction, with its
reconciled values stored. -/
theorem config_write_validated (bus : Bus σ) (hz ticks_get ticks : Int) (long_bits : Nat)
    (envs : Nat → update_env) (req : sysctl_req) (s : hdaps_state σ)
    (hnew : req.newptr = true) (hout : req.out_error = 0) (hin : req.in_error = 0) :
    (req.new_value < 1 ∨ hz < req.new_value →
      hdaps_sampling_rate_sysctlproc bus hz ticks req s = some (EINVAL, s)) ∧
    (req.oldptr = false → req.new_value < 1 →
      hdaps_oversampling_ratio_sysctlproc bus hz ticks_get ticks req s = some (EINVAL, s)) ∧
    (req.new_value < 0 ∨ 1 < req.new_value →
      hdaps_fake_data_mode_sysctlproc bus hz ticks req s = some (EINVAL, s)) ∧
    (req.new_value < 0 ∨ 1 < req.new_value →
      hdaps_invert_sysctlproc bus hz long_bits envs req s = some (EINVAL, s)) ∧
    (1 ≤ req.new_value → req.new_value ≤ hz → req.new_value = s.cfg.sampling_rate →
      hdaps_sampling_rate_sysctlproc bus hz ticks req s = some (0, s)) ∧
    (req.oldptr = false → 1 ≤ req.new_value → req.new_value = s.cfg.oversampling_ratio →
      hdaps_oversampling_ratio_sysctlproc bus hz ticks_get ticks req s = some (0, s)) ∧
    (req.oldptr = false → req.new_value = s.cfg.running_avg_filter_order →
      hdaps_running_avg_filter_order_sysctlproc bus hz ticks_get ticks req s = some (0, s)) ∧
    (0 ≤ req.new_value → req.new_value ≤ 1 → req.new_value = s.cfg.fake_data_mode →
      hdaps_fake_data_mode_sysctlproc bus hz ticks req s = some (0, s)) ∧
    (0 ≤ req.new_value → req.new_value ≤ 1 → req.new_value = (s.cfg.hdaps_invert : Int) →
      hdaps_invert_sysctlproc bus hz long_bits envs req s = some (0, s)) ∧
    (∀ s1 : hdaps_state σ, oversampling_ratio_read bus hz ticks_get req s = Step.go 0 s1 →
      (req.new_value < 1 →
        hdaps_oversampling_ratio_sysctlproc bus hz ticks_get ticks req s =
          some (EINVAL, s1)) ∧
      (1 ≤ req.new_value → req.new_value = s1.cfg.oversampling_ratio →
        hdaps_oversampling_ratio_sysctlproc bus hz ticks_get ticks req s = some (0, s1))) ∧
    (∀ s1 : hdaps_state σ,
      running_avg_filter_order_read bus hz ticks_get req s = Step.go 0 s1 →
      req.new_value = s1.cfg.running_avg_filter_order →
      hdaps_running_avg_filter_order_sysctlproc bus hz ticks_get ticks req s =
        some (0, s1)) := by
  refine ⟨?_, ?_, ?_, ?_, ?_, ?_, ?_, ?_, ?_, ?_, ?_⟩
  · intro h
    unfold hdaps_sampling_rate_sysctlproc
    rw [hout, then_write_go req s _ hnew]
    unfold sampling_rate_write
    have hv : req.new_value > hz ∨ req.new_value < 1 := by omega
    rw [if_neg (by simp [hin]), if_pos hv]
  · intro hold h
    unfold hdaps_oversampling_ratio_sysctlproc
    rw [oversampling_ratio_read_skip bus hz ticks_get req s hold, hout,
      then_write_go req s _ hnew]
    unfold oversampling_ratio_write
    rw [if_neg (by simp [hin]), if_pos h]
  · intro h
    unfold hdaps_fake_data_mode_sysctlproc
    rw [hout, then_write_go req s _ hnew]
    unfold fake_data_mode_write
    have hv : req.new_value < 0 ∨ req.new_value > 1 := by omega
    rw [if_neg (by simp [hin]), if_pos hv]
  · intro h
    unfold hdaps_invert_sysctlproc
    rw [hout, then_write_go req s _ hnew]
    unfold invert_write
    have hv : req.new_value < 0 ∨ req.new_value > 1 := by omega
    rw [if_neg (by simp [hin]), if_pos hv]
  · intro hlo hhi he
    unfold hdaps_sampling_rate_sysctlproc
    rw [hout, then_write_go req s _ hnew]
    unfold sampling_rate_write
    have hv : ¬ (req.new_value > hz ∨ req.new_value < 1) := by omega
    rw [if_neg (by simp [hin]), if_neg hv, if_neg (by simp [he]), hin]
  · intro hold hlo he
    unfold hdaps_oversampling_ratio_sysctlproc
    rw [oversampling_ratio_read_skip bus hz ticks_get req s hold, hout,
      then_write_go req s _ hnew]
    unfold oversampling_ratio_write
    have hv : ¬ (req.new_value < 1) := by omega
    rw [if_neg (by simp [hin]), if_neg hv, if_neg (by simp [he]), hin]
  · intro hold he
    unfold hdaps_running_avg_filter_order_sysctlproc
    rw [running_avg_filter_order_read_skip bus hz ticks_get req s hold, hout,
      then_write_go req s _ hnew]
    unfold running_avg_filter_order_write
    rw [if_neg (by simp [hin]), if_neg (by simp [he]), hin]
  · intro hlo hhi he
    unfold hdaps_fake_data_mode_sysctlproc
    rw [hout, then_write_go req s _ hnew]
    unfold fake_data_mode_write
    have hv : ¬ (req.new_value < 0 ∨ req.new_value > 1) := by omega
    rw [if_neg (by simp [hin]), if_neg hv, if_neg (by simp [he]), hin]
  · intro hlo hhi he
    unfold hdaps_invert_sysctlproc
    rw [hout, then_write_go req s _ hnew]
    unfold invert_write
    have hv : ¬ (req.new_value < 0 ∨ req.new_value > 1) := by omega
    rw [if_neg (by simp [hin]), if_neg hv, if_neg (by simp [he]), hin]
  · intro s1 hread
    constructor
    · intro h
      unfold hdaps_oversampling_ratio_sysctlproc
      rw [hread, then_write_go req s1 _ hnew]
      unfold oversampling_ratio_write
      rw [if_neg (by simp [hin]), if_pos h]
    · intro hlo he
      unfold hdaps_oversampling_ratio_sysctlproc
      rw [hread, then_write_go req s1 _ hnew]
      unfold oversampling_ratio_write
      have hv : ¬ (req.new_value < 1) := by omega
      rw [if_neg (by simp [hin]), if_neg hv, if_neg (by simp [he]), hin]
  · intro s1 hread he
    unfold hdaps_running_avg_filter_order_sysctlproc
    rw [hread, then_write_go req s1 _ hnew]
    unfold running_avg_filter_order_write
    rw [if_neg (by simp [hin]), if_neg (by simp [he]), hin]

/-! ## The poller -/

theorem try_lock_held (s : hdaps_state σ) (h : s.mtx_held = true) :
    thinkpad_ec_try_lock s = (1, s) := by
  unfold thinkpad_ec_try_lock
  simp [h]

theorem try_lock_free (s : hdaps_state σ) (h : s.mtx_held = false) :
    thinkpad_ec_try_lock s =
      (0, { s with mtx_held := true, lock_log := s.lock_log ++ [LockEv.lock] }) := by
  unfold thinkpad_ec_try_lock
  simp [h]

theorem update_cfg (bus : Bus σ) (hz : Int) (lw : Nat) (env : update_env) (fast : Bool)
    (s : hdaps_state σ) : (__hdaps_update bus hz lw env fast s).2.cfg = s.cfg := by
  obtain ⟨_, _, _, _, c, _⟩ := update_body_cases bus hz lw env fast s
  exact c

theorem mousedev_poll_cases (bus : Bus σ) (hz : Int) (lw : Nat) (env : update_env)
    (s : hdaps_state σ) :
    let s0 : hdaps_state σ := { s with smp := { s.smp with stale_readout := 1 } }
    let u := __hdaps_update bus hz lw env true (thinkpad_ec_try_lock s0).2
    let r := hdaps_mousedev_poll bus hz lw env s
    r.2.cfg = s.cfg ∧
    (s.mtx_held = true → r = (callout_reset hz s.cfg.sampling_rate, s0)) ∧
    (s.mtx_held = false →
      r.2 = thinkpad_ec_unlock u.2 ∧
      (u.1 = 0 ∨ u.1 = - EBUSY ∨ u.1 = - ENOATTR → r.1 = callout_reset hz s.cfg.sampling_rate) ∧
      (¬ (u.1 = 0 ∨ u.1 = - EBUSY ∨ u.1 = - ENOATTR) → r.1 = poll_outcome.halted)) := by
  intro s0 u r
  have hheld : s.mtx_held = true → r = (callout_reset hz s.cfg.sampling_rate, s0) := by
    intro h
    have h0 : s0.mtx_held = true := h
    simp only [r]
    unfold hdaps_mousedev_poll
    simp only []
    rw [try_lock_held s0 h0]
    simp [s0]
  have hfree : s.mtx_held = false →
      r.2 = thinkpad_ec_unlock u.2 ∧
      (u.1 = 0 ∨ u.1 = - EBUSY ∨ u.1 = - ENOATTR → r.1 = callout_reset hz s.cfg.sampling_rate) ∧
      (¬ (u.1 = 0 ∨ u.1 = - EBUSY ∨ u.1 = - ENOATTR) → r.1 = poll_outcome.halted) := by
    intro h
    have h0 : s0.mtx_held = false := h
    have hl : (thinkpad_ec_try_lock s0).1 = 0 := by rw [try_lock_free s0 h0]
    have hcfg : (thinkpad_ec_unlock u.2).cfg = s.cfg := by
      show u.2.cfg = s.cfg
      simp only [u]
      rw [update_cfg, try_lock_free s0 h0]
    by_cases hu : u.1 = 0 ∨ u.1 = - EBUSY ∨ u.1 = - ENOATTR
    · have hc : ¬ (u.1 ≠ 0 ∧ u.1 ≠ - EBUSY ∧ u.1 ≠ - ENOATTR) := by
        intro ⟨a, b, c⟩
        rcases hu with h1 | h1 | h1
        · exact a h1
        · exact b h1
        · exact c h1
      have hr : r = (callout_reset hz (thinkpad_ec_unlock u.2).cfg.sampling_rate,
          thinkpad_ec_unlock u.2) := by
        simp only [r]
        unfold hdaps_mousedev_poll
        simp only []
        rw [if_neg (by simp [hl]), if_neg hc]
      rw [hr]
      refine ⟨rfl, fun _ => ?_, fun hn => absurd hu hn⟩
      show callout_reset hz (thinkpad_ec_unlock u.2).cfg.sampling_rate = _
      rw [hcfg]
    · have hc : u.1 ≠ 0 ∧ u.1 ≠ - EBUSY ∧ u.1 ≠ - ENOATTR :=
        ⟨fun a => hu (Or.inl a), fun a => hu (Or.inr (Or.inl a)),
          fun a => hu (Or.inr (Or.inr a))⟩
      have hr : r = (poll_outcome.halted, thinkpad_ec_unlock u.2) := by
        simp only [r]
        unfold hdaps_mousedev_poll
        simp only []
        rw [if_neg (by simp [hl]), if_pos hc]
      rw [hr]
      exact ⟨rfl, fun hn => absurd hn hu, fun _ => rfl⟩
  refine ⟨?_, hheld, hfree⟩
  cases h : s.mtx_held
  · rw [(hfree h).1]
    show u.2.cfg = s.cfg
    simp only [u]
    have h0 : s0.mtx_held = false := h
    rw [update_cfg, try_lock_free s0 h0]
  · rw [hheld h]

theorem callout_reset_rearms (hz rate : Int) (h : rate ≠ 0) :
    callout_reset hz rate = poll_outcome.rearmed (Int.tdiv hz rate) := by
  unfold callout_reset
  rw [if_neg h]

theorem poll_cycles_locked (bus : Bus σ) (hz : Int) (lw : Nat) :
    ∀ (cycles : List (Bool × update_env)) (s : hdaps_state σ) (i : Nat)
      (c : Bool × update_env) (o : poll_outcome),
      s.cfg.sampling_rate ≠ 0 → cycles[i]? = some c → c.1 = true →
      (poll_cycles bus hz lw cycles s)[i]? = some o →
      o = poll_outcome.rearmed (Int.tdiv hz s.cfg.sampling_rate) := by
  intro cycles
  induction cycles with
  | nil =>
    intro s i c o _ hc
    simp at hc
  | cons d rest ih =>
    intro s i c o hrate hc hheld ho
    obtain ⟨kcfg, kheld, _⟩ := mousedev_poll_cases bus hz lw d.2 { s with mtx_held := d.1 }
    cases i with
    | zero =>
      simp at hc
      subst hc
      have hr := kheld hheld
      simp only [] at hr
      rw [callout_reset_rearms hz _ hrate] at hr
      unfold poll_cycles at ho
      rw [hr] at ho
      simp at ho
      exact ho.symm
    | succ k =>
      simp at hc
      unfold poll_cycles at ho
      revert ho kcfg
      generalize hdaps_mousedev_poll bus hz lw d.2 { s with mtx_held := d.1 } = q
      intro kcfg ho
      obtain ⟨q1, q2⟩ := q
      cases q1 with
      | halted => simp at ho
      | fault => simp at ho
      | rearmed p =>
        simp at ho
        have hq : q2.cfg = s.cfg := kcfg
        have := ih q2 k c o (by rw [hq]; exact hrate) hc hheld ho
        rw [hq] at this
        exact this

/-- C24: `hdaps_mousedev_poll` first sets the staleness flag.  If the lock is
held by someone else, `thinkpad_ec_try_lock` fails and the final state is the
initial state with the staleness flag set: no port is accessed and nothing
else is changed.  Otherwise it runs `__hdaps_update(1)` from that state and
releases the lock.  With a non-zero sampling rate, it arms its timer again,
with the period `hz/sampling_rate`, iff the lock was held or the update
returned 0, `-EBUSY` or `-ENOATTR`, and it leaves the timer stopped iff the
update returned any other error.  The configuration is unchanged, so this
holds again at the next period: in every run of consecutive periods, each
period in which the lock is held arms the timer again. -/
theorem poller_rearms (bus : Bus σ) (hz : Int) (lw : Nat) (env : update_env)
    (s : hdaps_state σ) (hrate : s.cfg.sampling_rate ≠ 0) :
    let s0 : hdaps_state σ := { s with smp := { s.smp with stale_readout := 1 } }
    let u := __hdaps_update bus hz lw env true (thinkpad_ec_try_lock s0).2
    let r := hdaps_mousedev_poll bus hz lw env s
    (s.mtx_held = true → (thinkpad_ec_try_lock s0).1 ≠ 0 ∧ r.2 = s0) ∧
    (s.mtx_held = false → (thinkpad_ec_try_lock s0).1 = 0 ∧ r.2 = thinkpad_ec_unlock u.2) ∧
    (r.1 = poll_outcome.rearmed (Int.tdiv hz s.cfg.sampling_rate) ↔
      s.mtx_held = true ∨ u.1 = 0 ∨ u.1 = - EBUSY ∨ u.1 = - ENOATTR) ∧
    (r.1 = poll_outcome.halted ↔
      s.mtx_held = false ∧ u.1 ≠ 0 ∧ u.1 ≠ - EBUSY ∧ u.1 ≠ - ENOATTR) ∧
    r.2.cfg = s.cfg ∧
    (∀ (cycles : List (Bool × update_env)) (i : Nat) (c : Bool × update_env)
      (o : poll_outcome), cycles[i]? = some c → c.1 = true →
      (poll_cycles bus hz lw cycles s)[i]? = some o →
      o = poll_outcome.rearmed (Int.tdiv hz s.cfg.sampling_rate)) := by
  intro s0 u r
  obtain ⟨kcfg, kheld, kfree⟩ := mousedev_poll_cases bus hz lw env s
  have hre := callout_reset_rearms hz s.cfg.sampling_rate hrate
  refine ⟨?_, ?_, ?_, ?_, kcfg, ?_⟩
  · intro h
    have h0 : s0.mtx_held = true := h
    refine ⟨?_, ?_⟩
    · rw [try_lock_held s0 h0]
      show (1 : Int) ≠ 0
      decide
    · show (hdaps_mousedev_poll bus hz lw env s).2 = s0
      rw [kheld h]
  · intro h
    have h0 : s0.mtx_held = false := h
    refine ⟨?_, (kfree h).1⟩
    rw [try_lock_free s0 h0]
  · cases h : s.mtx_held
    · obtain ⟨_, k2, k3⟩ := kfree h
      constructor
      · intro hr
        by_cases hu : u.1 = 0 ∨ u.1 = - EBUSY ∨ u.1 = - ENOATTR
        · exact Or.inr hu
        · have := k3 hu
          have hr' : (hdaps_mousedev_poll bus hz lw env s).1 = _ := hr
          rw [this] at hr'
          exact absurd hr' (by simp)
      · intro hu
        rcases hu with hu | hu
        · exact absurd hu (by simp)
        · show (hdaps_mousedev_poll bus hz lw env s).1 = _
          rw [k2 hu, hre]
    · constructor
      · intro _
        exact Or.inl rfl
      · intro _
        show (hdaps_mousedev_poll bus hz lw env s).1 = _
        rw [kheld h, hre]
  · cases h : s.mtx_held
    · obtain ⟨_, k2, k3⟩ := kfree h
      constructor
      · intro hr
        refine ⟨rfl, ?_⟩
        by_cases hu : u.1 = 0 ∨ u.1 = - EBUSY ∨ u.1 = - ENOATTR
        · have := k2 hu
          have hr' : (hdaps_mousedev_poll bus hz lw env s).1 = _ := hr
          rw [this, hre] at hr'
          exact absurd hr' (by simp)
        · exact ⟨fun a => hu (Or.inl a), fun a => hu (Or.inr (Or.inl a)),
            fun a => hu (Or.inr (Or.inr a))⟩
      · intro ⟨_, a, b, c⟩
        apply k3
        intro hu
        rcases hu with hu | hu | hu
        · exact a hu
        · exact b hu
        · exact c hu
    · constructor
      · intro hr
        have hr' : (hdaps_mousedev_poll bus hz lw env s).1 = _ := hr
        rw [kheld h, hre] at hr'
        exact absurd hr' (by simp)
      · intro ⟨hf, _⟩
        exact absurd hf (by simp)
  · intro cycles i c o hc hheld ho
    exact poll_cycles_locked bus hz lw cycles s i c o hrate hc hheld ho

/-- Instance of C24: ten periods of which nine find the lock held; all ten
arm the timer again with a period of 20 ticks. -/
theorem poller_rearms_witness :
    (config_scene 0).cfg.sampling_rate ≠ 0 ∧
    contended_cycles[7]? = some (true, env_at 145) ∧
    (poll_cycles simBus 1000 64 contended_cycles (config_scene 0))[7]? =
      some (poll_outcome.rearmed 20) ∧
    poll_outcome.rearmed 20 =
      poll_outcome.rearmed (Int.tdiv 1000 (config_scene 0).cfg.sampling_rate) ∧
    poll_cycles simBus 1000 64 contended_cycles (config_scene 0) =
      List.replicate 10 (poll_outcome.rearmed 20) :=
  ⟨by decide, rfl, by decide,
    (poller_rearms simBus 1000 64 (env_at 5) (config_scene 0) (by decide)).2.2.2.2.2
      contended_cycles 7 (true, env_at 145) (poll_outcome.rearmed 20) rfl rfl
      (by decide),
    by decide⟩

/-- Instance of C22: the hardware answers a new sampling rate of 60 with the
status `0x06`; the write returns `-EBUSY` and the configuration keeps its
initial values. -/
theorem config_write_status_witness :
    (write_req 60).newptr = true ∧ (write_req 60).out_error = 0 ∧
    (write_req 60).in_error = 0 ∧ 1 ≤ (write_req 60).new_value ∧
    (write_req 60).new_value ≤ 1000 ∧
    (write_req 60).new_value ≠ (config_scene 0x06).cfg.sampling_rate ∧
    hdaps_sampling_rate_sysctlproc simBus 1000 5 (write_req 60) (config_scene 0x06) =
      some (spec_config_write
        (thinkpad_ec_read_row simBus 1000 5
          (set_config_args
            (int32 ((write_req 60).new_value * (config_scene 0x06).cfg.oversampling_ratio))
            (config_scene 0x06).cfg.running_avg_filter_order) (mk_row 0x8000 [])
          (config_scene 0x06).ec)
        (fun c => { c with sampling_rate := (write_req 60).new_value }) (config_scene 0x06)) ∧
    (hdaps_sampling_rate_sysctlproc simBus 1000 5 (write_req 60) (config_scene 0x06)).map
      (fun r => (r.1, r.2.cfg)) = some (- EBUSY, initial_config) :=
  ⟨rfl, rfl, rfl, by decide, by decide, by decide,
    (config_write_status simBus 1000 5 5 (write_req 60) (config_scene 0x06) rfl rfl rfl).1
      (by decide) (by decide) (by decide),
    by decide⟩

/-- C22 fails as stated for a request that also asks for the old value: in
the initial state, a request for the old oversampling ratio that sets the
new ratio 7 first runs the query, to which the hardware reports an EC rate
of 500 and a filter order of 3, and stores the ratio 10 and the order 3;
the transaction of the write then fails and the handler returns `-EIO`
with the oversampling ratio and the filter order changed. -/
theorem failed_write_after_query_changes_config :
    (read_write_req 7).newptr = true ∧ (1 : Int) ≤ (read_write_req 7).new_value ∧
    reconcile_scene.cfg = initial_config ∧
    (hdaps_oversampling_ratio_sysctlproc simBus 1000 5 6 (read_write_req 7)
      reconcile_scene).map (fun r => (r.1, r.2.cfg)) =
      some (- EIO, { initial_config with oversampling_ratio := 10,
                                           running_avg_filter_order := 3 }) ∧
    (hdaps_oversampling_ratio_sysctlproc simBus 1000 5 6 (read_write_req 7)
      reconcile_scene).map (fun r => r.2.ec.calls) =
      some [(Fn.request_row, 0), (Fn.read_data, 0), (Fn.request_row, - EIO)] := by
  refine ⟨by decide, by decide, by decide, by decide, by decide⟩

/-- Instance of C23: a sampling rate of 0 is rejected and the state is
untouched. -/
theorem config_write_validated_witness :
    (write_req 0).newptr = true ∧ (write_req 0).out_error = 0 ∧
    (write_req 0).in_error = 0 ∧
    ((write_req 0).new_value < 1 ∨ 1000 < (write_req 0).new_value) ∧
    hdaps_sampling_rate_sysctlproc simBus 1000 5 (write_req 0) (config_scene 0) =
      some (EINVAL, config_scene 0) :=
  ⟨rfl, rfl, rfl, by decide,
    (config_write_validated simBus 1000 5 5 64 (fun _ => env_at 5) (write_req 0)
      (config_scene 0) rfl rfl rfl).1 (by decide)⟩

/-- C23 fails as stated for a request that also asks for the old value: in
the initial state, a request for the old oversampling ratio that sets the
invalid ratio 0 returns `EINVAL` only after the query transaction, of 14 port
accesses, has run and has stored the ratio 10 and the filter order 3. -/
theorem invalid_ratio_rejected_after_query :
    (read_write_req 0).newptr = true ∧ (read_write_req 0).new_value < 1 ∧
    reconcile_scene.cfg = initial_config ∧ reconcile_scene.ec.log = [] ∧
    (hdaps_oversampling_ratio_sysctlproc simBus 1000 5 6 (read_write_req 0)
      reconcile_scene).map (fun r => (r.1, r.2.cfg)) =
      some (EINVAL, { initial_config with oversampling_ratio := 10,
                                          running_avg_filter_order := 3 }) ∧
    (hdaps_oversampling_ratio_sysctlproc simBus 1000 5 6 (read_write_req 0)
      reconcile_scene).map (fun r => (r.2.ec.log.length, r.2.ec.calls)) =
      some (14, [(Fn.request_row, 0), (Fn.read_data, 0)]) := by
  refine ⟨by decide, by decide, by decide, by decide, by decide, by decide⟩

/-- Counterexample to C29 as stated: with `hz = 1000` the setter accepts a
sampling rate of 1000 at an oversampling ratio of 66; the EC rate 66000 is
sent as the bytes 208 and 1, which decode to 464. -/
theorem ec_rate_high_bits_lost :
    (1 : Int) ≤ 1000 ∧ (1000 : Int) ≤ 1000 ∧ (1 : Int) ≤ 66 ∧
    (hdaps_sampling_rate_sysctlproc simBus 1000 5 (write_req 1000) wide_rate_scene).map
      (fun r => (r.1, r.2.cfg.sampling_rate, r.2.ec.log.filter Ev.isWrite)) =
      some (0, 1000, [Ev.wr 0x10 0x10, Ev.wr 0x11 208, Ev.wr 0x12 1, Ev.wr 0x13 2,
        Ev.wr 0x1f 0x01]) ∧
    (set_config_args (int32 (1000 * 66)) 2).val 1 = 208 ∧
    (set_config_args (int32 (1000 * 66)) 2).val 2 = 1 ∧
    ec_rate_of ((set_config_args (int32 (1000 * 66)) 2).val 1)
      ((set_config_args (int32 (1000 * 66)) 2).val 2) = 464 ∧
    ec_rate_of ((set_config_args (int32 (1000 * 66)) 2).val 1)
      ((set_config_args (int32 (1000 * 66)) 2).val 2) ≠ 1000 * 66 := by
  refine ⟨by decide, by decide, by decide, by decide, by decide, by decide, by decide,
    by decide⟩

/-- C29, amended: for a sampling rate of at least 1 and an oversampling ratio
of at least 1 whose product is at most 65535, the EC rate that
`hdaps_set_ec_config` sends, the product encoded as argument byte 1 = low
byte and argument byte 2 = high byte, decodes back to the product by the
rule `lo | hi << 8` of `hdaps_get_ec_config`. -/
theorem ec_rate_round_trip (rate ratio order : Int) (hlo : 1 ≤ rate) (hratio : 1 ≤ ratio)
    (hfit : rate * ratio ≤ 65535) :
    ec_rate_of ((set_config_args (int32 (rate * ratio)) order).val 1)
      ((set_config_args (int32 (rate * ratio)) order).val 2) = rate * ratio := by
  have h0 : 0 ≤ rate * ratio := Int.mul_nonneg (by omega) (by omega)
  have hi : int32 (rate * ratio) = rate * ratio :=
    int32_of_range _ (by omega) (by omega)
  rw [hi, (set_config_args_val (rate * ratio) order).1,
    (set_config_args_val (rate * ratio) order).2]
  exact ec_rate_of_bytes _ h0 hfit

/-- Instance of C29: the initial sampling rate 50 and oversampling ratio 5. -/
theorem ec_rate_round_trip_witness :
    (1 : Int) ≤ 50 ∧ (1 : Int) ≤ 5 ∧ (50 : Int) * 5 ≤ 65535 ∧
    ec_rate_of ((set_config_args (int32 (50 * 5)) 2).val 1)
      ((set_config_args (int32 (50 * 5)) 2).val 2) = 50 * 5 :=
  ⟨by decide, by decide, by decide,
    ec_rate_round_trip 50 5 2 (by decide) (by decide) (by decide)⟩

/-- C26 at its failing input: a write of the sampling rate 60 in the initial
state, with the lock free, runs a whole channel transaction (one
`request_row` and one `read_data` call, five port writes) and the mutex is
never taken. -/
theorem setter_runs_unlocked :
    (config_scene 0).mtx_held = false ∧
    (hdaps_sampling_rate_sysctlproc simBus 1000 5 (write_req 60) (config_scene 0)).map
      (fun r => (r.1, r.2.cfg.sampling_rate, r.2.ec.calls)) =
      some (0, 60, [(Fn.request_row, 0), (Fn.read_data, 0)]) ∧
    (hdaps_sampling_rate_sysctlproc simBus 1000 5 (write_req 60) (config_scene 0)).map
      (fun r => (r.2.lock_log, r.2.mtx_held)) = some ([], false) ∧
    (hdaps_sampling_rate_sysctlproc simBus 1000 5 (write_req 60) (config_scene 0)).map
      (fun r => r.2.ec.log.filter Ev.isWrite) =
      some [Ev.wr 0x10 0x10, Ev.wr 0x11 44, Ev.wr 0x12 1, Ev.wr 0x13 2, Ev.wr 0x1f 0x01] := by
  refine ⟨by decide, by decide, by decide, by decide⟩

/-- C28 at its failing input: from the initial configuration (sampling rate
50, oversampling ratio 5) a query of the oversampling ratio to which the
hardware reports an EC rate of 10 succeeds and stores the ratio 0; the next
query of the filter order then divides by that zero. -/
theorem ratio_query_stores_zero :
    initial_config.sampling_rate = 50 ∧ initial_config.oversampling_ratio = 5 ∧
    (hdaps_oversampling_ratio_sysctlproc simBus 1000 5 5 read_req low_rate_scene).map
      (fun r => (r.1, r.2.cfg)) =
      some (0, { initial_config with oversampling_ratio := 0 }) ∧
    ((hdaps_oversampling_ratio_sysctlproc simBus 1000 5 5 read_req low_rate_scene).bind
      (fun r => (hdaps_running_avg_filter_order_sysctlproc simBus 1000 9 9 read_req r.2).map
        (fun q => q.1))) = none := by
  refine ⟨by decide, by decide, by decide, by decide⟩

/-- C30 at its failing input: in the initial state, a read of the values at
tick 1000 whose update succeeds with an activity byte of zero reports
keyboard and mouse activity as 1, for a `long` of 64 and of 32 bits: the
initial timestamps are `-300000` converted to `u_long`. -/
theorem initial_activity_reported :
    (idle_scene 64).smp = initial_sampler 64 ∧
    (hdaps_values_sysctlproc simBus 1000 64 (fun _ => env_at 1000) 1000 1000 read_req
      (idle_scene 64)).1 = 0 ∧
    (hdaps_values_sysctlproc simBus 1000 64 (fun _ => env_at 1000) 1000 1000 read_req
      (idle_scene 64)).2.1 =
      some { pos_x := 0, pos_y := 0, temperature := 0, keyboard_activity := 1,
             mouse_activity := 1 } ∧
    (hdaps_values_sysctlproc simBus 1000 32 (fun _ => env_at 1000) 1000 1000 read_req
      (idle_scene 32)).2.1 =
      some { pos_x := 0, pos_y := 0, temperature := 0, keyboard_activity := 1,
             mouse_activity := 1 } ∧
    (initial_sampler 64).last_keyboard_ticks = 2 ^ 64 - 300000 ∧
    (initial_sampler 64).last_mouse_ticks = 2 ^ 64 - 300000 := by
  refine ⟨by decide, by decide, by decide, by decide, by decide, by decide⟩

end ThinkpadEC
